import Mathlib

/-!
# MAX31785 fan controller driver

A shallow embedding of `drivers/hwmon/max31785.c` and properties of its
register protocol, cache refresh and sysfs accessors.

Conventions of the embedding.

* Machine integers are natural numbers; every C conversion to `u8`, `u16` or
  `unsigned long` is an explicit reduction modulo `2 ^ 8`, `2 ^ 16`,
  `2 ^ BITS_PER_LONG`.
* The I2C bus is an external collaborator.  An `i2c_client` carries the answer
  the bus gives to the n-th transfer (`reply`) and the record of the transfers
  issued so far together with their answers (`log`).  Quantifying over `reply`
  covers every behaviour of the bus, since the driver is deterministic.
  A negative answer is an errno code.
* `struct max31785_data` is the record `max31785_data`; its `client` pointer is
  passed alongside it and `device_lock` is not represented (the embedding is
  sequential).
* A store accessor receives the outcome of `kstrtoul(buf, 10, &v)` as
  `Except Int Nat` (`error err` for a non-zero `err`, `ok v` for a parsed `v`)
  and returns its `ssize_t` result.
* A show accessor returns `error e` for `return PTR_ERR(data)` and `ok v` when
  it formats the integer `v` into the output buffer with `sprintf`.
* `jiffies` is an argument of a call and does not advance during it.
-/

namespace Max31785

/-! ## Constants of the driver -/

/-- Register `MAX31785_REG_PAGE`. -/
def MAX31785_REG_PAGE : Nat := 0x00
/-- Page of a fan channel, `MAX31785_PAGE_FAN_CONFIG(ch)`. -/
def MAX31785_PAGE_FAN_CONFIG (ch : Nat) : Nat := 0x00 + ch
/-- Register `MAX31785_REG_FAN_CONFIG_1_2`. -/
def MAX31785_REG_FAN_CONFIG_1_2 : Nat := 0x3a
/-- Register `MAX31785_REG_FAN_COMMAND_1`. -/
def MAX31785_REG_FAN_COMMAND_1 : Nat := 0x3b
/-- Register `MAX31785_REG_STATUS_FANS_1_2`. -/
def MAX31785_REG_STATUS_FANS_1_2 : Nat := 0x81
/-- Register `MAX31785_REG_FAN_SPEED_1`. -/
def MAX31785_REG_FAN_SPEED_1 : Nat := 0x90
/-- Register `MAX31785_REG_MFR_FAN_CONFIG`. -/
def MAX31785_REG_MFR_FAN_CONFIG : Nat := 0xf1
/-- Register `MAX31785_REG_READ_FAN_PWM`. -/
def MAX31785_REG_READ_FAN_PWM : Nat := 0xf3

/-- Fan config bit `MAX31785_FAN_CFG_PWM_ENABLE`. -/
def MAX31785_FAN_CFG_PWM_ENABLE : Nat := 0x80
/-- Fan config bit `MAX31785_FAN_CFG_CONTROL_MODE_RPM`. -/
def MAX31785_FAN_CFG_CONTROL_MODE_RPM : Nat := 0x40
/-- Fan config field `MAX31785_FAN_CFG_PULSE_MASK`. -/
def MAX31785_FAN_CFG_PULSE_MASK : Nat := 0x30
/-- Fan config field position `MAX31785_FAN_CFG_PULSE_SHIFT`. -/
def MAX31785_FAN_CFG_PULSE_SHIFT : Nat := 4
/-- Fan config field bias `MAX31785_FAN_CFG_PULSE_OFFSET`. -/
def MAX31785_FAN_CFG_PULSE_OFFSET : Nat := 1
/-- Fan status bit `MAX31785_FAN_STATUS_FAULT_MASK`. -/
def MAX31785_FAN_STATUS_FAULT_MASK : Nat := 0x80
/-- Scale between a PWM duty and a fan command, `MAX31785_FAN_COMMAND_PWM_RATIO`. -/
def MAX31785_FAN_COMMAND_PWM_RATIO : Nat := 40

/-- Number of fan channels, `NR_CHANNEL`. -/
abbrev NR_CHANNEL : Nat := 6

/-- Modelled from the spec: the errno of a validation error, `EINVAL`, whose
header is not part of the driver file. -/
def EINVAL : Int := 22

/-- Modelled from the spec: the width of `unsigned long` (and of `jiffies`),
which the driver file takes from the kernel configuration. -/
def BITS_PER_LONG : Nat := 64

/-! ## Integer conversions -/

/-- Conversion to `u8`. -/
def u8 (x : Nat) : Nat := x % 2 ^ 8
/-- Conversion to `u16`. -/
def u16 (x : Nat) : Nat := x % 2 ^ 16
/-- Conversion to `unsigned long`. -/
def ulong (x : Nat) : Nat := x % 2 ^ BITS_PER_LONG
/-- Conversion of an `int` to `u8`. -/
def int_to_u8 (x : Int) : Nat := (x % 2 ^ 8).toNat
/-- Conversion of an `int` to `u16`. -/
def int_to_u16 (x : Int) : Nat := (x % 2 ^ 16).toNat
/-- Subtraction of `unsigned long` values. -/
def ulong_sub (a b : Nat) : Nat := (ulong a + 2 ^ BITS_PER_LONG - ulong b) % 2 ^ BITS_PER_LONG
/-- Bit pattern of `~x` for a 32-bit `int` constant `x`. -/
def int_not (x : Nat) : Nat := 2 ^ 32 - 1 - x % 2 ^ 32
/-- Conversion of an `unsigned long` to `long`. -/
def to_long (x : Nat) : Int :=
  if ulong x < 2 ^ (BITS_PER_LONG - 1) then (ulong x : Int) else (ulong x : Int) - 2 ^ BITS_PER_LONG

/-- Modelled from the spec: the kernel macro `time_after(a, b)`, the signed
wrap-around comparison `(long)((b) - (a)) < 0` of two tick counts. -/
def time_after (a b : Nat) : Bool := decide (to_long (ulong_sub b a) < 0)

/-! ## The bus -/

/-- One SMBus transfer as it appears on the wire. -/
inductive Txn where
  | write_byte_data (command value : Nat)
  | write_word_data (command value : Nat)
  | read_byte_data (command : Nat)
  | read_word_data (command : Nat)
  deriving DecidableEq, Repr

/-- A transfer together with the value the bus returned for it. -/
structure Xfer where
  txn : Txn
  rv : Int
  deriving DecidableEq, Repr

/-- The bus handle: the answers of the bus and the transfers issued so far. -/
structure i2c_client where
  reply : Nat → Int
  log : List Xfer

/-- Every transfer on this bus succeeds. -/
def i2c_client.healthy (client : i2c_client) : Prop := ∀ n : Nat, 0 ≤ client.reply n

/-- Issue one transfer: the bus answers, the transfer is recorded. -/
def i2c_client.xfer (client : i2c_client) (t : Txn) : Int × i2c_client :=
  (client.reply client.log.length,
   { client with log := client.log ++ [⟨t, client.reply client.log.length⟩] })

/-- Modelled from the spec: the bus primitive `i2c_smbus_write_byte_data`
(byte write; `value` is a `u8`). -/
def i2c_smbus_write_byte_data (client : i2c_client) (command value : Nat) : Int × i2c_client :=
  client.xfer (Txn.write_byte_data (u8 command) (u8 value))

/-- Modelled from the spec: the bus primitive `i2c_smbus_write_word_data`
(word write; `value` is a `u16`). -/
def i2c_smbus_write_word_data (client : i2c_client) (command value : Nat) : Int × i2c_client :=
  client.xfer (Txn.write_word_data (u8 command) (u16 value))

/-- Modelled from the spec: the bus primitive `i2c_smbus_read_byte_data`. -/
def i2c_smbus_read_byte_data (client : i2c_client) (command : Nat) : Int × i2c_client :=
  client.xfer (Txn.read_byte_data (u8 command))

/-- Modelled from the spec: the bus primitive `i2c_smbus_read_word_data`. -/
def i2c_smbus_read_word_data (client : i2c_client) (command : Nat) : Int × i2c_client :=
  client.xfer (Txn.read_word_data (u8 command))

/-! ## Client data -/

/-- The cache `struct max31785_data` (register values of the six channels). -/
structure max31785_data where
  valid : Bool
  last_updated : Nat
  fan_config : Fin NR_CHANNEL → Nat
  fan_command : Fin NR_CHANNEL → Nat
  mfr_fan_config : Fin NR_CHANNEL → Nat
  fault_status : Fin NR_CHANNEL → Nat
  tach_rpm : Fin NR_CHANNEL → Nat
  pwm : Fin NR_CHANNEL → Nat

/-- Every field holds a value of its C type. -/
def max31785_data.wf (data : max31785_data) : Prop :=
  data.last_updated < 2 ^ BITS_PER_LONG ∧
  ∀ i : Fin NR_CHANNEL,
    data.fan_config i < 2 ^ 8 ∧ data.fan_command i < 2 ^ 16 ∧ data.mfr_fan_config i < 2 ^ 8 ∧
    data.fault_status i < 2 ^ 8 ∧ data.tach_rpm i < 2 ^ 16 ∧ data.pwm i < 2 ^ 16

/-! ## Register protocol -/

/-- The function `max31785_set_page`. -/
def max31785_set_page (client : i2c_client) (page : Nat) : Int × i2c_client :=
  i2c_smbus_write_byte_data client MAX31785_REG_PAGE (u8 page)

/-- The function `max31785_read_fan_data`. -/
def max31785_read_fan_data (client : i2c_client) (fan reg byte_mode : Nat) : Int × i2c_client :=
  let p := max31785_set_page client (MAX31785_PAGE_FAN_CONFIG (u8 fan))
  if p.1 < 0 then (p.1, p.2)
  else if u8 byte_mode ≠ 0 then i2c_smbus_read_byte_data p.2 (u8 reg)
  else i2c_smbus_read_word_data p.2 (u8 reg)

/-- The function `max31785_write_fan_data`. -/
def max31785_write_fan_data (client : i2c_client) (fan reg data byte_mode : Nat) :
    Int × i2c_client :=
  let p := max31785_set_page client (MAX31785_PAGE_FAN_CONFIG (u8 fan))
  if p.1 < 0 then (p.1, p.2)
  else
    let w := if u8 byte_mode ≠ 0 then i2c_smbus_write_byte_data p.2 (u8 reg) (u16 data)
             else i2c_smbus_write_word_data p.2 (u8 reg) (u16 data)
    if w.1 < 0 then (w.1, w.2) else (0, w.2)

/-- The function `is_automatic_control_mode`. -/
def is_automatic_control_mode (data : max31785_data) (index : Fin NR_CHANNEL) : Bool :=
  if data.fan_command index > 0x7fff then true else false

/-! ## Cache refresh -/

/-- A block of statements inside the `for` loop of `max31785_update_device`: it
transforms the bus handle and the cache, and its first component is `some rv`
when the block leaves through `goto abort` with that `rv`. -/
abbrev Poll : Type := i2c_client → max31785_data → Option Int × i2c_client × max31785_data

/-- Sequencing of two blocks: the second runs unless the first went to `abort`. -/
def Poll.seq (f g : Poll) : Poll := fun client data =>
  match f client data with
  | (some rv, client1, data1) => (some rv, client1, data1)
  | (none, client1, data1) => g client1 data1

/-- First block of the loop body: read `STATUS_FANS_1_2` into `fault_status[i]`. -/
def update_device_status (i : Fin NR_CHANNEL) : Poll := fun client data =>
  let r := max31785_read_fan_data client i MAX31785_REG_STATUS_FANS_1_2 1
  if r.1 < 0 then (some r.1, r.2, data)
  else (none, r.2,
    { data with fault_status := Function.update data.fault_status i (int_to_u8 r.1) })

/-- Second block of the loop body: read `FAN_SPEED_1` into `tach_rpm[i]`. -/
def update_device_speed (i : Fin NR_CHANNEL) : Poll := fun client data =>
  let r := max31785_read_fan_data client i MAX31785_REG_FAN_SPEED_1 0
  if r.1 < 0 then (some r.1, r.2, data)
  else (none, r.2, { data with tach_rpm := Function.update data.tach_rpm i (int_to_u16 r.1) })

/-- Third block of the loop body: in RPM or automatic mode read `READ_FAN_PWM`
into `pwm[i]`. -/
def update_device_pwm (i : Fin NR_CHANNEL) : Poll := fun client data =>
  if (decide (data.fan_config i &&& MAX31785_FAN_CFG_CONTROL_MODE_RPM ≠ 0)
      || is_automatic_control_mode data i) then
    let r := max31785_read_fan_data client i MAX31785_REG_READ_FAN_PWM 0
    if r.1 < 0 then (some r.1, r.2, data)
    else (none, r.2, { data with pwm := Function.update data.pwm i (int_to_u16 r.1) })
  else (none, client, data)

/-- Fourth block of the loop body: outside automatic mode write the cached
command back ("poke watchdog for manual fan control"). -/
def update_device_watchdog (i : Fin NR_CHANNEL) : Poll := fun client data =>
  if !is_automatic_control_mode data i then
    let w := max31785_write_fan_data client i MAX31785_REG_FAN_COMMAND_1 (data.fan_command i) 0
    if w.1 < 0 then (some w.1, w.2, data) else (none, w.2, data)
  else (none, client, data)

/-- One iteration of the `for` loop of `max31785_update_device`, for channel `i`. -/
def update_device_channel (i : Fin NR_CHANNEL) : Poll :=
  (update_device_status i).seq ((update_device_speed i).seq
    ((update_device_pwm i).seq (update_device_watchdog i)))

/-- The `for` loop of `max31785_update_device` over the remaining channels. -/
def update_device_loop : List (Fin NR_CHANNEL) → Poll
  | [] => fun client data => (none, client, data)
  | i :: rest => (update_device_channel i).seq (update_device_loop rest)

/-- The function `max31785_update_device`.  The first component is `ok ()` when
the function returns the data pointer and `error rv` when it returns
`ERR_PTR(rv)`. -/
def max31785_update_device (HZ jiffies : Nat) (client : i2c_client) (data : max31785_data) :
    Except Int Unit × i2c_client × max31785_data :=
  if (time_after jiffies (ulong (data.last_updated + HZ)) || !data.valid) then
    match update_device_loop (List.finRange NR_CHANNEL) client data with
    | (some rv, client1, data1) => (Except.error rv, client1, { data1 with valid := false })
    | (none, client1, data1) =>
      (Except.ok (), client1, { data1 with last_updated := ulong jiffies, valid := true })
  else (Except.ok (), client, data)

/-! ## Reading a poll trace -/

/-- Store `v` into entry `page` of a per-channel array, when `page` is a channel. -/
def store_at (f : Fin NR_CHANNEL → Nat) (page v : Nat) : Fin NR_CHANNEL → Nat :=
  if h : page < NR_CHANNEL then Function.update f ⟨page, h⟩ v else f

/-- What one transfer of a poll tells about the cache, given the page selected
so far: a successful write to `PAGE` selects a channel, a successful read of
`STATUS_FANS_1_2`, `FAN_SPEED_1` or `READ_FAN_PWM` is the new `fault_status`,
`tach_rpm` or `pwm` of the selected channel, and a failed transfer tells
nothing. -/
def trace_step (st : Nat × max31785_data) (x : Xfer) : Nat × max31785_data :=
  if x.rv < 0 then st
  else
    match x.txn with
    | Txn.write_byte_data command value =>
      if command = MAX31785_REG_PAGE then (value, st.2) else st
    | Txn.read_byte_data command =>
      if command = MAX31785_REG_STATUS_FANS_1_2 then
        (st.1, { st.2 with fault_status := store_at st.2.fault_status st.1 (int_to_u8 x.rv) })
      else st
    | Txn.read_word_data command =>
      if command = MAX31785_REG_FAN_SPEED_1 then
        (st.1, { st.2 with tach_rpm := store_at st.2.tach_rpm st.1 (int_to_u16 x.rv) })
      else if command = MAX31785_REG_READ_FAN_PWM then
        (st.1, { st.2 with pwm := store_at st.2.pwm st.1 (int_to_u16 x.rv) })
      else st
    | Txn.write_word_data _ _ => st

/-- The cache that results from `data` when the successful reads of a poll
trace are stored into it. -/
def trace_cache (data : max31785_data) (trace : List Xfer) : max31785_data :=
  (trace.foldl trace_step (0, data)).2

/-- The answers recorded in a trace are the answers of the bus to the transfers
number `n`, `n + 1`, ... -/
def answered (reply : Nat → Int) : Nat → List Xfer → Prop
  | _, [] => True
  | n, x :: rest => x.rv = reply n ∧ answered reply (n + 1) rest

/-- A block of the refresh loop is sound: it only appends to the log, records
the answers of the bus, stores exactly the successful reads of the appended
trace, aborts exactly at a failed transfer, which is then the last one, and
returns the answer of that transfer. -/
def Poll.Sound (f : Poll) : Prop :=
  ∀ (c : i2c_client) (d : max31785_data), ∃ new : List Xfer,
    (f c d).2.1.reply = c.reply ∧ (f c d).2.1.log = c.log ++ new ∧
    answered c.reply c.log.length new ∧
    (∀ p : Nat, (new.foldl trace_step (p, d)).2 = (f c d).2.2) ∧
    ((∀ rv, (f c d).1 = some rv →
        rv < 0 ∧ ∃ pre t, new = pre ++ [⟨t, rv⟩] ∧ ∀ y ∈ pre, 0 ≤ y.rv) ∧
     ((f c d).1 = none → ∀ y ∈ new, 0 ≤ y.rv))

/-! ## Accessors -/

/-- The show function `get_fan_target`. -/
def get_fan_target (HZ jiffies : Nat) (index : Fin NR_CHANNEL) (client : i2c_client)
    (data : max31785_data) : Except Int Int × i2c_client × max31785_data :=
  let u := max31785_update_device HZ jiffies client data
  match u.1 with
  | Except.error e => (Except.error e, u.2.1, u.2.2)
  | Except.ok _ =>
    let data := u.2.2
    let rpm : Int :=
      if data.fan_config index &&& MAX31785_FAN_CFG_CONTROL_MODE_RPM ≠ 0 then
        (data.fan_command index : Int)
      else
        (data.fan_command index : Int) / MAX31785_FAN_COMMAND_PWM_RATIO
    (Except.ok rpm, u.2.1, data)

/-- The store function `set_fan_target`. -/
def set_fan_target (index : Fin NR_CHANNEL) (buf : Except Int Nat) (count : Nat)
    (client : i2c_client) (data : max31785_data) : Int × i2c_client × max31785_data :=
  match buf with
  | Except.error err => (err, client, data)
  | Except.ok rpm =>
    if rpm > 0x7fff then (-EINVAL, client, data)
    else
      let data1 := { data with fan_command := Function.update data.fan_command index (u16 rpm) }
      let w := max31785_write_fan_data client index MAX31785_REG_FAN_COMMAND_1
                 (data1.fan_command index) 0
      if w.1 < 0 then (w.1, w.2, data1) else ((count : Int), w.2, data1)

/-- The show function `get_fan_pulses`. -/
def get_fan_pulses (HZ jiffies : Nat) (index : Fin NR_CHANNEL) (client : i2c_client)
    (data : max31785_data) : Except Int Int × i2c_client × max31785_data :=
  let u := max31785_update_device HZ jiffies client data
  match u.1 with
  | Except.error e => (Except.error e, u.2.1, u.2.2)
  | Except.ok _ =>
    let data := u.2.2
    let pulses : Nat :=
      ((data.fan_config index &&& MAX31785_FAN_CFG_PULSE_MASK) >>> MAX31785_FAN_CFG_PULSE_SHIFT)
        + MAX31785_FAN_CFG_PULSE_OFFSET
    (Except.ok (pulses : Int), u.2.1, data)

/-- The store function `set_fan_pulses`. -/
def set_fan_pulses (index : Fin NR_CHANNEL) (buf : Except Int Nat) (count : Nat)
    (client : i2c_client) (data : max31785_data) : Int × i2c_client × max31785_data :=
  match buf with
  | Except.error err => (err, client, data)
  | Except.ok pulses =>
    if pulses > 4 then (-EINVAL, client, data)
    else
      let cfg1 := u8 (data.fan_config index &&& MAX31785_FAN_CFG_PULSE_MASK)
      let data1 := { data with fan_config := Function.update data.fan_config index cfg1 }
      let cfg2 := u8 (data1.fan_config index |||
        ulong (ulong_sub pulses MAX31785_FAN_CFG_PULSE_OFFSET <<< MAX31785_FAN_CFG_PULSE_SHIFT))
      let data2 := { data1 with fan_config := Function.update data1.fan_config index cfg2 }
      let data3 := { data2 with fan_command := Function.update data2.fan_command index (u16 pulses) }
      let w := max31785_write_fan_data client index MAX31785_REG_FAN_CONFIG_1_2
                 (data3.fan_config index) 1
      if w.1 < 0 then (w.1, w.2, data3) else ((count : Int), w.2, data3)

/-- The show function `get_pwm`. -/
def get_pwm (HZ jiffies : Nat) (index : Fin NR_CHANNEL) (client : i2c_client)
    (data : max31785_data) : Except Int Int × i2c_client × max31785_data :=
  let u := max31785_update_device HZ jiffies client data
  match u.1 with
  | Except.error e => (Except.error e, u.2.1, u.2.2)
  | Except.ok _ =>
    let data := u.2.2
    let pwm : Int :=
      if (decide (data.fan_config index &&& MAX31785_FAN_CFG_CONTROL_MODE_RPM ≠ 0)
          || is_automatic_control_mode data index) then
        (data.pwm index : Int) / 100
      else
        (data.fan_command index : Int) / MAX31785_FAN_COMMAND_PWM_RATIO
    (Except.ok pwm, u.2.1, data)

/-- The store function `set_pwm`. -/
def set_pwm (index : Fin NR_CHANNEL) (buf : Except Int Nat) (count : Nat)
    (client : i2c_client) (data : max31785_data) : Int × i2c_client × max31785_data :=
  match buf with
  | Except.error err => (err, client, data)
  | Except.ok pwm =>
    if pwm > 255 then (-EINVAL, client, data)
    else
      let cmd := u16 (ulong (pwm * MAX31785_FAN_COMMAND_PWM_RATIO))
      let data1 := { data with fan_command := Function.update data.fan_command index cmd }
      let w := max31785_write_fan_data client index MAX31785_REG_FAN_COMMAND_1
                 (data1.fan_command index) 0
      if w.1 < 0 then (w.1, w.2, data1) else ((count : Int), w.2, data1)

/-- The show function `get_pwm_enable`. -/
def get_pwm_enable (HZ jiffies : Nat) (index : Fin NR_CHANNEL) (client : i2c_client)
    (data : max31785_data) : Except Int Int × i2c_client × max31785_data :=
  let u := max31785_update_device HZ jiffies client data
  match u.1 with
  | Except.error e => (Except.error e, u.2.1, u.2.2)
  | Except.ok _ =>
    let data := u.2.2
    let mode : Int :=
      if !decide (data.fan_config index &&& MAX31785_FAN_CFG_PWM_ENABLE ≠ 0) then 0
      else if is_automatic_control_mode data index then 3
      else if data.fan_config index &&& MAX31785_FAN_CFG_CONTROL_MODE_RPM ≠ 0 then 2
      else 1
    (Except.ok mode, u.2.1, data)

/-- The first `switch (mode)` of `set_pwm_enable`; `none` is its `default`. -/
def set_pwm_enable_switch1 (index : Fin NR_CHANNEL) (mode : Nat) (data : max31785_data) :
    Option max31785_data :=
  match mode with
  | 0 =>
    let cfg := u8 (data.fan_config index &&& int_not MAX31785_FAN_CFG_PWM_ENABLE)
    some { data with fan_config := Function.update data.fan_config index cfg }
  | 1 | 2 | 3 =>
    let cfg := u8 (data.fan_config index ||| MAX31785_FAN_CFG_PWM_ENABLE)
    some { data with fan_config := Function.update data.fan_config index cfg }
  | _ => none

/-- The second `switch (mode)` of `set_pwm_enable`; `none` is its `default`. -/
def set_pwm_enable_switch2 (index : Fin NR_CHANNEL) (mode : Nat) (data : max31785_data) :
    Option max31785_data :=
  match mode with
  | 0 => some data
  | 1 =>
    let cfg := u8 (data.fan_config index &&& int_not MAX31785_FAN_CFG_CONTROL_MODE_RPM)
    some { data with fan_config := Function.update data.fan_config index cfg }
  | 2 =>
    let cfg := u8 (data.fan_config index ||| MAX31785_FAN_CFG_CONTROL_MODE_RPM)
    some { data with fan_config := Function.update data.fan_config index cfg }
  | 3 => some { data with fan_command := Function.update data.fan_command index (u16 0xffff) }
  | _ => none

/-- The store function `set_pwm_enable`. -/
def set_pwm_enable (index : Fin NR_CHANNEL) (buf : Except Int Nat) (count : Nat)
    (client : i2c_client) (data : max31785_data) : Int × i2c_client × max31785_data :=
  match buf with
  | Except.error err => (err, client, data)
  | Except.ok mode =>
    match set_pwm_enable_switch1 index mode data with
    | none => (-EINVAL, client, data)
    | some data1 =>
      match set_pwm_enable_switch2 index mode data1 with
      | none => (-EINVAL, client, data1)
      | some data2 =>
        let w1 := max31785_write_fan_data client index MAX31785_REG_FAN_CONFIG_1_2
                    (data2.fan_config index) 1
        if w1.1 < 0 then (w1.1, w1.2, data2)
        else
          let w2 := max31785_write_fan_data w1.2 index MAX31785_REG_FAN_COMMAND_1
                      (data2.fan_command index) 0
          if w2.1 < 0 then (w2.1, w2.2, data2) else ((count : Int), w2.2, data2)

/-! ## Concrete inputs used in examples -/

/-- A bus on which every transfer succeeds with the answer `0`. -/
def quiet_client : i2c_client := ⟨fun _ => 0, []⟩

/-- A bus on which the n-th transfer fails with `-5` and all others answer `0`. -/
def failing_client (n : Nat) : i2c_client := ⟨fun k => if k = n then -5 else 0, []⟩

/-- The zero-filled cache that `max31785_probe` allocates. -/
def zero_data : max31785_data :=
  ⟨false, 0, fun _ => 0, fun _ => 0, fun _ => 0, fun _ => 0, fun _ => 0, fun _ => 0⟩

/-- A cache refreshed at tick 0 whose channels are all configured for four
pulses per revolution (`fan_config = 0x30`). -/
def four_pulse_data : max31785_data :=
  { zero_data with valid := true, fan_config := fun _ => 0x30 }

/-- A cache refreshed at tick 0 whose channels are all in RPM mode with the PWM
output enabled (`fan_config = 0xc0`). -/
def rpm_mode_data : max31785_data :=
  { zero_data with valid := true, fan_config := fun _ => 0xc0 }

/-- A cache never refreshed whose channels are all in automatic mode
(`fan_command = 0xffff`). -/
def automatic_data : max31785_data :=
  { zero_data with fan_command := fun _ => 0xffff }

/-! ## Initialisation -/

/-- Modelled from the spec: the errno `ENODEV`, whose header is not part of the
driver file. -/
def ENODEV : Int := 19

/-- Modelled from the spec: the errno `ENOMEM`, whose header is not part of the
driver file. -/
def ENOMEM : Int := 12

/-- One iteration of the `for` loop of `max31785_init_client`, for channel `i`.
The first component is `error rv` when the iteration executes `return rv`, and
`ok rv` with the value the variable `rv` has at the end of the iteration
otherwise. -/
def init_client_channel (i : Fin NR_CHANNEL) (client : i2c_client) (data : max31785_data) :
    Except Int Int × i2c_client × max31785_data :=
  let r1 := max31785_read_fan_data client i MAX31785_REG_FAN_CONFIG_1_2 1
  if r1.1 < 0 then (Except.error r1.1, r1.2, data) else
  let data1 := { data with fan_config := Function.update data.fan_config i (int_to_u8 r1.1) }
  let r2 := max31785_read_fan_data r1.2 i MAX31785_REG_FAN_COMMAND_1 0
  if r2.1 < 0 then (Except.error r2.1, r2.2, data1) else
  let data2 :=
    { data1 with fan_command := Function.update data1.fan_command i (int_to_u16 r2.1) }
  let r3 := max31785_read_fan_data r2.2 i MAX31785_REG_MFR_FAN_CONFIG 1
  if r3.1 < 0 then (Except.error r3.1, r3.2, data2) else
  let data3 :=
    { data2 with mfr_fan_config := Function.update data2.mfr_fan_config i (int_to_u8 r3.1) }
  let data4 :=
    if !(decide (data3.fan_config i &&& MAX31785_FAN_CFG_CONTROL_MODE_RPM ≠ 0)
          || is_automatic_control_mode data3 i) then
      { data3 with pwm := Function.update data3.pwm i 0 }
    else data3
  (Except.ok r3.1, r3.2, data4)

/-- The `for` loop of `max31785_init_client` over the remaining channels; `rv`
is the current value of the variable `rv`. -/
def init_client_loop : List (Fin NR_CHANNEL) → Int → i2c_client → max31785_data →
    Except Int Int × i2c_client × max31785_data
  | [], rv, client, data => (Except.ok rv, client, data)
  | i :: rest, _, client, data =>
    match init_client_channel i client data with
    | (Except.error rv, client1, data1) => (Except.error rv, client1, data1)
    | (Except.ok rv, client1, data1) => init_client_loop rest rv client1 data1

/-- The function `max31785_init_client`; it returns `rv` both from inside the
loop and after it.  The variable `rv` is not initialised in the source; the loop
assigns it before any use, and the model starts it at `0`. -/
def max31785_init_client (client : i2c_client) (data : max31785_data) :
    Int × i2c_client × max31785_data :=
  match init_client_loop (List.finRange NR_CHANNEL) 0 client data with
  | (Except.error rv, client1, data1) => (rv, client1, data1)
  | (Except.ok rv, client1, data1) => (rv, client1, data1)

/-- What `max31785_probe` did: its return value, the bus handle, the cache it
allocated (if any) and whether it called
`devm_hwmon_device_register_with_groups`. -/
structure probe_result where
  ret : Int
  client : i2c_client
  data : Option max31785_data
  registered : Bool

/-- The function `max31785_probe`.  The outcomes of the kernel services it calls
are arguments: `functionality` for `i2c_check_functionality`, `alloc` for the
success of `devm_kzalloc` (which zero-fills the cache), and `hwmon_dev` for
`PTR_ERR_OR_ZERO` of the registration. -/
def max31785_probe (functionality alloc : Bool) (hwmon_dev : Int) (client : i2c_client) :
    probe_result :=
  if !functionality then ⟨-ENODEV, client, none, false⟩
  else if !alloc then ⟨-ENOMEM, client, none, false⟩
  else
    let r := max31785_init_client client zero_data
    if r.1 ≠ 0 then ⟨r.1, r.2.1, some r.2.2, false⟩
    else ⟨hwmon_dev, r.2.1, some r.2.2, true⟩

/-- A bus on which every transfer succeeds, the 36th (the read of
`MFR_FAN_CONFIG` of channel 5) with the answer `1` and all others with `0`. -/
def mfr_client : i2c_client := ⟨fun k => if k = 35 then 1 else 0, []⟩

/-! ## Shape of a trace -/

/-- The register a transfer addresses. -/
def Txn.command : Txn → Nat
  | Txn.write_byte_data command _ => command
  | Txn.write_word_data command _ => command
  | Txn.read_byte_data command => command
  | Txn.read_word_data command => command

/-- The transfer is a byte write to `PAGE` that selects a page `p` with `P p`. -/
def Xfer.selects (P : Nat → Prop) (x : Xfer) : Prop :=
  ∃ p, P p ∧ x.txn = Txn.write_byte_data MAX31785_REG_PAGE p

/-- Every register access of the trace is immediately preceded by a successful
page select of a page in `P`: the trace is a sequence of pairs, a successful
write to `PAGE` followed by one access to another register, and may end with a
failed write to `PAGE` for which no access is issued. -/
def paged (P : Nat → Prop) : List Xfer → Prop
  | [] => True
  | [sel] => sel.selects P ∧ sel.rv < 0
  | sel :: acc :: rest =>
    sel.selects P ∧ 0 ≤ sel.rv ∧ acc.txn.command ≠ MAX31785_REG_PAGE ∧ paged P rest

/-- The transfers the specification lists for channel `i` of a successful poll:
status read, speed read, the PWM read when bit 6 of `fan_config[i]` is set or
`fan_command[i] > 0x7fff`, and the write of `fan_command[i]` when
`fan_command[i] <= 0x7fff`, each after a page select of `i`. -/
def poll_channel_spec (data : max31785_data) (i : Fin NR_CHANNEL) : List Txn :=
  [Txn.write_byte_data MAX31785_REG_PAGE i, Txn.read_byte_data MAX31785_REG_STATUS_FANS_1_2,
   Txn.write_byte_data MAX31785_REG_PAGE i, Txn.read_word_data MAX31785_REG_FAN_SPEED_1] ++
  (if (data.fan_config i).testBit 6 = true ∨ 0x7fff < data.fan_command i then
    [Txn.write_byte_data MAX31785_REG_PAGE i, Txn.read_word_data MAX31785_REG_READ_FAN_PWM]
   else []) ++
  (if data.fan_command i ≤ 0x7fff then
    [Txn.write_byte_data MAX31785_REG_PAGE i,
     Txn.write_word_data MAX31785_REG_FAN_COMMAND_1 (data.fan_command i)]
   else [])

/-- The transfers the specification lists for a successful poll of the channels
`l`, in the order of `l`. -/
def poll_spec (data : max31785_data) : List (Fin NR_CHANNEL) → List Txn
  | [] => []
  | i :: rest => poll_channel_spec data i ++ poll_spec data rest

/-- A block of the refresh loop respects paging and the listed transfers: its
trace is `paged` on `P`, on success (and for a cache whose fields are within
their C types) the transfers are the ones `e` lists for the cache it started
from, and it keeps every field of the cache within its C type. -/
def Poll.Traced (P : Nat → Prop) (e : max31785_data → List Txn) (f : Poll) : Prop :=
  ∀ (c : i2c_client) (d : max31785_data), ∃ new : List Xfer,
    (f c d).2.1.log = c.log ++ new ∧ paged P new ∧
    ((f c d).1 = none → d.wf → new.map Xfer.txn = e d) ∧
    (d.wf → (f c d).2.2.wf)

/-- The trace splits into one segment per channel of `l`, in the order of `l`:
the segment of channel `i` is `paged` on page `i`, and further transfers follow
a segment only when all its transfers succeeded. -/
def paged_seq : List (Fin NR_CHANNEL) → List Xfer → Prop
  | [], new => new = []
  | i :: rest, new =>
    ∃ n1 n2, new = n1 ++ n2 ∧ paged (fun p => p = (i : Nat)) n1 ∧
      (n2 ≠ [] → ∀ y ∈ n1, 0 ≤ y.rv) ∧ paged_seq rest n2

/-! ## Caches the driver can reach -/

/-- The caches reachable through the driver: the cache a successful
`max31785_init_client` builds from the zero-filled allocation, and every cache
that a refresh or a store function makes from a reachable one. -/
inductive reachable : max31785_data → Prop
  | init (client : i2c_client) :
      (max31785_init_client client zero_data).1 = 0 →
      reachable (max31785_init_client client zero_data).2.2
  | update_device (HZ jiffies : Nat) (client : i2c_client) (data : max31785_data) :
      reachable data → reachable (max31785_update_device HZ jiffies client data).2.2
  | set_fan_target (index : Fin NR_CHANNEL) (buf : Except Int Nat) (count : Nat)
      (client : i2c_client) (data : max31785_data) :
      reachable data → reachable (set_fan_target index buf count client data).2.2
  | set_fan_pulses (index : Fin NR_CHANNEL) (buf : Except Int Nat) (count : Nat)
      (client : i2c_client) (data : max31785_data) :
      reachable data → reachable (set_fan_pulses index buf count client data).2.2
  | set_pwm (index : Fin NR_CHANNEL) (buf : Except Int Nat) (count : Nat)
      (client : i2c_client) (data : max31785_data) :
      reachable data → reachable (set_pwm index buf count client data).2.2
  | set_pwm_enable (index : Fin NR_CHANNEL) (buf : Except Int Nat) (count : Nat)
      (client : i2c_client) (data : max31785_data) :
      reachable data → reachable (set_pwm_enable index buf count client data).2.2

/-- The bus handle and cache after `max31785_init_client` on a bus where every
transfer answers `0`. -/
def probed_state : i2c_client × max31785_data :=
  ((max31785_init_client quiet_client zero_data).2.1,
   (max31785_init_client quiet_client zero_data).2.2)

/-- The state `probed_state` after mode 1 (manual PWM) is written to
`pwm1_enable`. -/
def manual_state : i2c_client × max31785_data :=
  ((set_pwm_enable 0 (Except.ok 1) 2 probed_state.1 probed_state.2).2.1,
   (set_pwm_enable 0 (Except.ok 1) 2 probed_state.1 probed_state.2).2.2)

/-- The state `manual_state` after the target 32767 is written to `fan1_target`. -/
def high_target_state : i2c_client × max31785_data :=
  ((set_fan_target 0 (Except.ok 32767) 6 manual_state.1 manual_state.2).2.1,
   (set_fan_target 0 (Except.ok 32767) 6 manual_state.1 manual_state.2).2.2)


/-! ## Lock events of the store functions -/

/-- An event of a store function on the shared state: the acquire and the release of
`device_lock`, and an assignment to an element of `fan_config` or `fan_command`. -/
inductive Event
  | mutex_lock
  | mutex_unlock
  | store_fan_config (index : Fin NR_CHANNEL) (v : Nat)
  | store_fan_command (index : Fin NR_CHANNEL) (v : Nat)

/-- The effect of an event on the cache. -/
def Event.apply (data : max31785_data) : Event → max31785_data
  | Event.mutex_lock => data
  | Event.mutex_unlock => data
  | Event.store_fan_config index v =>
    { data with fan_config := Function.update data.fan_config index v }
  | Event.store_fan_command index v =>
    { data with fan_command := Function.update data.fan_command index v }

/-- The cache after a list of events. -/
def Event.replay (data : max31785_data) (events : List Event) : max31785_data :=
  events.foldl Event.apply data

/-- The events of `set_fan_target`, in statement order. -/
def set_fan_target_events (index : Fin NR_CHANNEL) (buf : Except Int Nat)
    (_data : max31785_data) : List Event :=
  match buf with
  | Except.error _ => []
  | Except.ok rpm =>
    if rpm > 0x7fff then []
    else [Event.mutex_lock, Event.store_fan_command index (u16 rpm), Event.mutex_unlock]

/-- The events of `set_pwm`, in statement order. -/
def set_pwm_events (index : Fin NR_CHANNEL) (buf : Except Int Nat)
    (_data : max31785_data) : List Event :=
  match buf with
  | Except.error _ => []
  | Except.ok pwm =>
    if pwm > 255 then []
    else [Event.mutex_lock,
          Event.store_fan_command index (u16 (ulong (pwm * MAX31785_FAN_COMMAND_PWM_RATIO))),
          Event.mutex_unlock]

/-- The events of `set_fan_pulses`, in statement order: the `&=` and the `|=` on
`fan_config` stand before `mutex_lock`. -/
def set_fan_pulses_events (index : Fin NR_CHANNEL) (buf : Except Int Nat)
    (data : max31785_data) : List Event :=
  match buf with
  | Except.error _ => []
  | Except.ok pulses =>
    if pulses > 4 then []
    else
      let cfg1 := u8 (data.fan_config index &&& MAX31785_FAN_CFG_PULSE_MASK)
      let cfg2 := u8 (cfg1 |||
        ulong (ulong_sub pulses MAX31785_FAN_CFG_PULSE_OFFSET <<< MAX31785_FAN_CFG_PULSE_SHIFT))
      [Event.store_fan_config index cfg1, Event.store_fan_config index cfg2,
       Event.mutex_lock, Event.store_fan_command index (u16 pulses), Event.mutex_unlock]

/-- The events of the second `switch (mode)` of `set_pwm_enable`. -/
def set_pwm_enable_switch2_events (index : Fin NR_CHANNEL) (mode : Nat)
    (data : max31785_data) : List Event :=
  match mode with
  | 0 => []
  | 1 =>
    [Event.store_fan_config index
      (u8 (data.fan_config index &&& int_not MAX31785_FAN_CFG_CONTROL_MODE_RPM))]
  | 2 =>
    [Event.store_fan_config index
      (u8 (data.fan_config index ||| MAX31785_FAN_CFG_CONTROL_MODE_RPM))]
  | 3 => [Event.store_fan_command index (u16 0xffff)]
  | _ => []

/-- The events of `set_pwm_enable`, in statement order: both `switch (mode)`
statements stand before `mutex_lock`. -/
def set_pwm_enable_events (index : Fin NR_CHANNEL) (buf : Except Int Nat)
    (data : max31785_data) : List Event :=
  match buf with
  | Except.error _ => []
  | Except.ok mode =>
    match set_pwm_enable_switch1 index mode data with
    | none => []
    | some data1 =>
      let s1 := [Event.store_fan_config index (data1.fan_config index)]
      match set_pwm_enable_switch2 index mode data1 with
      | none => s1
      | some _ =>
        s1 ++ set_pwm_enable_switch2_events index mode data1 ++
          [Event.mutex_lock, Event.mutex_unlock]

/-- Whether every store of a list of events happens while the lock is held; the
flag is whether the lock is held before the first event. -/
def stores_under_lock : Bool → List Event → Bool
  | _, [] => true
  | _, Event.mutex_lock :: rest => stores_under_lock true rest
  | _, Event.mutex_unlock :: rest => stores_under_lock false rest
  | held, Event.store_fan_config _ _ :: rest => held && stores_under_lock held rest
  | held, Event.store_fan_command _ _ :: rest => held && stores_under_lock held rest
/-! ## Basic facts about the conversions and the bus -/

theorem u8_of_lt {x : Nat} (h : x < 256) : u8 x = x := by
  unfold u8; exact Nat.mod_eq_of_lt (by simpa using h)

theorem u16_of_lt {x : Nat} (h : x < 65536) : u16 x = x := by
  unfold u16; exact Nat.mod_eq_of_lt (by simpa using h)

theorem u8_channel (i : Fin NR_CHANNEL) : u8 (i : Nat) = i :=
  u8_of_lt (by have h : (i : Nat) < 6 := i.isLt; omega)

theorem u16_u16 (x : Nat) : u16 (u16 x) = u16 x := by
  unfold u16; exact Nat.mod_mod _ _

theorem u16_u8_of_lt {x : Nat} (h : x < 256) : u8 (u16 x) = x := by
  rw [u16_of_lt (by omega), u8_of_lt h]

/-- The two transfers of a word write through `max31785_write_fan_data`. -/
theorem write_fan_data_word (c : i2c_client) (i : Fin NR_CHANNEL) (reg v : Nat)
    (hreg : reg < 256) :
    max31785_write_fan_data c i reg v 0 =
      if c.reply c.log.length < 0 then
        (c.reply c.log.length,
          ⟨c.reply, c.log ++ [⟨Txn.write_byte_data 0 i, c.reply c.log.length⟩]⟩)
      else if c.reply (c.log.length + 1) < 0 then
        (c.reply (c.log.length + 1),
          ⟨c.reply, c.log ++ [⟨Txn.write_byte_data 0 i, c.reply c.log.length⟩,
                              ⟨Txn.write_word_data reg (u16 v), c.reply (c.log.length + 1)⟩]⟩)
      else
        (0, ⟨c.reply, c.log ++ [⟨Txn.write_byte_data 0 i, c.reply c.log.length⟩,
                              ⟨Txn.write_word_data reg (u16 v), c.reply (c.log.length + 1)⟩]⟩) := by
  simp only [max31785_write_fan_data, max31785_set_page, i2c_smbus_write_byte_data,
    i2c_smbus_write_word_data, i2c_client.xfer, MAX31785_PAGE_FAN_CONFIG, MAX31785_REG_PAGE,
    u8_channel, Nat.zero_add, u8_of_lt hreg]
  have h0 : u8 0 = 0 := rfl
  simp only [h0, u16_u16]
  split_ifs <;> simp_all


/-- The two transfers of a byte write through `max31785_write_fan_data`. -/
theorem write_fan_data_byte (c : i2c_client) (i : Fin NR_CHANNEL) (reg v : Nat)
    (hreg : reg < 256) :
    max31785_write_fan_data c i reg v 1 =
      if c.reply c.log.length < 0 then
        (c.reply c.log.length,
          ⟨c.reply, c.log ++ [⟨Txn.write_byte_data 0 i, c.reply c.log.length⟩]⟩)
      else if c.reply (c.log.length + 1) < 0 then
        (c.reply (c.log.length + 1),
          ⟨c.reply, c.log ++ [⟨Txn.write_byte_data 0 i, c.reply c.log.length⟩,
                              ⟨Txn.write_byte_data reg (u8 (u16 v)), c.reply (c.log.length + 1)⟩]⟩)
      else
        (0, ⟨c.reply, c.log ++ [⟨Txn.write_byte_data 0 i, c.reply c.log.length⟩,
                              ⟨Txn.write_byte_data reg (u8 (u16 v)), c.reply (c.log.length + 1)⟩]⟩) := by
  simp only [max31785_write_fan_data, max31785_set_page, i2c_smbus_write_byte_data,
    i2c_smbus_write_word_data, i2c_client.xfer, MAX31785_PAGE_FAN_CONFIG, MAX31785_REG_PAGE,
    u8_channel, Nat.zero_add, u8_of_lt hreg]
  have h0 : u8 0 = 0 := rfl
  have h1 : u8 1 ≠ 0 := by decide
  simp only [h0, h1]
  split_ifs <;> simp_all

/-- The two transfers of a byte read through `max31785_read_fan_data`. -/
theorem read_fan_data_byte (c : i2c_client) (i : Fin NR_CHANNEL) (reg : Nat) (hreg : reg < 256) :
    max31785_read_fan_data c i reg 1 =
      if c.reply c.log.length < 0 then
        (c.reply c.log.length,
          ⟨c.reply, c.log ++ [⟨Txn.write_byte_data 0 i, c.reply c.log.length⟩]⟩)
      else
        (c.reply (c.log.length + 1),
          ⟨c.reply, c.log ++ [⟨Txn.write_byte_data 0 i, c.reply c.log.length⟩,
                              ⟨Txn.read_byte_data reg, c.reply (c.log.length + 1)⟩]⟩) := by
  simp only [max31785_read_fan_data, max31785_set_page, i2c_smbus_write_byte_data,
    i2c_smbus_read_byte_data, i2c_smbus_read_word_data, i2c_client.xfer,
    MAX31785_PAGE_FAN_CONFIG, MAX31785_REG_PAGE, u8_channel, Nat.zero_add, u8_of_lt hreg]
  have h0 : u8 0 = 0 := rfl
  have h1 : u8 1 ≠ 0 := by decide
  simp only [h0, h1]
  split_ifs <;> simp_all

/-- The two transfers of a word read through `max31785_read_fan_data`. -/
theorem read_fan_data_word (c : i2c_client) (i : Fin NR_CHANNEL) (reg : Nat) (hreg : reg < 256) :
    max31785_read_fan_data c i reg 0 =
      if c.reply c.log.length < 0 then
        (c.reply c.log.length,
          ⟨c.reply, c.log ++ [⟨Txn.write_byte_data 0 i, c.reply c.log.length⟩]⟩)
      else
        (c.reply (c.log.length + 1),
          ⟨c.reply, c.log ++ [⟨Txn.write_byte_data 0 i, c.reply c.log.length⟩,
                              ⟨Txn.read_word_data reg, c.reply (c.log.length + 1)⟩]⟩) := by
  simp only [max31785_read_fan_data, max31785_set_page, i2c_smbus_write_byte_data,
    i2c_smbus_read_byte_data, i2c_smbus_read_word_data, i2c_client.xfer,
    MAX31785_PAGE_FAN_CONFIG, MAX31785_REG_PAGE, u8_channel, Nat.zero_add, u8_of_lt hreg]
  have h0 : u8 0 = 0 := rfl
  simp only [h0]
  split_ifs <;> simp_all


theorem store_at_channel (f : Fin NR_CHANNEL → Nat) (i : Fin NR_CHANNEL) (v : Nat) :
    store_at f i v = Function.update f i v := by
  unfold store_at
  simp [i.isLt]

theorem answered_append (reply : Nat → Int) (n : Nat) (l1 l2 : List Xfer) :
    answered reply n (l1 ++ l2) ↔ answered reply n l1 ∧ answered reply (n + l1.length) l2 := by
  induction l1 generalizing n with
  | nil => simp [answered]
  | cons x l ih =>
    have h : n + (l.length + 1) = n + 1 + l.length := by omega
    show (x.rv = reply n ∧ answered reply (n + 1) (l ++ l2)) ↔
      (x.rv = reply n ∧ answered reply (n + 1) l) ∧ answered reply (n + (l.length + 1)) l2
    rw [ih, h, and_assoc]

theorem answered_mem {reply : Nat → Int} {n : Nat} {l : List Xfer} (h : answered reply n l) :
    ∀ y ∈ l, ∃ m, y.rv = reply m := by
  induction l generalizing n with
  | nil => simp
  | cons x l ih =>
    intro y hy
    rcases List.mem_cons.mp hy with rfl | hy
    · exact ⟨n, h.1⟩
    · exact ih h.2 y hy

theorem update_device_status_sound (i : Fin NR_CHANNEL) : (update_device_status i).Sound := by
  intro c d
  unfold update_device_status
  rw [read_fan_data_byte _ _ _ (show MAX31785_REG_STATUS_FANS_1_2 < 256 by decide)]
  by_cases h0 : c.reply c.log.length < 0
  · refine ⟨[⟨Txn.write_byte_data 0 i, c.reply c.log.length⟩], ?_⟩
    rw [if_pos h0]
    dsimp only
    rw [if_pos h0]
    refine ⟨rfl, rfl, ⟨rfl, trivial⟩, ?_, ?_, ?_⟩
    · intro p; simp [trace_step, h0]
    · intro rv h; cases h; exact ⟨h0, [], _, rfl, by simp⟩
    · intro h; cases h
  · have h0p : 0 ≤ c.reply c.log.length := not_lt.mp h0
    refine ⟨[⟨Txn.write_byte_data 0 i, c.reply c.log.length⟩,
        ⟨Txn.read_byte_data MAX31785_REG_STATUS_FANS_1_2, c.reply (c.log.length + 1)⟩], ?_⟩
    rw [if_neg h0]
    dsimp only
    by_cases h1 : c.reply (c.log.length + 1) < 0
    · rw [if_pos h1]
      refine ⟨rfl, rfl, ⟨rfl, rfl, trivial⟩, ?_, ?_, ?_⟩
      · intro p; simp [trace_step, h0, h1, MAX31785_REG_PAGE]
      · intro rv h; cases h; exact ⟨h1, [_], _, rfl, by simpa using h0p⟩
      · intro h; cases h
    · have h1p : 0 ≤ c.reply (c.log.length + 1) := not_lt.mp h1
      rw [if_neg h1]
      refine ⟨rfl, rfl, ⟨rfl, rfl, trivial⟩, ?_, ?_, ?_⟩
      · intro p; simp [trace_step, h0, h1, MAX31785_REG_PAGE, store_at_channel]
      · intro rv h; cases h
      · intro _; simp [h0p, h1p]

theorem update_device_speed_sound (i : Fin NR_CHANNEL) : (update_device_speed i).Sound := by
  intro c d
  unfold update_device_speed
  rw [read_fan_data_word _ _ _ (show MAX31785_REG_FAN_SPEED_1 < 256 by decide)]
  by_cases h0 : c.reply c.log.length < 0
  · refine ⟨[⟨Txn.write_byte_data 0 i, c.reply c.log.length⟩], ?_⟩
    rw [if_pos h0]
    dsimp only
    rw [if_pos h0]
    refine ⟨rfl, rfl, ⟨rfl, trivial⟩, ?_, ?_, ?_⟩
    · intro p; simp [trace_step, h0]
    · intro rv h; cases h; exact ⟨h0, [], _, rfl, by simp⟩
    · intro h; cases h
  · have h0p : 0 ≤ c.reply c.log.length := not_lt.mp h0
    refine ⟨[⟨Txn.write_byte_data 0 i, c.reply c.log.length⟩,
        ⟨Txn.read_word_data MAX31785_REG_FAN_SPEED_1, c.reply (c.log.length + 1)⟩], ?_⟩
    rw [if_neg h0]
    dsimp only
    by_cases h1 : c.reply (c.log.length + 1) < 0
    · rw [if_pos h1]
      refine ⟨rfl, rfl, ⟨rfl, rfl, trivial⟩, ?_, ?_, ?_⟩
      · intro p; simp [trace_step, h0, h1, MAX31785_REG_PAGE]
      · intro rv h; cases h; exact ⟨h1, [_], _, rfl, by simpa using h0p⟩
      · intro h; cases h
    · have h1p : 0 ≤ c.reply (c.log.length + 1) := not_lt.mp h1
      rw [if_neg h1]
      refine ⟨rfl, rfl, ⟨rfl, rfl, trivial⟩, ?_, ?_, ?_⟩
      · intro p; simp [trace_step, h0, h1, MAX31785_REG_PAGE, store_at_channel]
      · intro rv h; cases h
      · intro _; simp [h0p, h1p]

theorem update_device_pwm_sound (i : Fin NR_CHANNEL) : (update_device_pwm i).Sound := by
  intro c d
  unfold update_device_pwm
  by_cases hm : (decide (d.fan_config i &&& MAX31785_FAN_CFG_CONTROL_MODE_RPM ≠ 0)
      || is_automatic_control_mode d i) = true
  swap
  · rw [if_neg hm]
    refine ⟨[], rfl, by simp, trivial, fun _ => rfl, ?_, ?_⟩
    · intro rv h; cases h
    · intro _ y hy; cases hy
  rw [if_pos hm, read_fan_data_word _ _ _ (show MAX31785_REG_READ_FAN_PWM < 256 by decide)]
  by_cases h0 : c.reply c.log.length < 0
  · refine ⟨[⟨Txn.write_byte_data 0 i, c.reply c.log.length⟩], ?_⟩
    rw [if_pos h0]
    dsimp only
    rw [if_pos h0]
    refine ⟨rfl, rfl, ⟨rfl, trivial⟩, ?_, ?_, ?_⟩
    · intro p; simp [trace_step, h0]
    · intro rv h; cases h; exact ⟨h0, [], _, rfl, by simp⟩
    · intro h; cases h
  · have h0p : 0 ≤ c.reply c.log.length := not_lt.mp h0
    refine ⟨[⟨Txn.write_byte_data 0 i, c.reply c.log.length⟩,
        ⟨Txn.read_word_data MAX31785_REG_READ_FAN_PWM, c.reply (c.log.length + 1)⟩], ?_⟩
    rw [if_neg h0]
    dsimp only
    by_cases h1 : c.reply (c.log.length + 1) < 0
    · rw [if_pos h1]
      refine ⟨rfl, rfl, ⟨rfl, rfl, trivial⟩, ?_, ?_, ?_⟩
      · intro p; simp [trace_step, h0, h1, MAX31785_REG_PAGE]
      · intro rv h; cases h; exact ⟨h1, [_], _, rfl, by simpa using h0p⟩
      · intro h; cases h
    · have h1p : 0 ≤ c.reply (c.log.length + 1) := not_lt.mp h1
      rw [if_neg h1]
      refine ⟨rfl, rfl, ⟨rfl, rfl, trivial⟩, ?_, ?_, ?_⟩
      · intro p
        simp [trace_step, h0, h1, MAX31785_REG_PAGE, store_at_channel,
          MAX31785_REG_READ_FAN_PWM, MAX31785_REG_FAN_SPEED_1]
      · intro rv h; cases h
      · intro _; simp [h0p, h1p]

theorem update_device_watchdog_sound (i : Fin NR_CHANNEL) :
    (update_device_watchdog i).Sound := by
  intro c d
  unfold update_device_watchdog
  by_cases hm : (!is_automatic_control_mode d i) = true
  swap
  · rw [if_neg hm]
    refine ⟨[], rfl, by simp, trivial, fun _ => rfl, ?_, ?_⟩
    · intro rv h; cases h
    · intro _ y hy; cases hy
  rw [if_pos hm, write_fan_data_word _ _ _ _ (show MAX31785_REG_FAN_COMMAND_1 < 256 by decide)]
  by_cases h0 : c.reply c.log.length < 0
  · refine ⟨[⟨Txn.write_byte_data 0 i, c.reply c.log.length⟩], ?_⟩
    rw [if_pos h0]
    dsimp only
    rw [if_pos h0]
    refine ⟨rfl, rfl, ⟨rfl, trivial⟩, ?_, ?_, ?_⟩
    · intro p; simp [trace_step, h0]
    · intro rv h; cases h; exact ⟨h0, [], _, rfl, by simp⟩
    · intro h; cases h
  · have h0p : 0 ≤ c.reply c.log.length := not_lt.mp h0
    refine ⟨[⟨Txn.write_byte_data 0 i, c.reply c.log.length⟩,
        ⟨Txn.write_word_data MAX31785_REG_FAN_COMMAND_1 (u16 (d.fan_command i)),
          c.reply (c.log.length + 1)⟩], ?_⟩
    rw [if_neg h0]
    by_cases h1 : c.reply (c.log.length + 1) < 0
    · rw [if_pos h1]
      dsimp only
      rw [if_pos h1]
      refine ⟨rfl, rfl, ⟨rfl, rfl, trivial⟩, ?_, ?_, ?_⟩
      · intro p; simp [trace_step, h0, h1, MAX31785_REG_PAGE]
      · intro rv h; cases h; exact ⟨h1, [_], _, rfl, by simpa using h0p⟩
      · intro h; cases h
    · have h1p : 0 ≤ c.reply (c.log.length + 1) := not_lt.mp h1
      rw [if_neg h1]
      dsimp only
      rw [if_neg (lt_irrefl (0 : Int))]
      refine ⟨rfl, rfl, ⟨rfl, rfl, trivial⟩, ?_, ?_, ?_⟩
      · intro p; simp [trace_step, h0, h1, MAX31785_REG_PAGE]
      · intro rv h; cases h
      · intro _; simp [h0p, h1p]

theorem Poll.Sound.seq {f g : Poll} (hf : f.Sound) (hg : g.Sound) : (f.seq g).Sound := by
  intro c d
  obtain ⟨n1, hr1, hl1, ha1, ht1, hab1, hok1⟩ := hf c d
  unfold Poll.seq
  rcases hfc : f c d with ⟨o, c1, d1⟩
  rw [hfc] at hr1 hl1 ht1 hab1 hok1
  dsimp only at hr1 hl1 ht1 hab1 hok1
  cases o with
  | some rv =>
    exact ⟨n1, hr1, hl1, ha1, ht1, hab1, hok1⟩
  | none =>
    obtain ⟨n2, hr2, hl2, ha2, ht2, hab2, hok2⟩ := hg c1 d1
    dsimp only
    refine ⟨n1 ++ n2, hr2.trans hr1, ?_, ?_, ?_, ?_, ?_⟩
    · rw [hl2, hl1, List.append_assoc]
    · rw [answered_append]
      refine ⟨ha1, ?_⟩
      have hlen : c1.log.length = c.log.length + n1.length := by rw [hl1, List.length_append]
      rw [← hlen, ← hr1]
      exact ha2
    · intro p
      rw [List.foldl_append]
      have h1 := ht1 p
      rw [← ht2 (List.foldl trace_step (p, d) n1).1]
      congr 1
      rw [← h1]
    · intro rv h
      obtain ⟨hneg, pre, t, hn2, hpre⟩ := hab2 rv h
      refine ⟨hneg, n1 ++ pre, t, ?_, ?_⟩
      · rw [hn2, List.append_assoc]
      · intro y hy
        rcases List.mem_append.mp hy with hy | hy
        · exact hok1 rfl y hy
        · exact hpre y hy
    · intro h y hy
      rcases List.mem_append.mp hy with hy | hy
      · exact hok1 rfl y hy
      · exact hok2 h y hy

theorem update_device_channel_sound (i : Fin NR_CHANNEL) : (update_device_channel i).Sound :=
  (update_device_status_sound i).seq ((update_device_speed_sound i).seq
    ((update_device_pwm_sound i).seq (update_device_watchdog_sound i)))

theorem update_device_loop_sound (l : List (Fin NR_CHANNEL)) : (update_device_loop l).Sound := by
  induction l with
  | nil =>
    intro c d
    refine ⟨[], rfl, by simp [update_device_loop], trivial, fun _ => rfl, ?_, ?_⟩
    · intro rv h; cases h
    · intro _ y hy; cases hy
  | cons i rest ih => exact (update_device_channel_sound i).seq ih

/-! ## Facts about the refresh -/

theorem trace_step_frame (st : Nat × max31785_data) (x : Xfer) :
    (trace_step st x).2.fan_config = st.2.fan_config ∧
    (trace_step st x).2.fan_command = st.2.fan_command ∧
    (trace_step st x).2.mfr_fan_config = st.2.mfr_fan_config ∧
    (trace_step st x).2.valid = st.2.valid ∧
    (trace_step st x).2.last_updated = st.2.last_updated := by
  unfold trace_step
  split
  · simp
  · split <;> (try split_ifs) <;> simp

theorem trace_foldl_frame (l : List Xfer) (st : Nat × max31785_data) :
    (l.foldl trace_step st).2.fan_config = st.2.fan_config ∧
    (l.foldl trace_step st).2.fan_command = st.2.fan_command ∧
    (l.foldl trace_step st).2.mfr_fan_config = st.2.mfr_fan_config ∧
    (l.foldl trace_step st).2.valid = st.2.valid ∧
    (l.foldl trace_step st).2.last_updated = st.2.last_updated := by
  induction l generalizing st with
  | nil => simp
  | cons x l ih =>
    obtain ⟨h1, h2, h3, h4, h5⟩ := ih (trace_step st x)
    obtain ⟨g1, g2, g3, g4, g5⟩ := trace_step_frame st x
    simp only [List.foldl_cons]
    exact ⟨h1.trans g1, h2.trans g2, h3.trans g3, h4.trans g4, h5.trans g5⟩

/-- The refresh loop never writes `fan_config`, `fan_command`, `mfr_fan_config`,
`valid` or `last_updated`, and does not change the bus. -/
theorem update_device_loop_frame (l : List (Fin NR_CHANNEL)) (c : i2c_client)
    (d : max31785_data) :
    (update_device_loop l c d).2.2.fan_config = d.fan_config ∧
    (update_device_loop l c d).2.2.fan_command = d.fan_command ∧
    (update_device_loop l c d).2.2.mfr_fan_config = d.mfr_fan_config ∧
    (update_device_loop l c d).2.2.valid = d.valid ∧
    (update_device_loop l c d).2.2.last_updated = d.last_updated ∧
    (update_device_loop l c d).2.1.reply = c.reply := by
  obtain ⟨new, hr, _, _, ht, _⟩ := update_device_loop_sound l c d
  obtain ⟨h1, h2, h3, h4, h5⟩ := trace_foldl_frame new (0, d)
  rw [ht 0] at h1 h2 h3 h4 h5
  exact ⟨h1, h2, h3, h4, h5, hr⟩

/-- On a bus whose transfers all succeed the refresh loop does not abort. -/
theorem update_device_loop_healthy (l : List (Fin NR_CHANNEL)) (c : i2c_client)
    (d : max31785_data) (h : c.healthy) : (update_device_loop l c d).1 = none := by
  obtain ⟨new, _, _, ha, _, hab, _⟩ := update_device_loop_sound l c d
  cases ho : (update_device_loop l c d).1 with
  | none => rfl
  | some rv =>
    obtain ⟨hneg, pre, t, hnew, _⟩ := hab rv ho
    obtain ⟨m, hm⟩ := answered_mem ha ⟨t, rv⟩ (by rw [hnew]; simp)
    have := h m
    simp only at hm
    omega

/-- The refresh never writes `fan_config`, `fan_command` or `mfr_fan_config`
and does not change the bus. -/
theorem update_device_frame (HZ jiffies : Nat) (c : i2c_client) (d : max31785_data) :
    (max31785_update_device HZ jiffies c d).2.2.fan_config = d.fan_config ∧
    (max31785_update_device HZ jiffies c d).2.2.fan_command = d.fan_command ∧
    (max31785_update_device HZ jiffies c d).2.2.mfr_fan_config = d.mfr_fan_config ∧
    (max31785_update_device HZ jiffies c d).2.1.reply = c.reply := by
  obtain ⟨h1, h2, h3, _, _, h6⟩ := update_device_loop_frame (List.finRange NR_CHANNEL) c d
  unfold max31785_update_device
  split
  · rcases hl : update_device_loop (List.finRange NR_CHANNEL) c d with ⟨o, c1, d1⟩
    rw [hl] at h1 h2 h3 h6
    cases o <;> exact ⟨h1, h2, h3, h6⟩
  · exact ⟨rfl, rfl, rfl, rfl⟩

/-- On a bus whose transfers all succeed the refresh returns the data pointer. -/
theorem update_device_healthy (HZ jiffies : Nat) (c : i2c_client) (d : max31785_data)
    (h : c.healthy) : (max31785_update_device HZ jiffies c d).1 = Except.ok () := by
  have hl := update_device_loop_healthy (List.finRange NR_CHANNEL) c d h
  unfold max31785_update_device
  split
  · rcases hl2 : update_device_loop (List.finRange NR_CHANNEL) c d with ⟨o, c1, d1⟩
    rw [hl2] at hl
    cases o with
    | none => rfl
    | some rv => cases hl
  · rfl

/-! ## Facts about the accessors -/

theorem quiet_client_healthy : quiet_client.healthy := fun _ => le_refl _

theorem healthy_of_reply_eq {c1 c2 : i2c_client} (h : c2.reply = c1.reply) (hc : c1.healthy) :
    c2.healthy := by
  intro n
  rw [h]
  exact hc n

theorem mask_ne_zero_iff_testBit (c k : Nat) : c &&& 2 ^ k ≠ 0 ↔ c.testBit k = true := by
  rw [Nat.and_two_pow]
  cases c.testBit k <;> simp

theorem rpm_mask_iff (c : Nat) :
    c &&& MAX31785_FAN_CFG_CONTROL_MODE_RPM ≠ 0 ↔ c.testBit 6 = true :=
  mask_ne_zero_iff_testBit c 6

theorem enable_mask_iff (c : Nat) :
    c &&& MAX31785_FAN_CFG_PWM_ENABLE ≠ 0 ↔ c.testBit 7 = true :=
  mask_ne_zero_iff_testBit c 7

/-- What `set_fan_target` does with an accepted value. -/
theorem set_fan_target_accepted (index : Fin NR_CHANNEL) (count v : Nat) (c : i2c_client)
    (d : max31785_data) (hv : v ≤ 32767) :
    set_fan_target index (Except.ok v) count c d =
      if c.reply c.log.length < 0 then
        (c.reply c.log.length,
          ⟨c.reply, c.log ++ [⟨Txn.write_byte_data 0 index, c.reply c.log.length⟩]⟩,
          { d with fan_command := Function.update d.fan_command index v })
      else if c.reply (c.log.length + 1) < 0 then
        (c.reply (c.log.length + 1),
          ⟨c.reply, c.log ++ [⟨Txn.write_byte_data 0 index, c.reply c.log.length⟩,
            ⟨Txn.write_word_data MAX31785_REG_FAN_COMMAND_1 v, c.reply (c.log.length + 1)⟩]⟩,
          { d with fan_command := Function.update d.fan_command index v })
      else
        ((count : Int),
          ⟨c.reply, c.log ++ [⟨Txn.write_byte_data 0 index, c.reply c.log.length⟩,
            ⟨Txn.write_word_data MAX31785_REG_FAN_COMMAND_1 v, c.reply (c.log.length + 1)⟩]⟩,
          { d with fan_command := Function.update d.fan_command index v }) := by
  have hv1 : ¬ v > 32767 := by omega
  have hv2 : u16 v = v := u16_of_lt (by omega)
  simp only [set_fan_target, hv1, if_false, Function.update_same, hv2,
    write_fan_data_word _ _ _ _ (show MAX31785_REG_FAN_COMMAND_1 < 256 by decide)]
  split_ifs <;> simp_all

/-- What `set_pwm` does with an accepted value. -/
theorem set_pwm_accepted (index : Fin NR_CHANNEL) (count p : Nat) (c : i2c_client)
    (d : max31785_data) (hp : p ≤ 255) :
    set_pwm index (Except.ok p) count c d =
      if c.reply c.log.length < 0 then
        (c.reply c.log.length,
          ⟨c.reply, c.log ++ [⟨Txn.write_byte_data 0 index, c.reply c.log.length⟩]⟩,
          { d with fan_command := Function.update d.fan_command index (p * 40) })
      else if c.reply (c.log.length + 1) < 0 then
        (c.reply (c.log.length + 1),
          ⟨c.reply, c.log ++ [⟨Txn.write_byte_data 0 index, c.reply c.log.length⟩,
            ⟨Txn.write_word_data MAX31785_REG_FAN_COMMAND_1 (p * 40),
              c.reply (c.log.length + 1)⟩]⟩,
          { d with fan_command := Function.update d.fan_command index (p * 40) })
      else
        ((count : Int),
          ⟨c.reply, c.log ++ [⟨Txn.write_byte_data 0 index, c.reply c.log.length⟩,
            ⟨Txn.write_word_data MAX31785_REG_FAN_COMMAND_1 (p * 40),
              c.reply (c.log.length + 1)⟩]⟩,
          { d with fan_command := Function.update d.fan_command index (p * 40) }) := by
  have hp1 : ¬ p > 255 := by omega
  have hp2 : u16 (ulong (p * MAX31785_FAN_COMMAND_PWM_RATIO)) = p * 40 := by
    unfold u16 ulong MAX31785_FAN_COMMAND_PWM_RATIO BITS_PER_LONG
    omega
  have hp3 : u16 (p * 40) = p * 40 := u16_of_lt (by omega)
  simp only [set_pwm, hp1, if_false, Function.update_same, hp2, hp3,
    write_fan_data_word _ _ _ _ (show MAX31785_REG_FAN_COMMAND_1 < 256 by decide)]
  split_ifs <;> simp_all

/-- A target above 32767 is rejected before anything is touched. -/
theorem set_fan_target_rejected (index : Fin NR_CHANNEL) (count rpm : Nat) (c : i2c_client)
    (d : max31785_data) (h : 32767 < rpm) :
    set_fan_target index (Except.ok rpm) count c d = (-EINVAL, c, d) := by
  simp only [set_fan_target]
  rw [if_pos (by omega)]

/-- A duty above 255 is rejected before anything is touched. -/
theorem set_pwm_rejected (index : Fin NR_CHANNEL) (count pwm : Nat) (c : i2c_client)
    (d : max31785_data) (h : 255 < pwm) :
    set_pwm index (Except.ok pwm) count c d = (-EINVAL, c, d) := by
  simp only [set_pwm]
  rw [if_pos (by omega)]

/-- A pulse count above 4 is rejected before anything is touched. -/
theorem set_fan_pulses_rejected (index : Fin NR_CHANNEL) (count pulses : Nat) (c : i2c_client)
    (d : max31785_data) (h : 4 < pulses) :
    set_fan_pulses index (Except.ok pulses) count c d = (-EINVAL, c, d) := by
  simp only [set_fan_pulses]
  rw [if_pos (by omega)]

/-- A mode above 3 is rejected before anything is touched. -/
theorem set_pwm_enable_rejected (index : Fin NR_CHANNEL) (count mode : Nat) (c : i2c_client)
    (d : max31785_data) (h : 3 < mode) :
    set_pwm_enable index (Except.ok mode) count c d = (-EINVAL, c, d) := by
  obtain ⟨k, rfl⟩ : ∃ k, mode = k + 4 := ⟨mode - 4, by omega⟩
  simp only [set_pwm_enable, set_pwm_enable_switch1]

/-- Value shown by `get_fan_target` on a bus whose transfers all succeed. -/
theorem get_fan_target_healthy (HZ jiffies : Nat) (index : Fin NR_CHANNEL) (c : i2c_client)
    (d : max31785_data) (h : c.healthy) :
    (get_fan_target HZ jiffies index c d).1 =
      Except.ok (if (d.fan_config index).testBit 6 = true then (d.fan_command index : Int)
                 else ((d.fan_command index / 40 : Nat) : Int)) := by
  have h1 := update_device_healthy HZ jiffies c d h
  obtain ⟨f1, f2, _, _⟩ := update_device_frame HZ jiffies c d
  simp only [get_fan_target, h1, f1, f2, rpm_mask_iff, MAX31785_FAN_COMMAND_PWM_RATIO]
  split_ifs <;> simp

/-- Value shown by `get_pwm` on a bus whose transfers all succeed, for a channel
in manual PWM mode. -/
theorem get_pwm_healthy_manual (HZ jiffies : Nat) (index : Fin NR_CHANNEL) (c : i2c_client)
    (d : max31785_data) (h : c.healthy) (hrpm : (d.fan_config index).testBit 6 = false)
    (hcmd : d.fan_command index ≤ 0x7fff) :
    (get_pwm HZ jiffies index c d).1 = Except.ok ((d.fan_command index / 40 : Nat) : Int) := by
  have h1 := update_device_healthy HZ jiffies c d h
  obtain ⟨f1, f2, _, _⟩ := update_device_frame HZ jiffies c d
  have hauto : is_automatic_control_mode (max31785_update_device HZ jiffies c d).2.2 index
      = false := by
    unfold is_automatic_control_mode
    rw [f2, if_neg (by omega)]
  have hmask : ¬ (d.fan_config index &&& MAX31785_FAN_CFG_CONTROL_MODE_RPM ≠ 0) := by
    rw [rpm_mask_iff, hrpm]; simp
  simp only [get_pwm, h1, f1, f2, hauto, hmask, MAX31785_FAN_COMMAND_PWM_RATIO]
  simp

/-! ## Pulses per revolution -/

/-- C1 (pulses round trip), evaluated on the code: on a bus where every transfer
succeeds, channel 0 starts with `fan_config[0] = 0x30`; `set_fan_pulses` with
the value 1 succeeds and stores `fan_config[0] = 0x30`, and the `get_fan_pulses`
that follows reports 4, not 1: the store keeps the old pulse field
(`&= MAX31785_FAN_CFG_PULSE_MASK`) instead of clearing it. -/
theorem set_fan_pulses_round_trip_fails :
    (set_fan_pulses 0 (Except.ok 1) 2 quiet_client four_pulse_data).1 = 2 ∧
    (set_fan_pulses 0 (Except.ok 1) 2 quiet_client four_pulse_data).2.2.fan_config 0 = 0x30 ∧
    (get_fan_pulses 100 0 0
      (set_fan_pulses 0 (Except.ok 1) 2 quiet_client four_pulse_data).2.1
      (set_fan_pulses 0 (Except.ok 1) 2 quiet_client four_pulse_data).2.2).1 = Except.ok 4 :=
  ⟨by decide, by decide, rfl⟩

/-- C2 (accepted pulse counts), evaluated on the code: the parsed value 0 is not
rejected.  `set_fan_pulses` returns `count`, not `-EINVAL`, and writes the
config byte `0xf0` to `FAN_CONFIG_1_2`: `pulses - 1` wraps around and sets the
PWM-enable and RPM-mode bits. -/
theorem set_fan_pulses_accepts_zero :
    (set_fan_pulses 0 (Except.ok 0) 2 quiet_client zero_data).1 = 2 ∧
    (set_fan_pulses 0 (Except.ok 0) 2 quiet_client zero_data).1 ≠ -EINVAL ∧
    (set_fan_pulses 0 (Except.ok 0) 2 quiet_client zero_data).2.1.log =
      [⟨Txn.write_byte_data MAX31785_REG_PAGE 0, 0⟩,
       ⟨Txn.write_byte_data MAX31785_REG_FAN_CONFIG_1_2 0xf0, 0⟩] ∧
    (set_fan_pulses 0 (Except.ok 0) 2 quiet_client zero_data).2.2.fan_config 0 = 0xf0 :=
  ⟨by decide, by decide, by decide, by decide⟩

/-! ## Validation -/

/-- C3 (validation errors are side-effect free): when `set_fan_target`, `set_pwm`,
`set_fan_pulses` or `set_pwm_enable` rejects a parsed value (target above 32767,
pwm above 255, pulses above 4, mode other than 0, 1, 2, 3) it returns `-EINVAL`,
the bus handle with its log is the one it was given (no transfer is issued) and
the cache is the one it was given. -/
theorem validation_error_no_side_effect (index : Fin NR_CHANNEL) (count : Nat)
    (client : i2c_client) (data : max31785_data) :
    (∀ rpm, 32767 < rpm →
      set_fan_target index (Except.ok rpm) count client data = (-EINVAL, client, data)) ∧
    (∀ pwm, 255 < pwm →
      set_pwm index (Except.ok pwm) count client data = (-EINVAL, client, data)) ∧
    (∀ pulses, 4 < pulses →
      set_fan_pulses index (Except.ok pulses) count client data = (-EINVAL, client, data)) ∧
    (∀ mode, 3 < mode →
      set_pwm_enable index (Except.ok mode) count client data = (-EINVAL, client, data)) := by
  exact ⟨fun rpm h => set_fan_target_rejected index count rpm client data h,
    fun pwm h => set_pwm_rejected index count pwm client data h,
    fun pulses h => set_fan_pulses_rejected index count pulses client data h,
    fun mode h => set_pwm_enable_rejected index count mode client data h⟩

/-- Witness for `validation_error_no_side_effect`: the values 32768, 256, 5 and 4. -/
theorem validation_error_no_side_effect_witness :
    (32767 < 32768 ∧
      set_fan_target 0 (Except.ok 32768) 2 quiet_client zero_data =
        (-EINVAL, quiet_client, zero_data)) ∧
    (255 < 256 ∧
      set_pwm 0 (Except.ok 256) 2 quiet_client zero_data = (-EINVAL, quiet_client, zero_data)) ∧
    (4 < 5 ∧
      set_fan_pulses 0 (Except.ok 5) 2 quiet_client zero_data =
        (-EINVAL, quiet_client, zero_data)) ∧
    (3 < 4 ∧
      set_pwm_enable 0 (Except.ok 4) 2 quiet_client zero_data =
        (-EINVAL, quiet_client, zero_data)) :=
  ⟨⟨by decide, (validation_error_no_side_effect 0 2 quiet_client zero_data).1 32768 (by decide)⟩,
   ⟨by decide,
     (validation_error_no_side_effect 0 2 quiet_client zero_data).2.1 256 (by decide)⟩,
   ⟨by decide,
     (validation_error_no_side_effect 0 2 quiet_client zero_data).2.2.1 5 (by decide)⟩,
   ⟨by decide,
     (validation_error_no_side_effect 0 2 quiet_client zero_data).2.2.2 4 (by decide)⟩⟩

/-! ## Fan target and PWM duty -/

/-- C4 (fan target set/get): `set_fan_target` rejects every value above 32767
with `-EINVAL`.  For a value `v` up to 32767 and a bus whose transfers all
succeed it returns `count`, changes the cache only in `fan_command[i] = v`, and
issues exactly the page select of channel `i` followed by the word write of `v`
to `FAN_COMMAND_1`; the `get_fan_target` that follows shows `v` when bit 6
(RPM mode) of `fan_config[i]` is set and `v / 40` when it is clear. -/
theorem set_fan_target_then_get (HZ jiffies : Nat) (index : Fin NR_CHANNEL) (count v : Nat)
    (client : i2c_client) (data : max31785_data) :
    (32767 < v →
      set_fan_target index (Except.ok v) count client data = (-EINVAL, client, data)) ∧
    (v ≤ 32767 → client.healthy →
      (set_fan_target index (Except.ok v) count client data).1 = (count : Int) ∧
      (set_fan_target index (Except.ok v) count client data).1 ≠ -EINVAL ∧
      (set_fan_target index (Except.ok v) count client data).2.2 =
        { data with fan_command := Function.update data.fan_command index v } ∧
      (set_fan_target index (Except.ok v) count client data).2.1.log =
        client.log ++
          [⟨Txn.write_byte_data MAX31785_REG_PAGE index, client.reply client.log.length⟩,
           ⟨Txn.write_word_data MAX31785_REG_FAN_COMMAND_1 v,
             client.reply (client.log.length + 1)⟩] ∧
      (get_fan_target HZ jiffies index
          (set_fan_target index (Except.ok v) count client data).2.1
          (set_fan_target index (Except.ok v) count client data).2.2).1 =
        Except.ok (if (data.fan_config index).testBit 6 = true then (v : Int)
                   else ((v / 40 : Nat) : Int))) := by
  refine ⟨fun h => set_fan_target_rejected index count v client data h, ?_⟩
  intro hv hc
  have h0 : ¬ client.reply client.log.length < 0 := not_lt.mpr (hc _)
  have h1 : ¬ client.reply (client.log.length + 1) < 0 := not_lt.mpr (hc _)
  rw [set_fan_target_accepted index count v client data hv, if_neg h0, if_neg h1]
  refine ⟨rfl, ?_, rfl, rfl, ?_⟩
  · show (count : Int) ≠ -EINVAL
    unfold EINVAL
    omega
  · dsimp only
    refine (get_fan_target_healthy HZ jiffies index _ _ ?_).trans ?_
    · exact hc
    · simp

/-- Witness for `set_fan_target_then_get`: the target 3000 on channel 0. -/
theorem set_fan_target_then_get_witness :
    (3000 ≤ 32767 ∧ quiet_client.healthy) ∧
    (set_fan_target 0 (Except.ok 3000) 2 quiet_client zero_data).1 = ((2 : Nat) : Int) ∧
    (set_fan_target 0 (Except.ok 3000) 2 quiet_client zero_data).1 ≠ -EINVAL ∧
    (set_fan_target 0 (Except.ok 3000) 2 quiet_client zero_data).2.2 =
      { zero_data with fan_command := Function.update zero_data.fan_command 0 3000 } ∧
    (set_fan_target 0 (Except.ok 3000) 2 quiet_client zero_data).2.1.log =
      quiet_client.log ++
        [⟨Txn.write_byte_data MAX31785_REG_PAGE (0 : Fin NR_CHANNEL),
            quiet_client.reply quiet_client.log.length⟩,
         ⟨Txn.write_word_data MAX31785_REG_FAN_COMMAND_1 3000,
            quiet_client.reply (quiet_client.log.length + 1)⟩] ∧
    (get_fan_target 100 0 0
        (set_fan_target 0 (Except.ok 3000) 2 quiet_client zero_data).2.1
        (set_fan_target 0 (Except.ok 3000) 2 quiet_client zero_data).2.2).1 =
      Except.ok (if (zero_data.fan_config 0).testBit 6 = true then ((3000 : Nat) : Int)
                 else ((3000 / 40 : Nat) : Int)) :=
  ⟨⟨by decide, quiet_client_healthy⟩,
   (set_fan_target_then_get 100 0 0 2 3000 quiet_client zero_data).2 (by decide)
     quiet_client_healthy⟩

/-- C5 (PWM set/get): `set_pwm` rejects every value above 255 with `-EINVAL`.
For a duty `p` up to 255 and a bus whose transfers all succeed it returns
`count`, changes the cache only in `fan_command[i] = p * 40` (the product itself,
at most 10200, without wrap-around), and issues exactly the page select of
channel `i` followed by the word write of `p * 40` to `FAN_COMMAND_1`; when bit 6
(RPM mode) of `fan_config[i]` is clear the `get_pwm` that follows shows `p`. -/
theorem set_pwm_then_get (HZ jiffies : Nat) (index : Fin NR_CHANNEL) (count p : Nat)
    (client : i2c_client) (data : max31785_data) :
    (255 < p → set_pwm index (Except.ok p) count client data = (-EINVAL, client, data)) ∧
    (p ≤ 255 → client.healthy →
      (set_pwm index (Except.ok p) count client data).1 = (count : Int) ∧
      (set_pwm index (Except.ok p) count client data).2.2 =
        { data with fan_command := Function.update data.fan_command index (p * 40) } ∧
      p * 40 ≤ 10200 ∧
      (set_pwm index (Except.ok p) count client data).2.1.log =
        client.log ++
          [⟨Txn.write_byte_data MAX31785_REG_PAGE index, client.reply client.log.length⟩,
           ⟨Txn.write_word_data MAX31785_REG_FAN_COMMAND_1 (p * 40),
             client.reply (client.log.length + 1)⟩] ∧
      ((data.fan_config index).testBit 6 = false →
        (get_pwm HZ jiffies index
            (set_pwm index (Except.ok p) count client data).2.1
            (set_pwm index (Except.ok p) count client data).2.2).1 = Except.ok (p : Int))) := by
  refine ⟨fun h => set_pwm_rejected index count p client data h, ?_⟩
  intro hp hc
  have h0 : ¬ client.reply client.log.length < 0 := not_lt.mpr (hc _)
  have h1 : ¬ client.reply (client.log.length + 1) < 0 := not_lt.mpr (hc _)
  rw [set_pwm_accepted index count p client data hp, if_neg h0, if_neg h1]
  refine ⟨rfl, rfl, by omega, rfl, ?_⟩
  intro hbit
  dsimp only
  refine (get_pwm_healthy_manual HZ jiffies index _ _ ?_ ?_ ?_).trans ?_
  · exact hc
  · exact hbit
  · simp only [Function.update_same]; omega
  · simp only [Function.update_same]
    congr 2
    omega

/-- Witness for `set_pwm_then_get`: full duty 255 on channel 0 in manual PWM mode. -/
theorem set_pwm_then_get_witness :
    (255 ≤ 255 ∧ quiet_client.healthy ∧ (zero_data.fan_config 0).testBit 6 = false) ∧
    (set_pwm 0 (Except.ok 255) 2 quiet_client zero_data).2.2.fan_command 0 = 10200 ∧
    (get_pwm 100 0 0
        (set_pwm 0 (Except.ok 255) 2 quiet_client zero_data).2.1
        (set_pwm 0 (Except.ok 255) 2 quiet_client zero_data).2.2).1 = Except.ok (255 : Int) :=
  ⟨⟨by decide, quiet_client_healthy, by decide⟩,
   by
     rw [((set_pwm_then_get 100 0 0 2 255 quiet_client zero_data).2 (by decide)
       quiet_client_healthy).2.1]
     simp,
   ((set_pwm_then_get 100 0 0 2 255 quiet_client zero_data).2 (by decide)
       quiet_client_healthy).2.2.2.2 (by decide)⟩

/-! ## The automatic-mode sentinel -/

/-- C6 (sentinel invariant): for every accepted target `v` (up to 32767) and
every accepted duty `p` (up to 255), whatever the bus answers, after
`set_fan_target` or `set_pwm` the cached `fan_command[i]` is `v` or `p * 40`, at
most `0x7fff`, so `is_automatic_control_mode` is false; every word write in the
trace of the call goes to `FAN_COMMAND_1` and carries that cached value, and the
write is issued whenever the page select succeeds. -/
theorem manual_setpoint_below_sentinel (index : Fin NR_CHANNEL) (count : Nat)
    (client : i2c_client) (data : max31785_data) :
    (∀ v, v ≤ 32767 →
      (set_fan_target index (Except.ok v) count client data).2.2.fan_command index = v ∧
      (set_fan_target index (Except.ok v) count client data).2.2.fan_command index ≤ 0x7fff ∧
      is_automatic_control_mode
        (set_fan_target index (Except.ok v) count client data).2.2 index = false ∧
      ∃ new, (set_fan_target index (Except.ok v) count client data).2.1.log
          = client.log ++ new ∧
        (∀ x ∈ new, ∀ reg val, x.txn = Txn.write_word_data reg val →
          reg = MAX31785_REG_FAN_COMMAND_1 ∧ val = v ∧ val ≤ 0x7fff) ∧
        (0 ≤ client.reply client.log.length →
          ⟨Txn.write_word_data MAX31785_REG_FAN_COMMAND_1 v,
            client.reply (client.log.length + 1)⟩ ∈ new)) ∧
    (∀ p, p ≤ 255 →
      (set_pwm index (Except.ok p) count client data).2.2.fan_command index = p * 40 ∧
      (set_pwm index (Except.ok p) count client data).2.2.fan_command index ≤ 0x7fff ∧
      is_automatic_control_mode
        (set_pwm index (Except.ok p) count client data).2.2 index = false ∧
      ∃ new, (set_pwm index (Except.ok p) count client data).2.1.log = client.log ++ new ∧
        (∀ x ∈ new, ∀ reg val, x.txn = Txn.write_word_data reg val →
          reg = MAX31785_REG_FAN_COMMAND_1 ∧ val = p * 40 ∧ val ≤ 0x7fff) ∧
        (0 ≤ client.reply client.log.length →
          ⟨Txn.write_word_data MAX31785_REG_FAN_COMMAND_1 (p * 40),
            client.reply (client.log.length + 1)⟩ ∈ new)) := by
  constructor
  · intro v hv
    rw [set_fan_target_accepted index count v client data hv]
    by_cases h0 : client.reply client.log.length < 0
    · rw [if_pos h0]
      refine ⟨by simp, by simp; omega, by simp [is_automatic_control_mode]; omega,
        [⟨Txn.write_byte_data 0 index, client.reply client.log.length⟩], rfl, ?_, ?_⟩
      · intro x hx reg val hval
        simp only [List.mem_singleton] at hx
        subst hx
        cases hval
      · intro h; omega
    · rw [if_neg h0]
      refine ⟨by split_ifs <;> simp, by split_ifs <;> simp <;> omega,
        by split_ifs <;> simp [is_automatic_control_mode] <;> omega,
        [⟨Txn.write_byte_data 0 index, client.reply client.log.length⟩,
         ⟨Txn.write_word_data MAX31785_REG_FAN_COMMAND_1 v,
           client.reply (client.log.length + 1)⟩], by split_ifs <;> rfl, ?_, ?_⟩
      · intro x hx reg val hval
        simp only [List.mem_cons, List.mem_singleton, List.not_mem_nil, or_false] at hx
        rcases hx with rfl | rfl
        · cases hval
        · cases hval
          exact ⟨rfl, rfl, by omega⟩
      · intro _; simp
  · intro p hp
    rw [set_pwm_accepted index count p client data hp]
    by_cases h0 : client.reply client.log.length < 0
    · rw [if_pos h0]
      refine ⟨by simp, by simp; omega, by simp [is_automatic_control_mode]; omega,
        [⟨Txn.write_byte_data 0 index, client.reply client.log.length⟩], rfl, ?_, ?_⟩
      · intro x hx reg val hval
        simp only [List.mem_singleton] at hx
        subst hx
        cases hval
      · intro h; omega
    · rw [if_neg h0]
      refine ⟨by split_ifs <;> simp, by split_ifs <;> simp <;> omega,
        by split_ifs <;> simp [is_automatic_control_mode] <;> omega,
        [⟨Txn.write_byte_data 0 index, client.reply client.log.length⟩,
         ⟨Txn.write_word_data MAX31785_REG_FAN_COMMAND_1 (p * 40),
           client.reply (client.log.length + 1)⟩], by split_ifs <;> rfl, ?_, ?_⟩
      · intro x hx reg val hval
        simp only [List.mem_cons, List.mem_singleton, List.not_mem_nil, or_false] at hx
        rcases hx with rfl | rfl
        · cases hval
        · cases hval
          exact ⟨rfl, rfl, by omega⟩
      · intro _; simp

/-- Witness for `manual_setpoint_below_sentinel`: the largest target and the
largest duty on channel 0. -/
theorem manual_setpoint_below_sentinel_witness :
    (32767 ≤ 32767 ∧
      (set_fan_target 0 (Except.ok 32767) 2 quiet_client zero_data).2.2.fan_command 0 = 32767 ∧
      is_automatic_control_mode
        (set_fan_target 0 (Except.ok 32767) 2 quiet_client zero_data).2.2 0 = false) ∧
    (255 ≤ 255 ∧
      (set_pwm 0 (Except.ok 255) 2 quiet_client zero_data).2.2.fan_command 0 = 255 * 40 ∧
      is_automatic_control_mode
        (set_pwm 0 (Except.ok 255) 2 quiet_client zero_data).2.2 0 = false) :=
  ⟨⟨by decide,
    ((manual_setpoint_below_sentinel 0 2 quiet_client zero_data).1 32767 (by decide)).1,
    ((manual_setpoint_below_sentinel 0 2 quiet_client zero_data).1 32767 (by decide)).2.2.1⟩,
   ⟨by decide,
    ((manual_setpoint_below_sentinel 0 2 quiet_client zero_data).2 255 (by decide)).1,
    ((manual_setpoint_below_sentinel 0 2 quiet_client zero_data).2 255 (by decide)).2.2.1⟩⟩

/-! ## Staleness and the first transfer of a poll -/

theorem time_after_iff_lt {a b : Nat} (ha : a < 2 ^ 63) (hb : b < 2 ^ 63) :
    time_after a b = true ↔ b < a := by
  unfold time_after to_long ulong_sub ulong BITS_PER_LONG
  simp only [decide_eq_true_eq]
  norm_num at ha hb ⊢
  have ha1 : a % 18446744073709551616 = a := Nat.mod_eq_of_lt (by omega)
  have hb1 : b % 18446744073709551616 = b := Nat.mod_eq_of_lt (by omega)
  rw [ha1, hb1]
  split_ifs with h <;> omega

theorem update_device_status_head (i : Fin NR_CHANNEL) (c : i2c_client) (d : max31785_data) :
    ∃ tl, (update_device_status i c d).2.1.log =
      c.log ++ ⟨Txn.write_byte_data 0 i, c.reply c.log.length⟩ :: tl := by
  unfold update_device_status
  rw [read_fan_data_byte _ _ _ (show MAX31785_REG_STATUS_FANS_1_2 < 256 by decide)]
  by_cases h0 : c.reply c.log.length < 0
  · rw [if_pos h0]
    dsimp only
    rw [if_pos h0]
    exact ⟨[], rfl⟩
  · rw [if_neg h0]
    dsimp only
    split_ifs <;> exact ⟨_, rfl⟩

theorem Poll.seq_log_head {f g : Poll} (hg : g.Sound) {c : i2c_client} {d : max31785_data}
    {x : Xfer} (h : ∃ tl, (f c d).2.1.log = c.log ++ x :: tl) :
    ∃ tl, (f.seq g c d).2.1.log = c.log ++ x :: tl := by
  obtain ⟨tl, htl⟩ := h
  unfold Poll.seq
  rcases hfc : f c d with ⟨o, c1, d1⟩
  rw [hfc] at htl
  cases o with
  | some rv => exact ⟨tl, htl⟩
  | none =>
    obtain ⟨n2, _, hl2, _⟩ := hg c1 d1
    refine ⟨tl ++ n2, ?_⟩
    dsimp only at htl ⊢
    rw [hl2, htl]
    simp

theorem update_device_loop_head (i : Fin NR_CHANNEL) (rest : List (Fin NR_CHANNEL))
    (c : i2c_client) (d : max31785_data) :
    ∃ tl, (update_device_loop (i :: rest) c d).2.1.log =
      c.log ++ ⟨Txn.write_byte_data 0 i, c.reply c.log.length⟩ :: tl := by
  unfold update_device_loop update_device_channel
  exact Poll.seq_log_head (update_device_loop_sound rest)
    (Poll.seq_log_head ((update_device_speed_sound i).seq
      ((update_device_pwm_sound i).seq (update_device_watchdog_sound i)))
      (update_device_status_head i c d))

theorem finRange_channels : List.finRange NR_CHANNEL = [0, 1, 2, 3, 4, 5] := by
  decide

/-- A poll starts with the page select of channel 0. -/
theorem update_device_polls (HZ jiffies : Nat) (c : i2c_client) (d : max31785_data)
    (h : time_after jiffies (ulong (d.last_updated + HZ)) = true ∨ d.valid = false) :
    ∃ tl, (max31785_update_device HZ jiffies c d).2.1.log =
      c.log ++ ⟨Txn.write_byte_data MAX31785_REG_PAGE 0, c.reply c.log.length⟩ :: tl := by
  have hcond : (time_after jiffies (ulong (d.last_updated + HZ)) || !d.valid) = true := by
    rcases h with h | h <;> simp [h]
  obtain ⟨tl, htl⟩ := update_device_loop_head 0 [1, 2, 3, 4, 5] c d
  unfold max31785_update_device
  rw [if_pos hcond, finRange_channels]
  rcases hl : update_device_loop [0, 1, 2, 3, 4, 5] c d with ⟨o, c1, d1⟩
  rw [hl] at htl
  cases o <;> exact ⟨tl, htl⟩

/-- C7 (cache hit): `max31785_update_device` polls exactly when
`time_after(jiffies, last_updated + HZ)` holds or `valid` is false.  When neither
holds it issues no transfer, returns the data pointer and leaves the bus handle
and every field of the cache as they were; otherwise its trace starts with the
page select of channel 0.  As long as the tick counts stay below `2 ^ 63`,
`time_after(jiffies, last_updated + HZ)` means `last_updated + HZ < jiffies`. -/
theorem update_device_cache_hit (HZ jiffies : Nat) (client : i2c_client)
    (data : max31785_data) :
    ((time_after jiffies (ulong (data.last_updated + HZ)) = false ∧ data.valid = true) →
      max31785_update_device HZ jiffies client data = (Except.ok (), client, data)) ∧
    ((time_after jiffies (ulong (data.last_updated + HZ)) = true ∨ data.valid = false) →
      ∃ tl, (max31785_update_device HZ jiffies client data).2.1.log =
        client.log ++
          ⟨Txn.write_byte_data MAX31785_REG_PAGE 0, client.reply client.log.length⟩ :: tl) ∧
    ((max31785_update_device HZ jiffies client data).2.1.log ≠ client.log ↔
      (time_after jiffies (ulong (data.last_updated + HZ)) = true ∨ data.valid = false)) ∧
    (jiffies < 2 ^ 63 → data.last_updated + HZ < 2 ^ 63 →
      (time_after jiffies (ulong (data.last_updated + HZ)) = true ↔
        data.last_updated + HZ < jiffies)) := by
  have hit : (time_after jiffies (ulong (data.last_updated + HZ)) = false ∧ data.valid = true) →
      max31785_update_device HZ jiffies client data = (Except.ok (), client, data) := by
    rintro ⟨h1, h2⟩
    unfold max31785_update_device
    rw [if_neg (by simp [h1, h2])]
  refine ⟨hit, update_device_polls HZ jiffies client data, ?_, ?_⟩
  · constructor
    · intro hne
      by_contra hcon
      push_neg at hcon
      apply hne
      rw [hit ⟨by simpa using hcon.1, by simpa using hcon.2⟩]
    · intro h hlog
      obtain ⟨tl, htl⟩ := update_device_polls HZ jiffies client data h
      rw [hlog] at htl
      simp at htl
  · intro hj hl
    have hu : ulong (data.last_updated + HZ) = data.last_updated + HZ := by
      unfold ulong BITS_PER_LONG
      exact Nat.mod_eq_of_lt (by omega)
    rw [hu]
    exact time_after_iff_lt hj hl

/-- Witness for `update_device_cache_hit`: a cache refreshed at tick 0 is asked
again at tick 50 with `HZ = 100`, and an invalid cache is asked at tick 0. -/
theorem update_device_cache_hit_witness :
    ((time_after 50 (ulong (four_pulse_data.last_updated + 100)) = false ∧
        four_pulse_data.valid = true) ∧
      max31785_update_device 100 50 quiet_client four_pulse_data =
        (Except.ok (), quiet_client, four_pulse_data)) ∧
    ((time_after 0 (ulong (zero_data.last_updated + 100)) = true ∨ zero_data.valid = false) ∧
      ∃ tl, (max31785_update_device 100 0 quiet_client zero_data).2.1.log =
        quiet_client.log ++
          ⟨Txn.write_byte_data MAX31785_REG_PAGE 0,
            quiet_client.reply quiet_client.log.length⟩ :: tl) :=
  ⟨⟨⟨by decide, rfl⟩,
     (update_device_cache_hit 100 50 quiet_client four_pulse_data).1 ⟨by decide, rfl⟩⟩,
   ⟨Or.inr rfl, (update_device_cache_hit 100 0 quiet_client zero_data).2.1 (Or.inr rfl)⟩⟩

/-! ## Failure of a refresh -/

/-- C8 (refresh failure): if some transfer in the trace `new` of a call of
`max31785_update_device` failed, then that transfer `x` is the last one of the
trace and all transfers before it succeeded (the poll stops there), the call
returns `ERR_PTR` of the answer of `x`, `valid` is false and `last_updated` is
unchanged, and the cache is otherwise the old cache with the successful reads of
the trace stored in it (nothing read before the failure is rolled back).  The
next call, at any tick, polls again, its trace starting with the page select of
channel 0. -/
theorem update_device_failure (HZ jiffies : Nat) (client : i2c_client) (data : max31785_data)
    (new : List Xfer)
    (hnew : (max31785_update_device HZ jiffies client data).2.1.log = client.log ++ new)
    (x : Xfer) (hx : x ∈ new) (hfail : x.rv < 0) :
    (∃ pre, new = pre ++ [x] ∧ ∀ y ∈ pre, 0 ≤ y.rv) ∧
    (max31785_update_device HZ jiffies client data).1 = Except.error x.rv ∧
    (max31785_update_device HZ jiffies client data).2.2.valid = false ∧
    (max31785_update_device HZ jiffies client data).2.2.last_updated = data.last_updated ∧
    (max31785_update_device HZ jiffies client data).2.2 =
      { trace_cache data new with valid := false } ∧
    (∀ HZ2 jiffies2 : Nat, ∃ tl,
      (max31785_update_device HZ2 jiffies2
          (max31785_update_device HZ jiffies client data).2.1
          (max31785_update_device HZ jiffies client data).2.2).2.1.log =
        (max31785_update_device HZ jiffies client data).2.1.log ++
          ⟨Txn.write_byte_data MAX31785_REG_PAGE 0,
            client.reply (client.log.length + new.length)⟩ :: tl) := by
  have key : (∃ pre, new = pre ++ [x] ∧ ∀ y ∈ pre, 0 ≤ y.rv) ∧
      (max31785_update_device HZ jiffies client data).1 = Except.error x.rv ∧
      (max31785_update_device HZ jiffies client data).2.2 =
        { trace_cache data new with valid := false } := by
    obtain ⟨n1, _, hl, _, ht, hab, hok⟩ :=
      update_device_loop_sound (List.finRange NR_CHANNEL) client data
    unfold max31785_update_device at hnew ⊢
    split at hnew
    · rcases hres : update_device_loop (List.finRange NR_CHANNEL) client data with ⟨o, c1, d1⟩
      rw [hres] at hnew hl ht hab hok
      have hn : n1 = new := by
        cases o <;> exact List.append_cancel_left (hl.symm.trans hnew)
      subst hn
      rename_i hcond
      rw [if_pos hcond]
      cases o with
      | none =>
        have := hok rfl x hx
        omega
      | some rv =>
        obtain ⟨_, pre, t, hpre, hall⟩ := hab rv rfl
        have hxe : x = ⟨t, rv⟩ := by
          rw [hpre] at hx
          rcases List.mem_append.mp hx with h | h
          · have := hall x h
            omega
          · simpa using h
        subst hxe
        refine ⟨⟨pre, hpre, hall⟩, rfl, ?_⟩
        dsimp only
        unfold trace_cache
        rw [ht 0]
    · have : new = [] := by
        have h := List.append_cancel_left ((List.append_nil client.log).trans hnew)
        exact h.symm
      subst this
      cases hx
  obtain ⟨hpre, hret, hstate⟩ := key
  have hvalid : (max31785_update_device HZ jiffies client data).2.2.valid = false := by
    rw [hstate]
  refine ⟨hpre, hret, hvalid, ?_, hstate, ?_⟩
  · rw [hstate]
    exact (trace_foldl_frame new (0, data)).2.2.2.2
  · intro HZ2 jiffies2
    obtain ⟨tl, htl⟩ := update_device_polls HZ2 jiffies2
      (max31785_update_device HZ jiffies client data).2.1
      (max31785_update_device HZ jiffies client data).2.2 (Or.inr hvalid)
    refine ⟨tl, ?_⟩
    rw [htl, (update_device_frame HZ jiffies client data).2.2.2, hnew, List.length_append]

/-- Witness for `update_device_failure`: on a bus whose fourth transfer (the
speed read of channel 0) fails with `-5`, the poll of an invalid cache stops
there and returns `-5`. -/
theorem update_device_failure_witness :
    ((max31785_update_device 100 0 (failing_client 3) zero_data).2.1.log =
        (failing_client 3).log ++
          [⟨Txn.write_byte_data 0 0, 0⟩, ⟨Txn.read_byte_data 0x81, 0⟩,
           ⟨Txn.write_byte_data 0 0, 0⟩, ⟨Txn.read_word_data 0x90, -5⟩] ∧
      (⟨Txn.read_word_data 0x90, -5⟩ : Xfer).rv < 0) ∧
    (max31785_update_device 100 0 (failing_client 3) zero_data).1 = Except.error (-5) ∧
    (max31785_update_device 100 0 (failing_client 3) zero_data).2.2.valid = false :=
  ⟨⟨by decide, by decide⟩,
   (update_device_failure 100 0 (failing_client 3) zero_data
      [⟨Txn.write_byte_data 0 0, 0⟩, ⟨Txn.read_byte_data 0x81, 0⟩,
       ⟨Txn.write_byte_data 0 0, 0⟩, ⟨Txn.read_word_data 0x90, -5⟩]
      (by decide) ⟨Txn.read_word_data 0x90, -5⟩ (by simp) (by decide)).2.1,
   (update_device_failure 100 0 (failing_client 3) zero_data
      [⟨Txn.write_byte_data 0 0, 0⟩, ⟨Txn.read_byte_data 0x81, 0⟩,
       ⟨Txn.write_byte_data 0 0, 0⟩, ⟨Txn.read_word_data 0x90, -5⟩]
      (by decide) ⟨Txn.read_word_data 0x90, -5⟩ (by simp) (by decide)).2.2.1⟩

/-! ## Control mode -/

/-- C9 (reported mode): when the refresh inside `get_pwm_enable` succeeds, the
accessor shows a mode `m` among 0, 1, 2, 3 fixed by the cached `fan_config[i]`
and `fan_command[i]`: 0 exactly when bit 7 is clear; 3 exactly when bit 7 is set
and the command is above `0x7fff`; 2 exactly when bit 7 is set, the command is at
most `0x7fff` and bit 6 is set; 1 exactly when bit 7 is set, the command is at
most `0x7fff` and bit 6 is clear. -/
theorem get_pwm_enable_reported_mode (HZ jiffies : Nat) (index : Fin NR_CHANNEL)
    (client : i2c_client) (data : max31785_data)
    (hok : (max31785_update_device HZ jiffies client data).1 = Except.ok ()) :
    ∃ m : Int, (get_pwm_enable HZ jiffies index client data).1 = Except.ok m ∧
      (m = 0 ∨ m = 1 ∨ m = 2 ∨ m = 3) ∧
      (m = 0 ↔ (data.fan_config index).testBit 7 = false) ∧
      (m = 3 ↔ (data.fan_config index).testBit 7 = true ∧ 0x7fff < data.fan_command index) ∧
      (m = 2 ↔ (data.fan_config index).testBit 7 = true ∧ data.fan_command index ≤ 0x7fff ∧
        (data.fan_config index).testBit 6 = true) ∧
      (m = 1 ↔ (data.fan_config index).testBit 7 = true ∧ data.fan_command index ≤ 0x7fff ∧
        (data.fan_config index).testBit 6 = false) := by
  obtain ⟨f1, f2, _, _⟩ := update_device_frame HZ jiffies client data
  simp only [get_pwm_enable, hok, f1, f2, is_automatic_control_mode, rpm_mask_iff,
    enable_mask_iff]
  by_cases h7 : (data.fan_config index).testBit 7 = true
  · by_cases hauto : data.fan_command index > 0x7fff
    · refine ⟨3, ?_, ?_⟩
      · simp [h7, hauto]
      · simp [h7]; omega
    · by_cases h6 : (data.fan_config index).testBit 6 = true
      · refine ⟨2, ?_, ?_⟩
        · simp [h7, hauto, h6]
        · simp [h7, h6]; omega
      · refine ⟨1, ?_, ?_⟩
        · simp [h7, hauto, h6]
        · simp [h7, h6]; omega
  · refine ⟨0, ?_, ?_⟩
    · simp [h7]
    · simp [h7]

/-- Witness for `get_pwm_enable_reported_mode`: a cache refreshed at tick 0 and
read at tick 0. -/
theorem get_pwm_enable_reported_mode_witness :
    (max31785_update_device 100 0 quiet_client four_pulse_data).1 = Except.ok () ∧
    ∃ m : Int, (get_pwm_enable 100 0 0 quiet_client four_pulse_data).1 = Except.ok m ∧
      (m = 0 ∨ m = 1 ∨ m = 2 ∨ m = 3) ∧
      (m = 0 ↔ (four_pulse_data.fan_config 0).testBit 7 = false) ∧
      (m = 3 ↔ (four_pulse_data.fan_config 0).testBit 7 = true ∧
        0x7fff < four_pulse_data.fan_command 0) ∧
      (m = 2 ↔ (four_pulse_data.fan_config 0).testBit 7 = true ∧
        four_pulse_data.fan_command 0 ≤ 0x7fff ∧
        (four_pulse_data.fan_config 0).testBit 6 = true) ∧
      (m = 1 ↔ (four_pulse_data.fan_config 0).testBit 7 = true ∧
        four_pulse_data.fan_command 0 ≤ 0x7fff ∧
        (four_pulse_data.fan_config 0).testBit 6 = false) :=
  ⟨rfl, get_pwm_enable_reported_mode 100 0 0 quiet_client four_pulse_data rfl⟩

theorem u8_lt (x : Nat) : u8 x < 256 := by
  unfold u8; exact Nat.mod_lt _ (by norm_num)

theorem testBit_u8 (x k : Nat) : (u8 x).testBit k = (decide (k < 8) && x.testBit k) := by
  unfold u8; exact Nat.testBit_mod_two_pow x 8 k

theorem testBit_int_not_two_pow (j k : Nat) (hj : j < 32) :
    (int_not (2 ^ j)).testBit k = (decide (k < 32) && !decide (j = k)) := by
  have hlt : 2 ^ j < 2 ^ 32 := Nat.pow_lt_pow_right (by norm_num) hj
  have h : int_not (2 ^ j) = 2 ^ 32 - (2 ^ j + 1) := by
    unfold int_not
    rw [Nat.mod_eq_of_lt hlt]
    omega
  rw [h, Nat.testBit_two_pow_sub_succ hlt, Nat.testBit_two_pow]

/-- Bits of a config byte after `cfg & ~bit`. -/
theorem testBit_clear (c j k : Nat) (hj : j < 8) :
    (u8 (c &&& int_not (2 ^ j))).testBit k =
      (decide (k < 8) && (c.testBit k && !decide (j = k))) := by
  rw [testBit_u8, Nat.testBit_and, testBit_int_not_two_pow j k (by omega)]
  by_cases h8 : k < 8
  · have : k < 32 := by omega
    simp [h8, this]
  · simp [h8]

/-- Bits of a config byte after `cfg | bit`. -/
theorem testBit_set (c j k : Nat) :
    (u8 (c ||| 2 ^ j)).testBit k = (decide (k < 8) && (c.testBit k || decide (j = k))) := by
  rw [testBit_u8, Nat.testBit_or, Nat.testBit_two_pow]

theorem enable_eq : MAX31785_FAN_CFG_PWM_ENABLE = 2 ^ 7 := by decide
theorem rpm_eq : MAX31785_FAN_CFG_CONTROL_MODE_RPM = 2 ^ 6 := by decide

/-- The cache that `set_pwm_enable` leaves is the one its two `switch` statements
build, whatever the bus answers. -/
theorem set_pwm_enable_cache (index : Fin NR_CHANNEL) (mode count : Nat) (c : i2c_client)
    (d d1 d2 : max31785_data) (h1 : set_pwm_enable_switch1 index mode d = some d1)
    (h2 : set_pwm_enable_switch2 index mode d1 = some d2) :
    (set_pwm_enable index (Except.ok mode) count c d).2.2 = d2 := by
  simp only [set_pwm_enable, h1, h2]
  split_ifs <;> rfl

/-- C10 (set-mode effect on the cache): whatever the bus answers,
`set_pwm_enable` changes the cache as follows.  Mode 0: only `fan_config[i]`
changes, its bit 7 is cleared and bits 0 to 6 are kept.  Mode 1: only
`fan_config[i]` changes, bit 7 is set, bit 6 is cleared, bits 0 to 5 are kept.
Mode 2: only `fan_config[i]` changes, bits 7 and 6 are set, bits 0 to 5 are kept.
Mode 3: `fan_config[i]` gets bit 7 set and keeps bits 0 to 6, `fan_command[i]`
becomes `0xffff`, nothing else changes.  The new config is a byte in all four
cases and no entry of another channel changes. -/
theorem set_pwm_enable_cache_effect (index : Fin NR_CHANNEL) (count : Nat)
    (client : i2c_client) (data : max31785_data) :
    (∃ cfg, (set_pwm_enable index (Except.ok 0) count client data).2.2 =
        { data with fan_config := Function.update data.fan_config index cfg } ∧
      cfg < 256 ∧ cfg.testBit 7 = false ∧
      ∀ k, k < 7 → cfg.testBit k = (data.fan_config index).testBit k) ∧
    (∃ cfg, (set_pwm_enable index (Except.ok 1) count client data).2.2 =
        { data with fan_config := Function.update data.fan_config index cfg } ∧
      cfg < 256 ∧ cfg.testBit 7 = true ∧ cfg.testBit 6 = false ∧
      ∀ k, k < 6 → cfg.testBit k = (data.fan_config index).testBit k) ∧
    (∃ cfg, (set_pwm_enable index (Except.ok 2) count client data).2.2 =
        { data with fan_config := Function.update data.fan_config index cfg } ∧
      cfg < 256 ∧ cfg.testBit 7 = true ∧ cfg.testBit 6 = true ∧
      ∀ k, k < 6 → cfg.testBit k = (data.fan_config index).testBit k) ∧
    (∃ cfg, (set_pwm_enable index (Except.ok 3) count client data).2.2 =
        { data with fan_config := Function.update data.fan_config index cfg,
                    fan_command := Function.update data.fan_command index 0xffff } ∧
      cfg < 256 ∧ cfg.testBit 7 = true ∧
      ∀ k, k < 7 → cfg.testBit k = (data.fan_config index).testBit k) ∧
    (∀ mode, mode ≤ 3 → ∀ j, j ≠ index →
      (set_pwm_enable index (Except.ok mode) count client data).2.2.fan_config j =
        data.fan_config j ∧
      (set_pwm_enable index (Except.ok mode) count client data).2.2.fan_command j =
        data.fan_command j) := by
  have hupd : ∀ (f : Fin NR_CHANNEL → Nat) (a b : Nat),
      Function.update (Function.update f index a) index b = Function.update f index b :=
    fun f a b => Function.update_idem a b f
  refine ⟨⟨u8 (data.fan_config index &&& int_not MAX31785_FAN_CFG_PWM_ENABLE), ?_, u8_lt _,
      ?_, ?_⟩,
    ⟨u8 (u8 (data.fan_config index ||| MAX31785_FAN_CFG_PWM_ENABLE) &&&
        int_not MAX31785_FAN_CFG_CONTROL_MODE_RPM), ?_, u8_lt _, ?_, ?_, ?_⟩,
    ⟨u8 (u8 (data.fan_config index ||| MAX31785_FAN_CFG_PWM_ENABLE) |||
        MAX31785_FAN_CFG_CONTROL_MODE_RPM), ?_, u8_lt _, ?_, ?_, ?_⟩,
    ⟨u8 (data.fan_config index ||| MAX31785_FAN_CFG_PWM_ENABLE), ?_, u8_lt _, ?_, ?_⟩, ?_⟩
  · rw [set_pwm_enable_cache index 0 count client data _ _ rfl rfl]
  · rw [enable_eq, testBit_clear _ _ _ (by norm_num)]; simp
  · intro k hk
    rw [enable_eq, testBit_clear _ _ _ (by norm_num)]
    have h1 : k < 8 := by omega
    have h2 : ¬ 7 = k := by omega
    simp [h1, h2]
  · rw [set_pwm_enable_cache index 1 count client data _ _ rfl rfl]
    simp only [Function.update_same, hupd]
  · rw [rpm_eq, enable_eq, testBit_clear _ _ _ (by norm_num), testBit_set]; simp
  · rw [rpm_eq, enable_eq, testBit_clear _ _ _ (by norm_num), testBit_set]; simp
  · intro k hk
    rw [rpm_eq, enable_eq, testBit_clear _ _ _ (by norm_num), testBit_set]
    have h1 : k < 8 := by omega
    have h2 : ¬ 7 = k := by omega
    have h3 : ¬ 6 = k := by omega
    simp [h1, h2, h3]
  · rw [set_pwm_enable_cache index 2 count client data _ _ rfl rfl]
    simp only [Function.update_same, hupd]
  · rw [rpm_eq, enable_eq, testBit_set, testBit_set]; simp
  · rw [rpm_eq, enable_eq, testBit_set, testBit_set]; simp
  · intro k hk
    rw [rpm_eq, enable_eq, testBit_set, testBit_set]
    have h1 : k < 8 := by omega
    have h2 : ¬ 7 = k := by omega
    have h3 : ¬ 6 = k := by omega
    simp [h1, h2, h3]
  · rw [set_pwm_enable_cache index 3 count client data _ _ rfl rfl]
    have h : u16 0xffff = 0xffff := by decide
    simp only [h]
  · rw [enable_eq, testBit_set]; simp
  · intro k hk
    rw [enable_eq, testBit_set]
    have h1 : k < 8 := by omega
    have h2 : ¬ 7 = k := by omega
    simp [h1, h2]
  · intro mode hmode j hj
    interval_cases mode
    · rw [set_pwm_enable_cache index 0 count client data _ _ rfl rfl]
      simp [Function.update_noteq hj]
    · rw [set_pwm_enable_cache index 1 count client data _ _ rfl rfl]
      simp [Function.update_noteq hj]
    · rw [set_pwm_enable_cache index 2 count client data _ _ rfl rfl]
      simp [Function.update_noteq hj]
    · rw [set_pwm_enable_cache index 3 count client data _ _ rfl rfl]
      simp [Function.update_noteq hj]

/-! ## Mode changes on the bus -/

/-- The four transfers of `set_pwm_enable` for a mode that its two `switch`
statements accept, and where the call stops when one of them fails. -/
theorem set_pwm_enable_accepted (index : Fin NR_CHANNEL) (mode count : Nat) (c : i2c_client)
    (d d1 d2 : max31785_data) (h1 : set_pwm_enable_switch1 index mode d = some d1)
    (h2 : set_pwm_enable_switch2 index mode d1 = some d2) :
    set_pwm_enable index (Except.ok mode) count c d =
      if c.reply c.log.length < 0 then
        (c.reply c.log.length,
          ⟨c.reply, c.log ++ [⟨Txn.write_byte_data 0 index, c.reply c.log.length⟩]⟩, d2)
      else if c.reply (c.log.length + 1) < 0 then
        (c.reply (c.log.length + 1),
          ⟨c.reply, c.log ++ [⟨Txn.write_byte_data 0 index, c.reply c.log.length⟩,
            ⟨Txn.write_byte_data MAX31785_REG_FAN_CONFIG_1_2 (u8 (u16 (d2.fan_config index))),
              c.reply (c.log.length + 1)⟩]⟩, d2)
      else if c.reply (c.log.length + 2) < 0 then
        (c.reply (c.log.length + 2),
          ⟨c.reply, c.log ++ [⟨Txn.write_byte_data 0 index, c.reply c.log.length⟩,
            ⟨Txn.write_byte_data MAX31785_REG_FAN_CONFIG_1_2 (u8 (u16 (d2.fan_config index))),
              c.reply (c.log.length + 1)⟩,
            ⟨Txn.write_byte_data 0 index, c.reply (c.log.length + 2)⟩]⟩, d2)
      else if c.reply (c.log.length + 3) < 0 then
        (c.reply (c.log.length + 3),
          ⟨c.reply, c.log ++ [⟨Txn.write_byte_data 0 index, c.reply c.log.length⟩,
            ⟨Txn.write_byte_data MAX31785_REG_FAN_CONFIG_1_2 (u8 (u16 (d2.fan_config index))),
              c.reply (c.log.length + 1)⟩,
            ⟨Txn.write_byte_data 0 index, c.reply (c.log.length + 2)⟩,
            ⟨Txn.write_word_data MAX31785_REG_FAN_COMMAND_1 (u16 (d2.fan_command index)),
              c.reply (c.log.length + 3)⟩]⟩, d2)
      else
        ((count : Int),
          ⟨c.reply, c.log ++ [⟨Txn.write_byte_data 0 index, c.reply c.log.length⟩,
            ⟨Txn.write_byte_data MAX31785_REG_FAN_CONFIG_1_2 (u8 (u16 (d2.fan_config index))),
              c.reply (c.log.length + 1)⟩,
            ⟨Txn.write_byte_data 0 index, c.reply (c.log.length + 2)⟩,
            ⟨Txn.write_word_data MAX31785_REG_FAN_COMMAND_1 (u16 (d2.fan_command index)),
              c.reply (c.log.length + 3)⟩]⟩, d2) := by
  simp only [set_pwm_enable, h1, h2,
    write_fan_data_byte _ _ _ _ (show MAX31785_REG_FAN_CONFIG_1_2 < 256 by decide),
    write_fan_data_word _ _ _ _ (show MAX31785_REG_FAN_COMMAND_1 < 256 by decide)]
  by_cases h0 : c.reply c.log.length < 0
  · simp [h0]
  by_cases h1 : c.reply (c.log.length + 1) < 0
  · simp [h0, h1]
  by_cases h2 : c.reply (c.log.length + 2) < 0
  · simp [h0, h1, h2, Nat.add_assoc]
  by_cases h3 : c.reply (c.log.length + 3) < 0
  · simp [h0, h1, h2, h3, Nat.add_assoc]
  · simp [h0, h1, h2, h3, Nat.add_assoc]

/-- Counterexample to C11 as stated: on a bus where every transfer succeeds,
channel 0 is in RPM mode (`fan_config[0] = 0xc0`); `set_pwm_enable` with mode 3
succeeds, the cached command becomes `0xffff`, and the `get_fan_target` that
follows succeeds and shows 65535, the raw command. -/
theorem get_fan_target_after_automatic_shows_raw :
    (set_pwm_enable 0 (Except.ok 3) 2 quiet_client rpm_mode_data).1 = 2 ∧
    (set_pwm_enable 0 (Except.ok 3) 2 quiet_client rpm_mode_data).2.2.fan_command 0 = 0xffff ∧
    (get_fan_target 100 0 0
      (set_pwm_enable 0 (Except.ok 3) 2 quiet_client rpm_mode_data).2.1
      (set_pwm_enable 0 (Except.ok 3) 2 quiet_client rpm_mode_data).2.2).1 =
        Except.ok 65535 :=
  ⟨by decide, by decide, rfl⟩

/-- C11 (target read after entering automatic mode), as amended: on a bus where
every transfer succeeds, for every prior state, `set_pwm_enable` with mode 3
returns `count` and the `get_fan_target` that follows shows 65535, the raw
command `0xffff`, when bit 6 (RPM mode) of the prior `fan_config[i]` is set, and
1638, which is `0xffff / 40`, when it is clear. -/
theorem get_fan_target_after_automatic (HZ jiffies : Nat) (index : Fin NR_CHANNEL)
    (count : Nat) (client : i2c_client) (data : max31785_data) (hc : client.healthy) :
    (set_pwm_enable index (Except.ok 3) count client data).1 = (count : Int) ∧
    (get_fan_target HZ jiffies index
      (set_pwm_enable index (Except.ok 3) count client data).2.1
      (set_pwm_enable index (Except.ok 3) count client data).2.2).1 =
        Except.ok (if (data.fan_config index).testBit 6 = true then 65535 else 1638) := by
  have h0 : ¬ client.reply client.log.length < 0 := not_lt.mpr (hc _)
  have h1 : ¬ client.reply (client.log.length + 1) < 0 := not_lt.mpr (hc _)
  have h2 : ¬ client.reply (client.log.length + 2) < 0 := not_lt.mpr (hc _)
  have h3 : ¬ client.reply (client.log.length + 3) < 0 := not_lt.mpr (hc _)
  rw [set_pwm_enable_accepted index 3 count client data _ _ rfl rfl,
    if_neg h0, if_neg h1, if_neg h2, if_neg h3]
  refine ⟨rfl, ?_⟩
  dsimp only
  refine (get_fan_target_healthy HZ jiffies index _ _ ?_).trans ?_
  · exact hc
  · have hbit : (u8 (data.fan_config index ||| MAX31785_FAN_CFG_PWM_ENABLE)).testBit 6 =
        (data.fan_config index).testBit 6 := by
      rw [enable_eq, testBit_set]; simp
    have hcmd : u16 0xffff = 65535 := by decide
    simp only [Function.update_same, hbit, hcmd]
    split_ifs <;> rfl

/-- Witness for `get_fan_target_after_automatic`: channel 0 of a zero-filled
cache, in manual PWM mode before the call. -/
theorem get_fan_target_after_automatic_witness :
    quiet_client.healthy ∧
    (get_fan_target 100 0 0
      (set_pwm_enable 0 (Except.ok 3) 2 quiet_client zero_data).2.1
      (set_pwm_enable 0 (Except.ok 3) 2 quiet_client zero_data).2.2).1 =
        Except.ok (if (zero_data.fan_config 0).testBit 6 = true then 65535 else 1638) :=
  ⟨quiet_client_healthy,
   (get_fan_target_after_automatic 100 0 0 2 quiet_client zero_data quiet_client_healthy).2⟩

/-! ## More on pulses per revolution -/

/-- What `set_fan_pulses` does with a value that passes its range check. -/
theorem set_fan_pulses_accepted (index : Fin NR_CHANNEL) (count p : Nat) (c : i2c_client)
    (d : max31785_data) (hp : p ≤ 4) :
    set_fan_pulses index (Except.ok p) count c d =
      if c.reply c.log.length < 0 then
        (c.reply c.log.length,
          ⟨c.reply, c.log ++ [⟨Txn.write_byte_data 0 index, c.reply c.log.length⟩]⟩,
          { d with
            fan_config := Function.update d.fan_config index
              (u8 (u8 (d.fan_config index &&& 0x30) ||| ulong (ulong_sub p 1 <<< 4))),
            fan_command := Function.update d.fan_command index p })
      else if c.reply (c.log.length + 1) < 0 then
        (c.reply (c.log.length + 1),
          ⟨c.reply, c.log ++ [⟨Txn.write_byte_data 0 index, c.reply c.log.length⟩,
            ⟨Txn.write_byte_data MAX31785_REG_FAN_CONFIG_1_2
              (u8 (u8 (d.fan_config index &&& 0x30) ||| ulong (ulong_sub p 1 <<< 4))),
              c.reply (c.log.length + 1)⟩]⟩,
          { d with
            fan_config := Function.update d.fan_config index
              (u8 (u8 (d.fan_config index &&& 0x30) ||| ulong (ulong_sub p 1 <<< 4))),
            fan_command := Function.update d.fan_command index p })
      else
        ((count : Int),
          ⟨c.reply, c.log ++ [⟨Txn.write_byte_data 0 index, c.reply c.log.length⟩,
            ⟨Txn.write_byte_data MAX31785_REG_FAN_CONFIG_1_2
              (u8 (u8 (d.fan_config index &&& 0x30) ||| ulong (ulong_sub p 1 <<< 4))),
              c.reply (c.log.length + 1)⟩]⟩,
          { d with
            fan_config := Function.update d.fan_config index
              (u8 (u8 (d.fan_config index &&& 0x30) ||| ulong (ulong_sub p 1 <<< 4))),
            fan_command := Function.update d.fan_command index p }) := by
  have hp1 : ¬ p > 4 := by omega
  have hp2 : u16 p = p := u16_of_lt (by omega)
  have hupd : ∀ (f : Fin NR_CHANNEL → Nat) (a b : Nat),
      Function.update (Function.update f index a) index b = Function.update f index b :=
    fun f a b => Function.update_idem a b f
  have hb : ∀ x : Nat, u8 (u16 (u8 x)) = u8 x := by
    intro x
    unfold u8 u16
    omega
  simp only [set_fan_pulses, hp1, if_false, Function.update_same, hp2, hupd, hb,
    MAX31785_FAN_CFG_PULSE_MASK, MAX31785_FAN_CFG_PULSE_OFFSET, MAX31785_FAN_CFG_PULSE_SHIFT,
    write_fan_data_byte _ _ _ _ (show MAX31785_REG_FAN_CONFIG_1_2 < 256 by decide)]
  split_ifs <;> simp_all

/-- C13 (pulses set is a merge), evaluated on the code: channel 0 has
`fan_config[0] = 0xc0` (PWM output enabled, RPM mode, one pulse) and every
transfer succeeds; `set_fan_pulses` with the value 2 returns `count`, stores the
config byte `0x10` and writes `0x10` to `FAN_CONFIG_1_2` on page 0.  Bits 5-4
hold `2 - 1`, but bits 7 and 6 of the old byte are lost: a merge would give
`0xd0`. -/
theorem set_fan_pulses_drops_config_bits :
    (set_fan_pulses 0 (Except.ok 2) 2 quiet_client rpm_mode_data).1 = 2 ∧
    (set_fan_pulses 0 (Except.ok 2) 2 quiet_client rpm_mode_data).2.2.fan_config 0 = 0x10 ∧
    (set_fan_pulses 0 (Except.ok 2) 2 quiet_client rpm_mode_data).2.1.log =
      [⟨Txn.write_byte_data MAX31785_REG_PAGE 0, 0⟩,
       ⟨Txn.write_byte_data MAX31785_REG_FAN_CONFIG_1_2 0x10, 0⟩] ∧
    (rpm_mode_data.fan_config 0).testBit 7 = true ∧
    ((set_fan_pulses 0 (Except.ok 2) 2 quiet_client rpm_mode_data).2.2.fan_config 0).testBit 7
      = false ∧
    (rpm_mode_data.fan_config 0).testBit 6 = true ∧
    ((set_fan_pulses 0 (Except.ok 2) 2 quiet_client rpm_mode_data).2.2.fan_config 0).testBit 6
      = false :=
  ⟨by decide, by decide, by decide, by decide, by decide, by decide, by decide⟩

/-- C14 (pulses set clobbers the command field): for every pulse count `p` that
passes the range check and whatever the bus answers, after `set_fan_pulses` the
cached `fan_command[i]` is `p`; every transfer of the call is a byte write, to
`PAGE` or to `FAN_CONFIG_1_2`, so nothing is written to `FAN_COMMAND_1`; and on a
bus where every transfer succeeds the trace is exactly the page select of
channel `i` followed by the byte write of the new `fan_config[i]`. -/
theorem set_fan_pulses_clobbers_command (index : Fin NR_CHANNEL) (count p : Nat)
    (client : i2c_client) (data : max31785_data) (hp : p ≤ 4) :
    (set_fan_pulses index (Except.ok p) count client data).2.2.fan_command index = p ∧
    (∃ new, (set_fan_pulses index (Except.ok p) count client data).2.1.log
        = client.log ++ new ∧
      (∀ x ∈ new, ∃ reg val, x.txn = Txn.write_byte_data reg val ∧
        (reg = MAX31785_REG_PAGE ∨ reg = MAX31785_REG_FAN_CONFIG_1_2)) ∧
      (∀ x ∈ new, ∀ val, x.txn ≠ Txn.write_word_data MAX31785_REG_FAN_COMMAND_1 val)) ∧
    (client.healthy →
      (set_fan_pulses index (Except.ok p) count client data).2.1.log =
        client.log ++
          [⟨Txn.write_byte_data MAX31785_REG_PAGE index, client.reply client.log.length⟩,
           ⟨Txn.write_byte_data MAX31785_REG_FAN_CONFIG_1_2
              ((set_fan_pulses index (Except.ok p) count client data).2.2.fan_config index),
              client.reply (client.log.length + 1)⟩]) := by
  rw [set_fan_pulses_accepted index count p client data hp]
  refine ⟨by split_ifs <;> simp, ?_, ?_⟩
  · by_cases h0 : client.reply client.log.length < 0
    · rw [if_pos h0]
      refine ⟨[⟨Txn.write_byte_data 0 index, client.reply client.log.length⟩], rfl, ?_, ?_⟩
      · intro x hx
        simp only [List.mem_singleton] at hx
        subst hx
        exact ⟨0, index, rfl, Or.inl rfl⟩
      · intro x hx val hval
        simp only [List.mem_singleton] at hx
        subst hx
        cases hval
    · rw [if_neg h0]
      refine ⟨[⟨Txn.write_byte_data 0 index, client.reply client.log.length⟩,
        ⟨Txn.write_byte_data MAX31785_REG_FAN_CONFIG_1_2
          (u8 (u8 (data.fan_config index &&& 0x30) ||| ulong (ulong_sub p 1 <<< 4))),
          client.reply (client.log.length + 1)⟩], by split_ifs <;> rfl, ?_, ?_⟩
      · intro x hx
        simp only [List.mem_cons, List.mem_singleton, List.not_mem_nil, or_false] at hx
        rcases hx with rfl | rfl
        · exact ⟨0, index, rfl, Or.inl rfl⟩
        · exact ⟨_, _, rfl, Or.inr rfl⟩
      · intro x hx val hval
        simp only [List.mem_cons, List.mem_singleton, List.not_mem_nil, or_false] at hx
        rcases hx with rfl | rfl <;> cases hval
  · intro hc
    have h0 : ¬ client.reply client.log.length < 0 := not_lt.mpr (hc _)
    have h1 : ¬ client.reply (client.log.length + 1) < 0 := not_lt.mpr (hc _)
    rw [if_neg h0, if_neg h1]
    simp [MAX31785_REG_PAGE]

/-- Witness for `set_fan_pulses_clobbers_command`: two pulses on channel 0 of a
cache whose command was `0`. -/
theorem set_fan_pulses_clobbers_command_witness :
    2 ≤ 4 ∧ (set_fan_pulses 0 (Except.ok 2) 2 quiet_client zero_data).2.2.fan_command 0 = 2 :=
  ⟨by decide, (set_fan_pulses_clobbers_command 0 2 2 quiet_client zero_data (by decide)).1⟩

/-! ## Paging and the shape of traces -/

theorem paged_mono {P Q : Nat → Prop} (h : ∀ p, P p → Q p) :
    ∀ l : List Xfer, paged P l → paged Q l
  | [], _ => trivial
  | [_], ⟨⟨p, hp, ht⟩, hrv⟩ => ⟨⟨p, h p hp, ht⟩, hrv⟩
  | _ :: _ :: rest, ⟨⟨p, hp, ht⟩, hrv, hacc, hrest⟩ =>
    ⟨⟨p, h p hp, ht⟩, hrv, hacc, paged_mono h rest hrest⟩

theorem paged_append {P : Nat → Prop} :
    ∀ l1 l2 : List Xfer, paged P l1 → (∀ y ∈ l1, 0 ≤ y.rv) → paged P l2 → paged P (l1 ++ l2)
  | [], _, _, _, h2 => h2
  | [sel], _, ⟨_, hrv⟩, hall, _ => by
    have := hall sel (by simp)
    omega
  | sel :: acc :: rest, l2, ⟨hs, hrv, hacc, hrest⟩, hall, h2 =>
    ⟨hs, hrv, hacc, paged_append rest l2 hrest
      (fun y hy => hall y (by simp [hy])) h2⟩

theorem int_to_u8_lt (x : Int) : int_to_u8 x < 2 ^ 8 := by
  unfold int_to_u8
  have h1 : 0 ≤ x % 2 ^ 8 := Int.emod_nonneg _ (by norm_num)
  have h2 : x % 2 ^ 8 < 2 ^ 8 := Int.emod_lt_of_pos _ (by norm_num)
  omega

theorem int_to_u16_lt (x : Int) : int_to_u16 x < 2 ^ 16 := by
  unfold int_to_u16
  have h1 : 0 ≤ x % 2 ^ 16 := Int.emod_nonneg _ (by norm_num)
  have h2 : x % 2 ^ 16 < 2 ^ 16 := Int.emod_lt_of_pos _ (by norm_num)
  omega

theorem wf_fault_status {d : max31785_data} (hd : d.wf) (i : Fin NR_CHANNEL) {v : Nat}
    (hv : v < 2 ^ 8) : max31785_data.wf
      { d with fault_status := Function.update d.fault_status i v } := by
  refine ⟨hd.1, fun j => ?_⟩
  obtain ⟨h1, h2, h3, h4, h5, h6⟩ := hd.2 j
  refine ⟨h1, h2, h3, ?_, h5, h6⟩
  by_cases hj : j = i
  · subst hj; simpa using hv
  · simpa [Function.update_noteq hj] using h4

theorem wf_tach_rpm {d : max31785_data} (hd : d.wf) (i : Fin NR_CHANNEL) {v : Nat}
    (hv : v < 2 ^ 16) : max31785_data.wf
      { d with tach_rpm := Function.update d.tach_rpm i v } := by
  refine ⟨hd.1, fun j => ?_⟩
  obtain ⟨h1, h2, h3, h4, h5, h6⟩ := hd.2 j
  refine ⟨h1, h2, h3, h4, ?_, h6⟩
  by_cases hj : j = i
  · subst hj; simpa using hv
  · simpa [Function.update_noteq hj] using h5

theorem wf_pwm {d : max31785_data} (hd : d.wf) (i : Fin NR_CHANNEL) {v : Nat}
    (hv : v < 2 ^ 16) : max31785_data.wf { d with pwm := Function.update d.pwm i v } := by
  refine ⟨hd.1, fun j => ?_⟩
  obtain ⟨h1, h2, h3, h4, h5, h6⟩ := hd.2 j
  refine ⟨h1, h2, h3, h4, h5, ?_⟩
  by_cases hj : j = i
  · subst hj; simpa using hv
  · simpa [Function.update_noteq hj] using h6

theorem wf_fan_config {d : max31785_data} (hd : d.wf) (i : Fin NR_CHANNEL) {v : Nat}
    (hv : v < 2 ^ 8) : max31785_data.wf
      { d with fan_config := Function.update d.fan_config i v } := by
  refine ⟨hd.1, fun j => ?_⟩
  obtain ⟨h1, h2, h3, h4, h5, h6⟩ := hd.2 j
  refine ⟨?_, h2, h3, h4, h5, h6⟩
  by_cases hj : j = i
  · subst hj; simpa using hv
  · simpa [Function.update_noteq hj] using h1

theorem wf_fan_command {d : max31785_data} (hd : d.wf) (i : Fin NR_CHANNEL) {v : Nat}
    (hv : v < 2 ^ 16) : max31785_data.wf
      { d with fan_command := Function.update d.fan_command i v } := by
  refine ⟨hd.1, fun j => ?_⟩
  obtain ⟨h1, h2, h3, h4, h5, h6⟩ := hd.2 j
  refine ⟨h1, ?_, h3, h4, h5, h6⟩
  by_cases hj : j = i
  · subst hj; simpa using hv
  · simpa [Function.update_noteq hj] using h2

theorem wf_mfr_fan_config {d : max31785_data} (hd : d.wf) (i : Fin NR_CHANNEL) {v : Nat}
    (hv : v < 2 ^ 8) : max31785_data.wf
      { d with mfr_fan_config := Function.update d.mfr_fan_config i v } := by
  refine ⟨hd.1, fun j => ?_⟩
  obtain ⟨h1, h2, h3, h4, h5, h6⟩ := hd.2 j
  refine ⟨h1, h2, ?_, h4, h5, h6⟩
  by_cases hj : j = i
  · subst hj; simpa using hv
  · simpa [Function.update_noteq hj] using h3

theorem selects_channel (i : Fin NR_CHANNEL) (rv : Int) :
    Xfer.selects (fun p => p = (i : Nat)) ⟨Txn.write_byte_data 0 i, rv⟩ :=
  ⟨i, rfl, rfl⟩

theorem paged_one (P : Nat → Prop) (sel : Xfer) (hs : sel.selects P) (h : sel.rv < 0) :
    paged P [sel] := ⟨hs, h⟩

theorem paged_two (P : Nat → Prop) (sel acc : Xfer) (hs : sel.selects P) (h : 0 ≤ sel.rv)
    (ha : acc.txn.command ≠ MAX31785_REG_PAGE) : paged P [sel, acc] := ⟨hs, h, ha, trivial⟩

theorem update_device_status_traced (i : Fin NR_CHANNEL) :
    (update_device_status i).Traced (fun p => p = (i : Nat))
      (fun _ => [Txn.write_byte_data MAX31785_REG_PAGE i,
                 Txn.read_byte_data MAX31785_REG_STATUS_FANS_1_2]) := by
  intro c d
  unfold update_device_status
  rw [read_fan_data_byte _ _ _ (show MAX31785_REG_STATUS_FANS_1_2 < 256 by decide)]
  by_cases h0 : c.reply c.log.length < 0
  · refine ⟨[⟨Txn.write_byte_data 0 i, c.reply c.log.length⟩], ?_⟩
    rw [if_pos h0]
    dsimp only
    rw [if_pos h0]
    refine ⟨rfl, paged_one _ _ (selects_channel i _) h0, ?_, ?_⟩
    · intro h; cases h
    · exact fun hd => hd
  · have h0p : 0 ≤ c.reply c.log.length := not_lt.mp h0
    refine ⟨[⟨Txn.write_byte_data 0 i, c.reply c.log.length⟩,
        ⟨Txn.read_byte_data MAX31785_REG_STATUS_FANS_1_2, c.reply (c.log.length + 1)⟩], ?_⟩
    rw [if_neg h0]
    dsimp only
    have hp := paged_two _ _ ⟨Txn.read_byte_data MAX31785_REG_STATUS_FANS_1_2,
      c.reply (c.log.length + 1)⟩ (selects_channel i (c.reply c.log.length)) h0p
      (by show MAX31785_REG_STATUS_FANS_1_2 ≠ MAX31785_REG_PAGE; decide)
    by_cases h1 : c.reply (c.log.length + 1) < 0
    · rw [if_pos h1]
      refine ⟨rfl, hp, ?_, ?_⟩
      · intro h; cases h
      · exact fun hd => hd
    · rw [if_neg h1]
      refine ⟨rfl, hp, ?_, ?_⟩
      · intro _ _; rfl
      · exact fun hd => wf_fault_status hd i (int_to_u8_lt _)

theorem update_device_speed_traced (i : Fin NR_CHANNEL) :
    (update_device_speed i).Traced (fun p => p = (i : Nat))
      (fun _ => [Txn.write_byte_data MAX31785_REG_PAGE i,
                 Txn.read_word_data MAX31785_REG_FAN_SPEED_1]) := by
  intro c d
  unfold update_device_speed
  rw [read_fan_data_word _ _ _ (show MAX31785_REG_FAN_SPEED_1 < 256 by decide)]
  by_cases h0 : c.reply c.log.length < 0
  · refine ⟨[⟨Txn.write_byte_data 0 i, c.reply c.log.length⟩], ?_⟩
    rw [if_pos h0]
    dsimp only
    rw [if_pos h0]
    refine ⟨rfl, paged_one _ _ (selects_channel i _) h0, ?_, ?_⟩
    · intro h; cases h
    · exact fun hd => hd
  · have h0p : 0 ≤ c.reply c.log.length := not_lt.mp h0
    refine ⟨[⟨Txn.write_byte_data 0 i, c.reply c.log.length⟩,
        ⟨Txn.read_word_data MAX31785_REG_FAN_SPEED_1, c.reply (c.log.length + 1)⟩], ?_⟩
    rw [if_neg h0]
    dsimp only
    have hp := paged_two _ _ ⟨Txn.read_word_data MAX31785_REG_FAN_SPEED_1,
      c.reply (c.log.length + 1)⟩ (selects_channel i (c.reply c.log.length)) h0p
      (by show MAX31785_REG_FAN_SPEED_1 ≠ MAX31785_REG_PAGE; decide)
    by_cases h1 : c.reply (c.log.length + 1) < 0
    · rw [if_pos h1]
      refine ⟨rfl, hp, ?_, ?_⟩
      · intro h; cases h
      · exact fun hd => hd
    · rw [if_neg h1]
      refine ⟨rfl, hp, ?_, ?_⟩
      · intro _ _; rfl
      · exact fun hd => wf_tach_rpm hd i (int_to_u16_lt _)

theorem pwm_condition_iff (d : max31785_data) (i : Fin NR_CHANNEL) :
    (decide (d.fan_config i &&& MAX31785_FAN_CFG_CONTROL_MODE_RPM ≠ 0)
      || is_automatic_control_mode d i) = true ↔
    ((d.fan_config i).testBit 6 = true ∨ 0x7fff < d.fan_command i) := by
  unfold is_automatic_control_mode
  rw [Bool.or_eq_true, decide_eq_true_eq, rpm_mask_iff]
  by_cases h : d.fan_command i > 0x7fff
  · simp [h]
  · simp [h]

theorem automatic_iff (d : max31785_data) (i : Fin NR_CHANNEL) :
    (!is_automatic_control_mode d i) = true ↔ d.fan_command i ≤ 0x7fff := by
  unfold is_automatic_control_mode
  by_cases h : d.fan_command i > 0x7fff
  · simp [h]
  · simp [h]; omega

theorem update_device_pwm_traced (i : Fin NR_CHANNEL) :
    (update_device_pwm i).Traced (fun p => p = (i : Nat))
      (fun d => if (d.fan_config i).testBit 6 = true ∨ 0x7fff < d.fan_command i then
        [Txn.write_byte_data MAX31785_REG_PAGE i, Txn.read_word_data MAX31785_REG_READ_FAN_PWM]
        else []) := by
  intro c d
  unfold update_device_pwm
  by_cases hm : (decide (d.fan_config i &&& MAX31785_FAN_CFG_CONTROL_MODE_RPM ≠ 0)
      || is_automatic_control_mode d i) = true
  swap
  · rw [if_neg hm]
    refine ⟨[], by simp, trivial, ?_, fun hd => hd⟩
    intro _ _
    dsimp only
    rw [if_neg (fun h => hm ((pwm_condition_iff d i).mpr h))]
    rfl
  have hm2 := (pwm_condition_iff d i).mp hm
  rw [if_pos hm, read_fan_data_word _ _ _ (show MAX31785_REG_READ_FAN_PWM < 256 by decide)]
  by_cases h0 : c.reply c.log.length < 0
  · refine ⟨[⟨Txn.write_byte_data 0 i, c.reply c.log.length⟩], ?_⟩
    rw [if_pos h0]
    dsimp only
    rw [if_pos h0]
    refine ⟨rfl, paged_one _ _ (selects_channel i _) h0, ?_, ?_⟩
    · intro h; cases h
    · exact fun hd => hd
  · have h0p : 0 ≤ c.reply c.log.length := not_lt.mp h0
    refine ⟨[⟨Txn.write_byte_data 0 i, c.reply c.log.length⟩,
        ⟨Txn.read_word_data MAX31785_REG_READ_FAN_PWM, c.reply (c.log.length + 1)⟩], ?_⟩
    rw [if_neg h0]
    dsimp only
    have hp := paged_two _ _ ⟨Txn.read_word_data MAX31785_REG_READ_FAN_PWM,
      c.reply (c.log.length + 1)⟩ (selects_channel i (c.reply c.log.length)) h0p
      (by show MAX31785_REG_READ_FAN_PWM ≠ MAX31785_REG_PAGE; decide)
    by_cases h1 : c.reply (c.log.length + 1) < 0
    · rw [if_pos h1]
      refine ⟨rfl, hp, ?_, ?_⟩
      · intro h; cases h
      · exact fun hd => hd
    · rw [if_neg h1]
      refine ⟨rfl, hp, ?_, ?_⟩
      · intro _ _; rw [if_pos hm2]; rfl
      · exact fun hd => wf_pwm hd i (int_to_u16_lt _)

theorem update_device_watchdog_traced (i : Fin NR_CHANNEL) :
    (update_device_watchdog i).Traced (fun p => p = (i : Nat))
      (fun d => if d.fan_command i ≤ 0x7fff then
        [Txn.write_byte_data MAX31785_REG_PAGE i,
         Txn.write_word_data MAX31785_REG_FAN_COMMAND_1 (d.fan_command i)]
        else []) := by
  intro c d
  unfold update_device_watchdog
  by_cases hm : (!is_automatic_control_mode d i) = true
  swap
  · rw [if_neg hm]
    refine ⟨[], by simp, trivial, ?_, fun hd => hd⟩
    intro _ _
    dsimp only
    rw [if_neg (fun h => hm ((automatic_iff d i).mpr h))]
    rfl
  have hm2 := (automatic_iff d i).mp hm
  rw [if_pos hm, write_fan_data_word _ _ _ _ (show MAX31785_REG_FAN_COMMAND_1 < 256 by decide)]
  by_cases h0 : c.reply c.log.length < 0
  · refine ⟨[⟨Txn.write_byte_data 0 i, c.reply c.log.length⟩], ?_⟩
    rw [if_pos h0]
    dsimp only
    rw [if_pos h0]
    refine ⟨rfl, paged_one _ _ (selects_channel i _) h0, ?_, ?_⟩
    · intro h; cases h
    · exact fun hd => hd
  · have h0p : 0 ≤ c.reply c.log.length := not_lt.mp h0
    refine ⟨[⟨Txn.write_byte_data 0 i, c.reply c.log.length⟩,
        ⟨Txn.write_word_data MAX31785_REG_FAN_COMMAND_1 (u16 (d.fan_command i)),
          c.reply (c.log.length + 1)⟩], ?_⟩
    rw [if_neg h0]
    have hp := paged_two _ _ ⟨Txn.write_word_data MAX31785_REG_FAN_COMMAND_1
      (u16 (d.fan_command i)), c.reply (c.log.length + 1)⟩
      (selects_channel i (c.reply c.log.length)) h0p
      (by show MAX31785_REG_FAN_COMMAND_1 ≠ MAX31785_REG_PAGE; decide)
    by_cases h1 : c.reply (c.log.length + 1) < 0
    · rw [if_pos h1]
      dsimp only
      rw [if_pos h1]
      refine ⟨rfl, hp, ?_, ?_⟩
      · intro h; cases h
      · exact fun hd => hd
    · rw [if_neg h1]
      dsimp only
      rw [if_neg (lt_irrefl (0 : Int))]
      refine ⟨rfl, hp, ?_, ?_⟩
      · intro _ hd
        have hu : u16 (d.fan_command i) = d.fan_command i := u16_of_lt (hd.2 i).2.1
        rw [if_pos hm2, hu]
        rfl
      · exact fun hd => hd

theorem Poll.Traced.seq_traced {P : Nat → Prop} {ef eg : max31785_data → List Txn} {f g : Poll}
    (hf : f.Sound) (tf : f.Traced P ef) (tg : g.Traced P eg)
    (he : ∀ d1 d2 : max31785_data, d2.fan_config = d1.fan_config →
      d2.fan_command = d1.fan_command → eg d2 = eg d1) :
    (f.seq g).Traced P (fun d => ef d ++ eg d) := by
  intro c d
  obtain ⟨n1, _, hl, _, ht, _, hok⟩ := hf c d
  obtain ⟨m1, hl1, hp1, he1, hw1⟩ := tf c d
  have hn : m1 = n1 := List.append_cancel_left (hl1.symm.trans hl)
  subst hn
  obtain ⟨hc1, hc2, _⟩ := trace_foldl_frame m1 (0, d)
  rw [ht 0] at hc1 hc2
  unfold Poll.seq
  rcases hfc : f c d with ⟨o, c1, d1⟩
  rw [hfc] at hl1 he1 hw1 hok hc1 hc2
  cases o with
  | some rv =>
    refine ⟨m1, hl1, hp1, ?_, hw1⟩
    intro h; cases h
  | none =>
    obtain ⟨m2, hl2, hp2, he2, hw2⟩ := tg c1 d1
    dsimp only at hl1 hw1 hc1 hc2 ⊢
    refine ⟨m1 ++ m2, ?_, paged_append m1 m2 hp1 (hok rfl) hp2, ?_, fun hd => hw2 (hw1 hd)⟩
    · rw [hl2, hl1, List.append_assoc]
    · intro h hd
      rw [List.map_append, he1 rfl hd, he2 h (hw1 hd), he d d1 hc1 hc2]

theorem Poll.Traced.mono {P Q : Nat → Prop} {e : max31785_data → List Txn} {f : Poll}
    (h : ∀ p, P p → Q p) (tf : f.Traced P e) : f.Traced Q e := by
  intro c d
  obtain ⟨new, hl, hp, he, hw⟩ := tf c d
  exact ⟨new, hl, paged_mono h new hp, he, hw⟩

theorem Poll.Traced.congr {P : Nat → Prop} {e1 e2 : max31785_data → List Txn} {f : Poll}
    (h : ∀ d, e1 d = e2 d) (tf : f.Traced P e1) : f.Traced P e2 := by
  have : e1 = e2 := funext h
  rw [← this]
  exact tf

theorem poll_channel_spec_congr (i : Fin NR_CHANNEL) (d1 d2 : max31785_data)
    (h1 : d2.fan_config = d1.fan_config) (h2 : d2.fan_command = d1.fan_command) :
    poll_channel_spec d2 i = poll_channel_spec d1 i := by
  unfold poll_channel_spec
  rw [h1, h2]

theorem poll_spec_congr (l : List (Fin NR_CHANNEL)) (d1 d2 : max31785_data)
    (h1 : d2.fan_config = d1.fan_config) (h2 : d2.fan_command = d1.fan_command) :
    poll_spec d2 l = poll_spec d1 l := by
  induction l with
  | nil => rfl
  | cons i rest ih =>
    simp only [poll_spec, ih, poll_channel_spec_congr i d1 d2 h1 h2]

theorem update_device_channel_traced (i : Fin NR_CHANNEL) :
    (update_device_channel i).Traced (fun p => p = (i : Nat))
      (fun d => poll_channel_spec d i) := by
  have hwd := update_device_watchdog_traced i
  have hpw := (update_device_pwm_traced i).seq_traced (update_device_pwm_sound i) hwd
    (fun d1 d2 _ h2 => by simp only [h2])
  have hsp := (update_device_speed_traced i).seq_traced (update_device_speed_sound i) hpw
    (fun d1 d2 h1 h2 => by simp only [h1, h2])
  have hst := (update_device_status_traced i).seq_traced (update_device_status_sound i) hsp
    (fun d1 d2 h1 h2 => by simp only [h1, h2])
  refine Poll.Traced.congr ?_ hst
  intro d
  simp [poll_channel_spec]

theorem update_device_loop_traced (l : List (Fin NR_CHANNEL)) :
    (update_device_loop l).Traced (fun p => p < NR_CHANNEL) (fun d => poll_spec d l) := by
  induction l with
  | nil =>
    intro c d
    exact ⟨[], by simp [update_device_loop], trivial, fun _ _ => rfl, fun hd => hd⟩
  | cons i rest ih =>
    have hch : (update_device_channel i).Traced (fun p => p < NR_CHANNEL)
        (fun d => poll_channel_spec d i) :=
      (update_device_channel_traced i).mono (fun p hp => by rw [hp]; exact i.isLt)
    exact hch.seq_traced (update_device_channel_sound i) ih (poll_spec_congr rest)

/-- On a bus whose transfers all succeed, every transfer of a refresh has a
non-negative answer. -/
theorem update_device_healthy_trace (HZ jiffies : Nat) (c : i2c_client) (d : max31785_data)
    (hc : c.healthy) (new : List Xfer)
    (hnew : (max31785_update_device HZ jiffies c d).2.1.log = c.log ++ new) :
    ∀ x ∈ new, 0 ≤ x.rv := by
  obtain ⟨n1, _, hl, ha, _⟩ := update_device_loop_sound (List.finRange NR_CHANNEL) c d
  unfold max31785_update_device at hnew
  split at hnew
  · rcases hres : update_device_loop (List.finRange NR_CHANNEL) c d with ⟨o, c1, d1⟩
    rw [hres] at hnew hl
    have hn : n1 = new := by
      cases o <;> exact List.append_cancel_left (hl.symm.trans hnew)
    subst hn
    intro x hx
    obtain ⟨m, hm⟩ := answered_mem ha x hx
    rw [hm]
    exact hc m
  · have : new = [] := (List.append_cancel_left ((List.append_nil c.log).trans hnew)).symm
    subst this
    intro x hx
    cases hx

theorem zero_data_wf : zero_data.wf := by
  refine ⟨by decide, fun i => ?_⟩
  simp [zero_data]

theorem quiet_client_log (l : List Xfer) : l = quiet_client.log ++ l := rfl

/-! ## The trace of a successful poll -/

/-- C16 (successful poll sequence): when `max31785_update_device` polls a cache
whose fields are within their C types and every transfer of the call succeeds,
the transfers are exactly, for the channels 0 to 5 in ascending order, those of
`poll_channel_spec`: page select and byte read of `STATUS_FANS_1_2`, page select
and word read of `FAN_SPEED_1`, then page select and word read of `READ_FAN_PWM`
exactly when bit 6 of `fan_config[i]` is set or `fan_command[i] > 0x7fff`, then
page select and word write of the cached `fan_command[i]` to `FAN_COMMAND_1`
exactly when `fan_command[i] <= 0x7fff`.  The call returns the data pointer, the
cache is the old one with the reads of the trace stored in the fields of the
selected channels, `valid` is true, `last_updated` is the current tick, and
`fan_config`, `fan_command` and `mfr_fan_config` are unchanged. -/
theorem update_device_success_trace (HZ jiffies : Nat) (client : i2c_client)
    (data : max31785_data) (new : List Xfer)
    (hpoll : time_after jiffies (ulong (data.last_updated + HZ)) = true ∨ data.valid = false)
    (hwf : data.wf)
    (hnew : (max31785_update_device HZ jiffies client data).2.1.log = client.log ++ new)
    (hok : ∀ x ∈ new, 0 ≤ x.rv) :
    new.map Xfer.txn = poll_spec data [0, 1, 2, 3, 4, 5] ∧
    (max31785_update_device HZ jiffies client data).1 = Except.ok () ∧
    (max31785_update_device HZ jiffies client data).2.2 =
      { trace_cache data new with valid := true, last_updated := ulong jiffies } ∧
    (max31785_update_device HZ jiffies client data).2.2.valid = true ∧
    (max31785_update_device HZ jiffies client data).2.2.last_updated = ulong jiffies ∧
    (max31785_update_device HZ jiffies client data).2.2.fan_config = data.fan_config ∧
    (max31785_update_device HZ jiffies client data).2.2.fan_command = data.fan_command ∧
    (max31785_update_device HZ jiffies client data).2.2.mfr_fan_config =
      data.mfr_fan_config := by
  have hcond : (time_after jiffies (ulong (data.last_updated + HZ)) || !data.valid) = true := by
    rcases hpoll with h | h <;> simp [h]
  obtain ⟨f1, f2, f3, _⟩ := update_device_frame HZ jiffies client data
  have key : new.map Xfer.txn = poll_spec data [0, 1, 2, 3, 4, 5] ∧
      (max31785_update_device HZ jiffies client data).1 = Except.ok () ∧
      (max31785_update_device HZ jiffies client data).2.2 =
        { trace_cache data new with valid := true, last_updated := ulong jiffies } := by
    obtain ⟨n1, _, hl, _, ht, hab, _⟩ :=
      update_device_loop_sound (List.finRange NR_CHANNEL) client data
    obtain ⟨m1, hl1, _, he1, _⟩ :=
      update_device_loop_traced (List.finRange NR_CHANNEL) client data
    have hm : m1 = n1 := List.append_cancel_left (hl1.symm.trans hl)
    subst hm
    unfold max31785_update_device at hnew ⊢
    rw [if_pos hcond] at hnew ⊢
    rcases hres : update_device_loop (List.finRange NR_CHANNEL) client data with ⟨o, c1, d1⟩
    rw [hres] at hnew hl ht hab he1
    have hn : m1 = new := by
      cases o <;> exact List.append_cancel_left (hl.symm.trans hnew)
    subst hn
    cases o with
    | some rv =>
      obtain ⟨hneg, pre, t, hpre, _⟩ := hab rv rfl
      have := hok ⟨t, rv⟩ (by rw [hpre]; simp)
      simp only at this
      omega
    | none =>
      refine ⟨?_, rfl, ?_⟩
      · rw [he1 rfl hwf, finRange_channels]
      · dsimp only
        unfold trace_cache
        rw [ht 0]
  obtain ⟨k1, k2, k3⟩ := key
  refine ⟨k1, k2, k3, ?_, ?_, f1, f2, f3⟩
  · rw [k3]
  · rw [k3]

/-- Witness for `update_device_success_trace`: the first poll of the zero-filled
cache on a bus where every transfer answers `0`. -/
theorem update_device_success_trace_witness :
    ((time_after 0 (ulong (zero_data.last_updated + 100)) = true ∨ zero_data.valid = false) ∧
      zero_data.wf) ∧
    (max31785_update_device 100 0 quiet_client zero_data).2.1.log.map Xfer.txn =
      poll_spec zero_data [0, 1, 2, 3, 4, 5] ∧
    (max31785_update_device 100 0 quiet_client zero_data).2.2.valid = true :=
  ⟨⟨Or.inr rfl, zero_data_wf⟩,
   (update_device_success_trace 100 0 quiet_client zero_data
      (max31785_update_device 100 0 quiet_client zero_data).2.1.log
      (Or.inr rfl) zero_data_wf (quiet_client_log _)
      (update_device_healthy_trace 100 0 quiet_client zero_data quiet_client_healthy _
        (quiet_client_log _))).1,
   (update_device_success_trace 100 0 quiet_client zero_data
      (max31785_update_device 100 0 quiet_client zero_data).2.1.log
      (Or.inr rfl) zero_data_wf (quiet_client_log _)
      (update_device_healthy_trace 100 0 quiet_client zero_data quiet_client_healthy _
        (quiet_client_log _))).2.2.2.1⟩

/-! ## The two writes of a mode change -/

/-- For a mode from 0 to 3 both `switch` statements of `set_pwm_enable` produce a
cache, whose `fan_config[i]` is a byte and whose `fan_command[i]` is a 16-bit
value when the old one was. -/
theorem set_pwm_enable_switches (index : Fin NR_CHANNEL) (mode : Nat) (d : max31785_data)
    (hm : mode ≤ 3) (hcmd : d.fan_command index < 2 ^ 16) :
    ∃ d1 d2, set_pwm_enable_switch1 index mode d = some d1 ∧
      set_pwm_enable_switch2 index mode d1 = some d2 ∧
      d2.fan_config index < 2 ^ 8 ∧ d2.fan_command index < 2 ^ 16 := by
  have h8 : ∀ x, u8 x < 2 ^ 8 := fun x => by simpa using u8_lt x
  interval_cases mode
  · exact ⟨_, _, rfl, rfl, by simpa using h8 _, by simpa using hcmd⟩
  · exact ⟨_, _, rfl, rfl, by simpa using h8 _, by simpa using hcmd⟩
  · exact ⟨_, _, rfl, rfl, by simpa using h8 _, by simpa using hcmd⟩
  · refine ⟨_, _, rfl, rfl, by simpa using h8 _, ?_⟩
    simp only [Function.update_same]
    decide

/-- C17 (mode-transition commit): for a mode from 0 to 3, with `cfg` and `cmd`
the `fan_config[i]` and `fan_command[i]` the call leaves in the cache,
`set_pwm_enable` issues page select, byte write of `cfg` to `FAN_CONFIG_1_2`,
page select, word write of `cmd` to `FAN_COMMAND_1`, in this order, and stops at
the first transfer that fails, returning its answer: a failure of the first page
select or of the config write leaves no command write in the trace; a failure of
the second page select or of the command write leaves the config write in the
trace with nothing after the failed transfer.  When all four succeed it returns
`count`.  The cache it leaves is the same whatever the bus answers. -/
theorem set_pwm_enable_commit (index : Fin NR_CHANNEL) (mode count : Nat)
    (client : i2c_client) (data : max31785_data) (hm : mode ≤ 3)
    (hcmd : data.fan_command index < 2 ^ 16) :
    (client.reply client.log.length < 0 →
      (set_pwm_enable index (Except.ok mode) count client data).1 =
        client.reply client.log.length ∧
      (set_pwm_enable index (Except.ok mode) count client data).2.1.log = client.log ++
        [⟨Txn.write_byte_data MAX31785_REG_PAGE index, client.reply client.log.length⟩]) ∧
    (0 ≤ client.reply client.log.length → client.reply (client.log.length + 1) < 0 →
      (set_pwm_enable index (Except.ok mode) count client data).1 =
        client.reply (client.log.length + 1) ∧
      (set_pwm_enable index (Except.ok mode) count client data).2.1.log = client.log ++
        [⟨Txn.write_byte_data MAX31785_REG_PAGE index, client.reply client.log.length⟩,
         ⟨Txn.write_byte_data MAX31785_REG_FAN_CONFIG_1_2
            ((set_pwm_enable index (Except.ok mode) count client data).2.2.fan_config index),
            client.reply (client.log.length + 1)⟩]) ∧
    (0 ≤ client.reply client.log.length → 0 ≤ client.reply (client.log.length + 1) →
      client.reply (client.log.length + 2) < 0 →
      (set_pwm_enable index (Except.ok mode) count client data).1 =
        client.reply (client.log.length + 2) ∧
      (set_pwm_enable index (Except.ok mode) count client data).2.1.log = client.log ++
        [⟨Txn.write_byte_data MAX31785_REG_PAGE index, client.reply client.log.length⟩,
         ⟨Txn.write_byte_data MAX31785_REG_FAN_CONFIG_1_2
            ((set_pwm_enable index (Except.ok mode) count client data).2.2.fan_config index),
            client.reply (client.log.length + 1)⟩,
         ⟨Txn.write_byte_data MAX31785_REG_PAGE index,
            client.reply (client.log.length + 2)⟩]) ∧
    (0 ≤ client.reply client.log.length → 0 ≤ client.reply (client.log.length + 1) →
      0 ≤ client.reply (client.log.length + 2) →
      ((set_pwm_enable index (Except.ok mode) count client data).1 =
        (if client.reply (client.log.length + 3) < 0 then client.reply (client.log.length + 3)
         else (count : Int))) ∧
      (set_pwm_enable index (Except.ok mode) count client data).2.1.log = client.log ++
        [⟨Txn.write_byte_data MAX31785_REG_PAGE index, client.reply client.log.length⟩,
         ⟨Txn.write_byte_data MAX31785_REG_FAN_CONFIG_1_2
            ((set_pwm_enable index (Except.ok mode) count client data).2.2.fan_config index),
            client.reply (client.log.length + 1)⟩,
         ⟨Txn.write_byte_data MAX31785_REG_PAGE index, client.reply (client.log.length + 2)⟩,
         ⟨Txn.write_word_data MAX31785_REG_FAN_COMMAND_1
            ((set_pwm_enable index (Except.ok mode) count client data).2.2.fan_command index),
            client.reply (client.log.length + 3)⟩]) ∧
    (∀ client2 : i2c_client,
      (set_pwm_enable index (Except.ok mode) count client2 data).2.2 =
        (set_pwm_enable index (Except.ok mode) count client data).2.2) := by
  obtain ⟨d1, d2, hs1, hs2, hcfg, hcmd2⟩ := set_pwm_enable_switches index mode data hm hcmd
  have hc : ∀ cl : i2c_client, (set_pwm_enable index (Except.ok mode) count cl data).2.2 = d2 :=
    fun cl => set_pwm_enable_cache index mode count cl data d1 d2 hs1 hs2
  have hu8 : u8 (u16 (d2.fan_config index)) = d2.fan_config index :=
    u16_u8_of_lt (by simpa using hcfg)
  have hu16 : u16 (d2.fan_command index) = d2.fan_command index :=
    u16_of_lt (by simpa using hcmd2)
  rw [hc client]
  rw [set_pwm_enable_accepted index mode count client data d1 d2 hs1 hs2, hu8, hu16]
  refine ⟨?_, ?_, ?_, ?_, ?_⟩
  · intro h0
    rw [if_pos h0]
    exact ⟨rfl, rfl⟩
  · intro h0 h1
    rw [if_neg (not_lt.mpr h0), if_pos h1]
    exact ⟨rfl, rfl⟩
  · intro h0 h1 h2
    rw [if_neg (not_lt.mpr h0), if_neg (not_lt.mpr h1), if_pos h2]
    exact ⟨rfl, rfl⟩
  · intro h0 h1 h2
    rw [if_neg (not_lt.mpr h0), if_neg (not_lt.mpr h1), if_neg (not_lt.mpr h2)]
    split_ifs <;> exact ⟨rfl, rfl⟩
  · intro client2
    rw [hc client2]

/-- Witness for `set_pwm_enable_commit`: mode 1 on channel 0 when the third
transfer (the second page select) fails. -/
theorem set_pwm_enable_commit_witness :
    (1 ≤ 3 ∧ zero_data.fan_command 0 < 2 ^ 16 ∧
      0 ≤ (failing_client 2).reply (failing_client 2).log.length ∧
      0 ≤ (failing_client 2).reply ((failing_client 2).log.length + 1) ∧
      (failing_client 2).reply ((failing_client 2).log.length + 2) < 0) ∧
    (set_pwm_enable 0 (Except.ok 1) 2 (failing_client 2) zero_data).1 =
      (failing_client 2).reply ((failing_client 2).log.length + 2) :=
  ⟨⟨by decide, by decide, by decide, by decide, by decide⟩,
   ((set_pwm_enable_commit 0 1 2 (failing_client 2) zero_data (by decide) (by decide)).2.2.1
      (by decide) (by decide) (by decide)).1⟩

/-! ## Mode round trip -/

/-- Mode shown by `get_pwm_enable` on a bus whose transfers all succeed. -/
theorem get_pwm_enable_healthy (HZ jiffies : Nat) (index : Fin NR_CHANNEL) (c : i2c_client)
    (d : max31785_data) (h : c.healthy) :
    (get_pwm_enable HZ jiffies index c d).1 =
      Except.ok (if (d.fan_config index).testBit 7 = false then 0
                 else if 0x7fff < d.fan_command index then 3
                 else if (d.fan_config index).testBit 6 = true then 2 else 1) := by
  have h1 := update_device_healthy HZ jiffies c d h
  obtain ⟨f1, f2, _, _⟩ := update_device_frame HZ jiffies c d
  simp only [get_pwm_enable, h1, f1, f2, is_automatic_control_mode, rpm_mask_iff,
    enable_mask_iff]
  by_cases h7 : (d.fan_config index).testBit 7 = true
  · by_cases hauto : d.fan_command index > 0x7fff
    · simp [h7, hauto]
    · by_cases h6 : (d.fan_config index).testBit 6 = true
      · simp [h7, hauto, h6]
      · simp [h7, hauto, h6]
  · simp [h7]

/-- On a bus whose transfers all succeed `set_pwm_enable` with a mode from 0 to 3
returns `count` and hands on a bus with the same answers. -/
theorem set_pwm_enable_healthy (index : Fin NR_CHANNEL) (mode count : Nat) (c : i2c_client)
    (d d1 d2 : max31785_data) (h1 : set_pwm_enable_switch1 index mode d = some d1)
    (h2 : set_pwm_enable_switch2 index mode d1 = some d2) (hc : c.healthy) :
    (set_pwm_enable index (Except.ok mode) count c d).1 = (count : Int) ∧
    (set_pwm_enable index (Except.ok mode) count c d).2.1.healthy ∧
    (set_pwm_enable index (Except.ok mode) count c d).2.2 = d2 := by
  have e0 : ¬ c.reply c.log.length < 0 := not_lt.mpr (hc _)
  have e1 : ¬ c.reply (c.log.length + 1) < 0 := not_lt.mpr (hc _)
  have e2 : ¬ c.reply (c.log.length + 2) < 0 := not_lt.mpr (hc _)
  have e3 : ¬ c.reply (c.log.length + 3) < 0 := not_lt.mpr (hc _)
  rw [set_pwm_enable_accepted index mode count c d d1 d2 h1 h2,
    if_neg e0, if_neg e1, if_neg e2, if_neg e3]
  exact ⟨rfl, hc, rfl⟩

/-- C20 (mode round trip): on a bus where every transfer succeeds and from every
prior cache, `set_pwm_enable` followed by `get_pwm_enable` shows 0 after mode 0
and 3 after mode 3; after mode 1 it shows 1 when the prior `fan_command[i]` is at
most `0x7fff` and 3 otherwise; after mode 2 it shows 2 when the prior
`fan_command[i]` is at most `0x7fff` and 3 otherwise. -/
theorem set_pwm_enable_then_get (HZ jiffies : Nat) (index : Fin NR_CHANNEL) (count : Nat)
    (client : i2c_client) (data : max31785_data) (hc : client.healthy) :
    (get_pwm_enable HZ jiffies index
        (set_pwm_enable index (Except.ok 0) count client data).2.1
        (set_pwm_enable index (Except.ok 0) count client data).2.2).1 = Except.ok 0 ∧
    (get_pwm_enable HZ jiffies index
        (set_pwm_enable index (Except.ok 3) count client data).2.1
        (set_pwm_enable index (Except.ok 3) count client data).2.2).1 = Except.ok 3 ∧
    (get_pwm_enable HZ jiffies index
        (set_pwm_enable index (Except.ok 1) count client data).2.1
        (set_pwm_enable index (Except.ok 1) count client data).2.2).1 =
      Except.ok (if data.fan_command index ≤ 0x7fff then 1 else 3) ∧
    (get_pwm_enable HZ jiffies index
        (set_pwm_enable index (Except.ok 2) count client data).2.1
        (set_pwm_enable index (Except.ok 2) count client data).2.2).1 =
      Except.ok (if data.fan_command index ≤ 0x7fff then 2 else 3) ∧
    (∀ mode, mode ≤ 3 →
      (set_pwm_enable index (Except.ok mode) count client data).1 = (count : Int)) := by
  have hupd : ∀ (f : Fin NR_CHANNEL → Nat) (a b : Nat),
      Function.update (Function.update f index a) index b = Function.update f index b :=
    fun f a b => Function.update_idem a b f
  refine ⟨?_, ?_, ?_, ?_, ?_⟩
  · obtain ⟨_, h2, h3⟩ := set_pwm_enable_healthy index 0 count client data _ _ rfl rfl hc
    rw [get_pwm_enable_healthy HZ jiffies index _ _ h2, h3]
    have hb : (u8 (data.fan_config index &&& int_not MAX31785_FAN_CFG_PWM_ENABLE)).testBit 7
        = false := by
      rw [enable_eq, testBit_clear _ _ _ (by norm_num)]; simp
    simp only [Function.update_same, hb, if_true]
  · obtain ⟨_, h2, h3⟩ := set_pwm_enable_healthy index 3 count client data _ _ rfl rfl hc
    rw [get_pwm_enable_healthy HZ jiffies index _ _ h2, h3]
    have hb : (u8 (data.fan_config index ||| MAX31785_FAN_CFG_PWM_ENABLE)).testBit 7
        = true := by
      rw [enable_eq, testBit_set]; simp
    have hcmd : u16 0xffff = 65535 := by decide
    simp [Function.update_same, hb, hcmd]
  · obtain ⟨_, h2, h3⟩ := set_pwm_enable_healthy index 1 count client data _ _ rfl rfl hc
    rw [get_pwm_enable_healthy HZ jiffies index _ _ h2, h3]
    have hb7 : (u8 (u8 (data.fan_config index ||| MAX31785_FAN_CFG_PWM_ENABLE) &&&
        int_not MAX31785_FAN_CFG_CONTROL_MODE_RPM)).testBit 7 = true := by
      rw [rpm_eq, enable_eq, testBit_clear _ _ _ (by norm_num), testBit_set]; simp
    have hb6 : (u8 (u8 (data.fan_config index ||| MAX31785_FAN_CFG_PWM_ENABLE) &&&
        int_not MAX31785_FAN_CFG_CONTROL_MODE_RPM)).testBit 6 = false := by
      rw [rpm_eq, enable_eq, testBit_clear _ _ _ (by norm_num), testBit_set]; simp
    simp only [Function.update_same, hupd, hb7, hb6]
    by_cases hcmd : data.fan_command index ≤ 0x7fff
    · have : ¬ 0x7fff < data.fan_command index := by omega
      simp [hcmd, this]
    · have : 0x7fff < data.fan_command index := by omega
      simp [hcmd, this]
  · obtain ⟨_, h2, h3⟩ := set_pwm_enable_healthy index 2 count client data _ _ rfl rfl hc
    rw [get_pwm_enable_healthy HZ jiffies index _ _ h2, h3]
    have hb7 : (u8 (u8 (data.fan_config index ||| MAX31785_FAN_CFG_PWM_ENABLE) |||
        MAX31785_FAN_CFG_CONTROL_MODE_RPM)).testBit 7 = true := by
      rw [rpm_eq, enable_eq, testBit_set, testBit_set]; simp
    have hb6 : (u8 (u8 (data.fan_config index ||| MAX31785_FAN_CFG_PWM_ENABLE) |||
        MAX31785_FAN_CFG_CONTROL_MODE_RPM)).testBit 6 = true := by
      rw [rpm_eq, enable_eq, testBit_set, testBit_set]; simp
    simp only [Function.update_same, hupd, hb7, hb6]
    by_cases hcmd : data.fan_command index ≤ 0x7fff
    · have : ¬ 0x7fff < data.fan_command index := by omega
      simp [hcmd, this]
    · have : 0x7fff < data.fan_command index := by omega
      simp [hcmd, this]
  · intro mode hmode
    interval_cases mode
    · exact (set_pwm_enable_healthy index 0 count client data _ _ rfl rfl hc).1
    · exact (set_pwm_enable_healthy index 1 count client data _ _ rfl rfl hc).1
    · exact (set_pwm_enable_healthy index 2 count client data _ _ rfl rfl hc).1
    · exact (set_pwm_enable_healthy index 3 count client data _ _ rfl rfl hc).1

/-- Witness for `set_pwm_enable_then_get`: channel 0 of a cache in RPM mode with
command `0`, set to mode 1 and read back. -/
theorem set_pwm_enable_then_get_witness :
    quiet_client.healthy ∧
    (get_pwm_enable 100 0 0
        (set_pwm_enable 0 (Except.ok 1) 2 quiet_client rpm_mode_data).2.1
        (set_pwm_enable 0 (Except.ok 1) 2 quiet_client rpm_mode_data).2.2).1 =
      Except.ok (if rpm_mode_data.fan_command 0 ≤ 0x7fff then 1 else 3) :=
  ⟨quiet_client_healthy,
   (set_pwm_enable_then_get 100 0 0 2 quiet_client rpm_mode_data quiet_client_healthy).2.2.1⟩

/-! ## Initialisation -/

/-- What one call of `max31785_read_fan_data` adds to the trace. -/
theorem read_fan_data_block (c : i2c_client) (i : Fin NR_CHANNEL) (acc : Txn)
    (hacc : acc.command ≠ MAX31785_REG_PAGE) (r : Int × i2c_client)
    (hr : r = if c.reply c.log.length < 0 then
        (c.reply c.log.length,
          ⟨c.reply, c.log ++ [⟨Txn.write_byte_data 0 i, c.reply c.log.length⟩]⟩)
      else
        (c.reply (c.log.length + 1),
          ⟨c.reply, c.log ++ [⟨Txn.write_byte_data 0 i, c.reply c.log.length⟩,
                              ⟨acc, c.reply (c.log.length + 1)⟩]⟩)) :
    ∃ new : List Xfer, r.2 = ⟨c.reply, c.log ++ new⟩ ∧
      answered c.reply c.log.length new ∧ paged (fun p => p = (i : Nat)) new ∧
      (∃ pre t, new = pre ++ [⟨t, r.1⟩] ∧ ∀ y ∈ pre, 0 ≤ y.rv) ∧
      (0 ≤ r.1 → (∀ y ∈ new, 0 ≤ y.rv) ∧ new.length = 2) := by
  subst hr
  by_cases h0 : c.reply c.log.length < 0
  · rw [if_pos h0]
    refine ⟨[⟨Txn.write_byte_data 0 i, c.reply c.log.length⟩], rfl, ⟨rfl, trivial⟩,
      paged_one _ _ (selects_channel i _) h0, ⟨[], _, rfl, by simp⟩, ?_⟩
    intro h
    dsimp only at h
    omega
  · have h0p : 0 ≤ c.reply c.log.length := not_lt.mp h0
    rw [if_neg h0]
    refine ⟨[⟨Txn.write_byte_data 0 i, c.reply c.log.length⟩,
        ⟨acc, c.reply (c.log.length + 1)⟩], rfl, ⟨rfl, rfl, trivial⟩,
      paged_two _ _ _ (selects_channel i _) h0p hacc, ⟨[_], _, rfl, by simpa using h0p⟩, ?_⟩
    intro h
    dsimp only at h
    refine ⟨?_, rfl⟩
    intro y hy
    simp only [List.mem_cons, List.mem_singleton, List.not_mem_nil, or_false] at hy
    rcases hy with rfl | rfl
    · exact h0p
    · exact h

theorem read_fan_data_byte_block (c : i2c_client) (i : Fin NR_CHANNEL) (reg : Nat)
    (hreg : reg < 256) (hne : reg ≠ MAX31785_REG_PAGE) :
    ∃ new : List Xfer, (max31785_read_fan_data c i reg 1).2 = ⟨c.reply, c.log ++ new⟩ ∧
      answered c.reply c.log.length new ∧ paged (fun p => p = (i : Nat)) new ∧
      (∃ pre t, new = pre ++ [⟨t, (max31785_read_fan_data c i reg 1).1⟩] ∧
        ∀ y ∈ pre, 0 ≤ y.rv) ∧
      (0 ≤ (max31785_read_fan_data c i reg 1).1 → (∀ y ∈ new, 0 ≤ y.rv) ∧ new.length = 2) :=
  read_fan_data_block c i (Txn.read_byte_data reg) hne _ (read_fan_data_byte c i reg hreg)

theorem read_fan_data_word_block (c : i2c_client) (i : Fin NR_CHANNEL) (reg : Nat)
    (hreg : reg < 256) (hne : reg ≠ MAX31785_REG_PAGE) :
    ∃ new : List Xfer, (max31785_read_fan_data c i reg 0).2 = ⟨c.reply, c.log ++ new⟩ ∧
      answered c.reply c.log.length new ∧ paged (fun p => p = (i : Nat)) new ∧
      (∃ pre t, new = pre ++ [⟨t, (max31785_read_fan_data c i reg 0).1⟩] ∧
        ∀ y ∈ pre, 0 ≤ y.rv) ∧
      (0 ≤ (max31785_read_fan_data c i reg 0).1 → (∀ y ∈ new, 0 ≤ y.rv) ∧ new.length = 2) :=
  read_fan_data_block c i (Txn.read_word_data reg) hne _ (read_fan_data_word c i reg hreg)

theorem init_client_channel_sound (i : Fin NR_CHANNEL) (c : i2c_client) (d : max31785_data) :
    ∃ new : List Xfer, (init_client_channel i c d).2.1 = ⟨c.reply, c.log ++ new⟩ ∧
      answered c.reply c.log.length new ∧ paged (fun p => p = (i : Nat)) new ∧
      (d.wf → (init_client_channel i c d).2.2.wf) ∧
      (∀ e, (init_client_channel i c d).1 = Except.error e →
        e < 0 ∧ ∃ pre t, new = pre ++ [⟨t, e⟩] ∧ ∀ y ∈ pre, 0 ≤ y.rv) ∧
      (∀ rv, (init_client_channel i c d).1 = Except.ok rv →
        (∀ y ∈ new, 0 ≤ y.rv) ∧ new.length = 6 ∧ ∃ pre t, new = pre ++ [⟨t, rv⟩]) := by
  unfold init_client_channel
  dsimp only
  obtain ⟨n1, e1, a1, p1, l1, k1⟩ := read_fan_data_byte_block c i MAX31785_REG_FAN_CONFIG_1_2
    (by decide) (by decide)
  generalize max31785_read_fan_data c i MAX31785_REG_FAN_CONFIG_1_2 1 = r1 at e1 l1 k1 ⊢
  rcases r1 with ⟨v1, c1⟩
  dsimp only at e1 l1 k1 ⊢
  subst e1
  by_cases hv1 : v1 < 0
  · rw [if_pos hv1]
    refine ⟨n1, rfl, a1, p1, fun hd => hd, ?_, ?_⟩
    · intro e he
      cases he
      exact ⟨hv1, l1⟩
    · intro rv hrv
      cases hrv
  rw [if_neg hv1]
  obtain ⟨hn1, hlen1⟩ := k1 (not_lt.mp hv1)
  obtain ⟨n2, e2, a2, p2, l2, k2⟩ := read_fan_data_word_block
    ⟨c.reply, c.log ++ n1⟩ i MAX31785_REG_FAN_COMMAND_1 (by decide) (by decide)
  generalize max31785_read_fan_data ⟨c.reply, c.log ++ n1⟩ i MAX31785_REG_FAN_COMMAND_1 0 = r2
    at e2 l2 k2 ⊢
  rcases r2 with ⟨v2, c2⟩
  dsimp only at e2 a2 l2 k2 ⊢
  subst e2
  rw [List.length_append] at a2
  by_cases hv2 : v2 < 0
  · rw [if_pos hv2]
    refine ⟨n1 ++ n2, by rw [List.append_assoc], (answered_append _ _ _ _).mpr ⟨a1, a2⟩,
      paged_append _ _ p1 hn1 p2, fun hd => wf_fan_config hd i (int_to_u8_lt _), ?_, ?_⟩
    · intro e he
      cases he
      obtain ⟨pre, t, hpre, hall⟩ := l2
      refine ⟨hv2, n1 ++ pre, t, by rw [hpre, List.append_assoc], ?_⟩
      intro y hy
      rcases List.mem_append.mp hy with hy | hy
      · exact hn1 y hy
      · exact hall y hy
    · intro rv hrv
      cases hrv
  rw [if_neg hv2]
  obtain ⟨hn2, hlen2⟩ := k2 (not_lt.mp hv2)
  obtain ⟨n3, e3, a3, p3, l3, k3⟩ := read_fan_data_byte_block
    ⟨c.reply, c.log ++ n1 ++ n2⟩ i MAX31785_REG_MFR_FAN_CONFIG (by decide) (by decide)
  generalize max31785_read_fan_data ⟨c.reply, c.log ++ n1 ++ n2⟩ i
    MAX31785_REG_MFR_FAN_CONFIG 1 = r3 at e3 l3 k3 ⊢
  rcases r3 with ⟨v3, c3⟩
  dsimp only at e3 a3 l3 k3 ⊢
  subst e3
  rw [List.length_append, List.length_append] at a3
  have hall12 : ∀ y ∈ n1 ++ n2, 0 ≤ y.rv := by
    intro y hy
    rcases List.mem_append.mp hy with hy | hy
    · exact hn1 y hy
    · exact hn2 y hy
  have ha : answered c.reply c.log.length (n1 ++ n2 ++ n3) := by
    rw [answered_append, answered_append, List.length_append, ← Nat.add_assoc]
    exact ⟨⟨a1, a2⟩, a3⟩
  have hp : paged (fun p => p = (i : Nat)) (n1 ++ n2 ++ n3) :=
    paged_append _ _ (paged_append _ _ p1 hn1 p2) hall12 p3
  have hlog : c.log ++ n1 ++ n2 ++ n3 = c.log ++ (n1 ++ n2 ++ n3) := by
    simp only [List.append_assoc]
  by_cases hv3 : v3 < 0
  · rw [if_pos hv3]
    refine ⟨n1 ++ n2 ++ n3, by rw [hlog], ha, hp,
      fun hd => wf_fan_command (wf_fan_config hd i (int_to_u8_lt _)) i (int_to_u16_lt _),
      ?_, ?_⟩
    · intro e he
      cases he
      obtain ⟨pre, t, hpre, hall⟩ := l3
      refine ⟨hv3, n1 ++ n2 ++ pre, t, by rw [hpre]; simp only [List.append_assoc], ?_⟩
      intro y hy
      rcases List.mem_append.mp hy with hy | hy
      · exact hall12 y hy
      · exact hall y hy
    · intro rv hrv
      cases hrv
  rw [if_neg hv3]
  obtain ⟨hn3, hlen3⟩ := k3 (not_lt.mp hv3)
  refine ⟨n1 ++ n2 ++ n3, by rw [hlog], ha, hp, ?_, ?_, ?_⟩
  · intro hd
    have h3 := wf_mfr_fan_config (wf_fan_command (wf_fan_config hd i (int_to_u8_lt v1)) i
      (int_to_u16_lt v2)) i (int_to_u8_lt v3)
    split_ifs
    · exact wf_pwm h3 i (by norm_num)
    · exact h3
  · intro e he
    cases he
  · intro rv hrv
    cases hrv
    refine ⟨?_, by simp [hlen1, hlen2, hlen3], ?_⟩
    · intro y hy
      rcases List.mem_append.mp hy with hy | hy
      · exact hall12 y hy
      · exact hn3 y hy
    · obtain ⟨pre, t, hpre, _⟩ := l3
      exact ⟨n1 ++ n2 ++ pre, t, by rw [hpre]; simp only [List.append_assoc]⟩

theorem init_client_loop_sound (l : List (Fin NR_CHANNEL)) :
    ∀ (rv : Int) (c : i2c_client) (d : max31785_data), ∃ new : List Xfer,
      (init_client_loop l rv c d).2.1 = ⟨c.reply, c.log ++ new⟩ ∧
      answered c.reply c.log.length new ∧ paged (fun p => p < NR_CHANNEL) new ∧
      (d.wf → (init_client_loop l rv c d).2.2.wf) ∧
      (∀ e, (init_client_loop l rv c d).1 = Except.error e →
        e < 0 ∧ ∃ pre t, new = pre ++ [⟨t, e⟩] ∧ ∀ y ∈ pre, 0 ≤ y.rv) ∧
      (∀ rv1, (init_client_loop l rv c d).1 = Except.ok rv1 →
        (∀ y ∈ new, 0 ≤ y.rv) ∧ new.length = 6 * l.length ∧
        ((l = [] ∧ rv1 = rv) ∨ ∃ pre t, new = pre ++ [⟨t, rv1⟩])) := by
  induction l with
  | nil =>
    intro rv c d
    refine ⟨[], by simp [init_client_loop], trivial, trivial, fun hd => hd, ?_, ?_⟩
    · intro e he
      cases he
    · intro rv1 hrv1
      cases hrv1
      refine ⟨?_, rfl, Or.inl ⟨rfl, rfl⟩⟩
      intro y hy
      cases hy
  | cons i rest ih =>
    intro rv c d
    obtain ⟨n1, e1, a1, p1, w1, b1, k1⟩ := init_client_channel_sound i c d
    have p1l : paged (fun p => p < NR_CHANNEL) n1 :=
      paged_mono (fun p hp => by rw [hp]; exact i.isLt) n1 p1
    unfold init_client_loop
    rcases hch : init_client_channel i c d with ⟨o, c1, d1⟩
    rw [hch] at e1 w1 b1 k1
    dsimp only at e1 w1 b1 k1 ⊢
    subst e1
    cases o with
    | error e =>
      dsimp only
      refine ⟨n1, rfl, a1, p1l, w1, ?_, ?_⟩
      · intro e2 he2
        cases he2
        exact b1 e rfl
      · intro rv1 hrv1
        cases hrv1
    | ok rv0 =>
      dsimp only
      obtain ⟨hn1, hlen1, pre1, t1, hpre1⟩ := k1 rv0 rfl
      obtain ⟨n2, e2, a2, p2, w2, b2, k2⟩ := ih rv0 ⟨c.reply, c.log ++ n1⟩ d1
      dsimp only at e2 a2
      rw [List.length_append] at a2
      refine ⟨n1 ++ n2, by rw [e2, List.append_assoc], (answered_append _ _ _ _).mpr ⟨a1, a2⟩,
        paged_append _ _ p1l hn1 p2, fun hd => w2 (w1 hd), ?_, ?_⟩
      · intro e he
        obtain ⟨hneg, pre, t, hpre, hall⟩ := b2 e he
        refine ⟨hneg, n1 ++ pre, t, by rw [hpre, List.append_assoc], ?_⟩
        intro y hy
        rcases List.mem_append.mp hy with hy | hy
        · exact hn1 y hy
        · exact hall y hy
      · intro rv1 hrv1
        obtain ⟨hn2, hlen2, hlast⟩ := k2 rv1 hrv1
        refine ⟨?_, ?_, Or.inr ?_⟩
        · intro y hy
          rcases List.mem_append.mp hy with hy | hy
          · exact hn1 y hy
          · exact hn2 y hy
        · rw [List.length_append, hlen1, hlen2, List.length_cons]
          omega
        · rcases hlast with ⟨hnil, hrv⟩ | ⟨pre, t, hpre⟩
          · subst hnil
            subst hrv
            have : n2 = [] := List.length_eq_zero.mp (by simpa using hlen2)
            subst this
            exact ⟨pre1, t1, by simpa using hpre1⟩
          · exact ⟨n1 ++ pre, t, by rw [hpre, List.append_assoc]⟩

/-- What `max31785_init_client` does on any bus: it only appends to the log, its
trace is paged, all transfers but the last succeed, it returns the answer of its
last transfer, and when that answer is not negative it has issued all 36
transfers. -/
theorem init_client_sound (c : i2c_client) (d : max31785_data) :
    ∃ new : List Xfer, (max31785_init_client c d).2.1 = ⟨c.reply, c.log ++ new⟩ ∧
      answered c.reply c.log.length new ∧ paged (fun p => p < NR_CHANNEL) new ∧
      (d.wf → (max31785_init_client c d).2.2.wf) ∧
      (∃ pre t, new = pre ++ [⟨t, (max31785_init_client c d).1⟩] ∧ ∀ y ∈ pre, 0 ≤ y.rv) ∧
      (0 ≤ (max31785_init_client c d).1 → new.length = 36) := by
  obtain ⟨new, e1, a1, p1, w1, b1, k1⟩ :=
    init_client_loop_sound (List.finRange NR_CHANNEL) 0 c d
  unfold max31785_init_client
  rcases hl : init_client_loop (List.finRange NR_CHANNEL) 0 c d with ⟨o, c1, d1⟩
  rw [hl] at e1 w1 b1 k1
  cases o with
  | error e =>
    obtain ⟨hneg, pre, t, hpre, hall⟩ := b1 e rfl
    refine ⟨new, e1, a1, p1, w1, ⟨pre, t, hpre, hall⟩, ?_⟩
    intro h
    dsimp only at h
    omega
  | ok rv =>
    obtain ⟨hn, hlen, hlast⟩ := k1 rv rfl
    have hlen36 : new.length = 36 := by
      rw [hlen, finRange_channels]
      rfl
    rcases hlast with ⟨hnil, _⟩ | ⟨pre, t, hpre⟩
    · rw [finRange_channels] at hnil
      cases hnil
    · refine ⟨new, e1, a1, p1, w1, ⟨pre, t, hpre, ?_⟩, fun _ => hlen36⟩
      intro y hy
      exact hn y (by rw [hpre]; exact List.mem_append_left _ hy)

/-- On a bus whose transfers all succeed `max31785_init_client` returns the answer
to its 36th transfer, the read of `MFR_FAN_CONFIG` of channel 5. -/
theorem init_client_healthy (c : i2c_client) (d : max31785_data) (hc : c.healthy) :
    (max31785_init_client c d).1 = c.reply (c.log.length + 35) := by
  obtain ⟨new, _, a1, _, _, ⟨pre, t, hpre, _⟩, hlen⟩ := init_client_sound c d
  have hnn : 0 ≤ (max31785_init_client c d).1 := by
    obtain ⟨m, hm⟩ := answered_mem a1 ⟨t, (max31785_init_client c d).1⟩ (by rw [hpre]; simp)
    have hm2 : (max31785_init_client c d).1 = c.reply m := hm
    rw [hm2]
    exact hc m
  have h36 := hlen hnn
  rw [hpre, answered_append] at a1
  have hp : pre.length = 35 := by
    rw [hpre] at h36
    simpa using h36
  rw [hp] at a1
  exact a1.2.1

theorem mfr_client_healthy : mfr_client.healthy := by
  intro n
  show (0 : Int) ≤ if n = 35 then 1 else 0
  split_ifs <;> decide

/-- C19 (initialisation on a healthy bus), evaluated on the code: on every bus
whose transfers all succeed `max31785_init_client` returns the answer to its last
transfer, the value read from `MFR_FAN_CONFIG` of channel 5, not `0`.  On the bus
`mfr_client`, where every transfer succeeds and that read gives `1`, it returns
`1`, and `max31785_probe` returns `1` at its `if (err) return err;` without
registering the device. -/
theorem init_client_returns_last_read :
    (∀ (c : i2c_client) (d : max31785_data), c.healthy →
      (max31785_init_client c d).1 = c.reply (c.log.length + 35)) ∧
    mfr_client.healthy ∧
    (max31785_init_client mfr_client zero_data).1 = 1 ∧
    (max31785_probe true true 0 mfr_client).ret = 1 ∧
    (max31785_probe true true 0 mfr_client).registered = false := by
  have h1 : (max31785_init_client mfr_client zero_data).1 = 1 := by
    rw [init_client_healthy mfr_client zero_data mfr_client_healthy]
    rfl
  refine ⟨init_client_healthy, mfr_client_healthy, h1, ?_, ?_⟩
  · simp [max31785_probe, h1]
  · simp [max31785_probe, h1]

/-! ## Page re-assertion -/

theorem paged_seq_nil : ∀ l : List (Fin NR_CHANNEL), paged_seq l []
  | [] => rfl
  | _ :: rest => ⟨[], [], rfl, trivial, fun h => absurd rfl h, paged_seq_nil rest⟩

theorem update_device_loop_paged_seq (l : List (Fin NR_CHANNEL)) :
    ∀ (c : i2c_client) (d : max31785_data), ∃ new : List Xfer,
      (update_device_loop l c d).2.1.log = c.log ++ new ∧ paged_seq l new := by
  induction l with
  | nil =>
    intro c d
    exact ⟨[], by simp [update_device_loop], rfl⟩
  | cons i rest ih =>
    intro c d
    obtain ⟨n1, _, hl, _, _, _, hok⟩ := update_device_channel_sound i c d
    obtain ⟨m1, hl1, hp1, _, _⟩ := update_device_channel_traced i c d
    have hm : m1 = n1 := List.append_cancel_left (hl1.symm.trans hl)
    subst hm
    unfold update_device_loop Poll.seq
    rcases hch : update_device_channel i c d with ⟨o, c1, d1⟩
    rw [hch] at hl hok
    dsimp only at hl hok ⊢
    cases o with
    | some rv =>
      dsimp only
      exact ⟨m1, hl, m1, [], by simp, hp1, fun h => absurd rfl h, paged_seq_nil rest⟩
    | none =>
      dsimp only
      obtain ⟨n2, hl2, hp2⟩ := ih c1 d1
      exact ⟨m1 ++ n2, by rw [hl2, hl, List.append_assoc], m1, n2, rfl, hp1,
        fun _ => hok rfl, hp2⟩

theorem init_client_loop_paged_seq (l : List (Fin NR_CHANNEL)) :
    ∀ (rv : Int) (c : i2c_client) (d : max31785_data), ∃ new : List Xfer,
      (init_client_loop l rv c d).2.1.log = c.log ++ new ∧ paged_seq l new := by
  induction l with
  | nil =>
    intro rv c d
    exact ⟨[], by simp [init_client_loop], rfl⟩
  | cons i rest ih =>
    intro rv c d
    obtain ⟨n1, e1, _, p1, _, _, k1⟩ := init_client_channel_sound i c d
    unfold init_client_loop
    rcases hch : init_client_channel i c d with ⟨o, c1, d1⟩
    rw [hch] at e1 k1
    dsimp only at e1 k1 ⊢
    subst e1
    cases o with
    | error e =>
      dsimp only
      exact ⟨n1, rfl, n1, [], by simp, p1, fun h => absurd rfl h, paged_seq_nil rest⟩
    | ok rv0 =>
      dsimp only
      obtain ⟨n2, hl2, hp2⟩ := ih rv0 ⟨c.reply, c.log ++ n1⟩ d1
      exact ⟨n1 ++ n2, by rw [hl2, List.append_assoc], n1, n2, rfl, p1,
        fun _ => (k1 rv0 rfl).1, hp2⟩

/-- The trace of a refresh splits into paged segments, one per channel. -/
theorem update_device_paged_seq (HZ jiffies : Nat) (c : i2c_client) (d : max31785_data) :
    ∃ new : List Xfer, (max31785_update_device HZ jiffies c d).2.1.log = c.log ++ new ∧
      paged_seq [0, 1, 2, 3, 4, 5] new := by
  obtain ⟨new, hl, hp⟩ := update_device_loop_paged_seq [0, 1, 2, 3, 4, 5] c d
  unfold max31785_update_device
  split
  · rw [finRange_channels]
    rcases hres : update_device_loop [0, 1, 2, 3, 4, 5] c d with ⟨o, c1, d1⟩
    rw [hres] at hl
    cases o <;> exact ⟨new, hl, hp⟩
  · exact ⟨[], by simp, paged_seq_nil _⟩

/-- The trace of the initialisation splits into paged segments, one per channel. -/
theorem init_client_paged_seq (c : i2c_client) (d : max31785_data) :
    ∃ new : List Xfer, (max31785_init_client c d).2.1.log = c.log ++ new ∧
      paged_seq [0, 1, 2, 3, 4, 5] new := by
  obtain ⟨new, hl, hp⟩ := init_client_loop_paged_seq [0, 1, 2, 3, 4, 5] 0 c d
  unfold max31785_init_client
  rw [finRange_channels]
  rcases hres : init_client_loop [0, 1, 2, 3, 4, 5] 0 c d with ⟨o, c1, d1⟩
  rw [hres] at hl
  cases o <;> exact ⟨new, hl, hp⟩

/-- The function `max31785_read_fan_data` selects the page first: when the page
select fails it returns that answer and issues nothing else, otherwise the one
access to `reg` follows. -/
theorem read_fan_data_page_first (c : i2c_client) (i : Fin NR_CHANNEL) (reg byte_mode : Nat) :
    (c.reply c.log.length < 0 →
      max31785_read_fan_data c i reg byte_mode =
        (c.reply c.log.length,
          ⟨c.reply, c.log ++ [⟨Txn.write_byte_data MAX31785_REG_PAGE i,
            c.reply c.log.length⟩]⟩)) ∧
    (0 ≤ c.reply c.log.length →
      ∃ acc : Txn, acc.command = u8 reg ∧
        (acc = Txn.read_byte_data (u8 reg) ∨ acc = Txn.read_word_data (u8 reg)) ∧
        max31785_read_fan_data c i reg byte_mode =
          (c.reply (c.log.length + 1),
            ⟨c.reply, c.log ++ [⟨Txn.write_byte_data MAX31785_REG_PAGE i, c.reply c.log.length⟩,
              ⟨acc, c.reply (c.log.length + 1)⟩]⟩)) := by
  have h0 : u8 0 = 0 := rfl
  have hb : ∀ x : Nat, u8 (u8 x) = u8 x := fun x => by unfold u8; omega
  constructor
  · intro h
    simp [max31785_read_fan_data, max31785_set_page, i2c_smbus_write_byte_data,
      i2c_client.xfer, MAX31785_PAGE_FAN_CONFIG, MAX31785_REG_PAGE, u8_channel, h0, h]
  · intro h
    have hn : ¬ c.reply c.log.length < 0 := not_lt.mpr h
    by_cases hbm : u8 byte_mode = 0
    · refine ⟨Txn.read_word_data (u8 reg), rfl, Or.inr rfl, ?_⟩
      simp [max31785_read_fan_data, max31785_set_page, i2c_smbus_write_byte_data,
        i2c_smbus_read_word_data, i2c_client.xfer, MAX31785_PAGE_FAN_CONFIG,
        MAX31785_REG_PAGE, u8_channel, h0, hn, hbm, hb]
    · refine ⟨Txn.read_byte_data (u8 reg), rfl, Or.inl rfl, ?_⟩
      simp [max31785_read_fan_data, max31785_set_page, i2c_smbus_write_byte_data,
        i2c_smbus_read_byte_data, i2c_client.xfer, MAX31785_PAGE_FAN_CONFIG,
        MAX31785_REG_PAGE, u8_channel, h0, hn, hbm, hb]

/-- The function `max31785_write_fan_data` selects the page first: when the page
select fails it returns that answer and issues nothing else, otherwise the one
write to `reg` follows and the result is its answer when negative and `0`
otherwise. -/
theorem write_fan_data_page_first (c : i2c_client) (i : Fin NR_CHANNEL)
    (reg data byte_mode : Nat) :
    (c.reply c.log.length < 0 →
      max31785_write_fan_data c i reg data byte_mode =
        (c.reply c.log.length,
          ⟨c.reply, c.log ++ [⟨Txn.write_byte_data MAX31785_REG_PAGE i,
            c.reply c.log.length⟩]⟩)) ∧
    (0 ≤ c.reply c.log.length →
      ∃ acc : Txn, acc.command = u8 reg ∧
        (acc = Txn.write_byte_data (u8 reg) (u8 (u16 data)) ∨
          acc = Txn.write_word_data (u8 reg) (u16 data)) ∧
        max31785_write_fan_data c i reg data byte_mode =
          ((if c.reply (c.log.length + 1) < 0 then c.reply (c.log.length + 1) else 0),
            ⟨c.reply, c.log ++ [⟨Txn.write_byte_data MAX31785_REG_PAGE i, c.reply c.log.length⟩,
              ⟨acc, c.reply (c.log.length + 1)⟩]⟩)) := by
  have h0 : u8 0 = 0 := rfl
  have hb : ∀ x : Nat, u8 (u8 x) = u8 x := fun x => by unfold u8; omega
  constructor
  · intro h
    simp [max31785_write_fan_data, max31785_set_page, i2c_smbus_write_byte_data,
      i2c_client.xfer, MAX31785_PAGE_FAN_CONFIG, MAX31785_REG_PAGE, u8_channel, h0, h]
  · intro h
    have hn : ¬ c.reply c.log.length < 0 := not_lt.mpr h
    by_cases hbm : u8 byte_mode = 0
    · refine ⟨Txn.write_word_data (u8 reg) (u16 data), rfl, Or.inr rfl, ?_⟩
      simp only [max31785_write_fan_data, max31785_set_page, i2c_smbus_write_byte_data,
        i2c_smbus_write_word_data, i2c_client.xfer, MAX31785_PAGE_FAN_CONFIG,
        MAX31785_REG_PAGE, u8_channel, h0, hn, hbm, hb, u16_u16, Nat.zero_add, if_false,
        List.length_append, List.length_singleton,
        ne_eq, not_true_eq_false]
      split_ifs <;> simp
    · refine ⟨Txn.write_byte_data (u8 reg) (u8 (u16 data)), rfl, Or.inl rfl, ?_⟩
      simp only [max31785_write_fan_data, max31785_set_page, i2c_smbus_write_byte_data,
        i2c_smbus_write_word_data, i2c_client.xfer, MAX31785_PAGE_FAN_CONFIG,
        MAX31785_REG_PAGE, u8_channel, h0, hn, hbm, hb, Nat.zero_add, if_false,
        List.length_append, List.length_singleton,
        ne_eq, not_false_eq_true, if_true]
      split_ifs <;> simp

theorem command_ne_page : MAX31785_REG_FAN_COMMAND_1 ≠ MAX31785_REG_PAGE := by decide

theorem config_ne_page : MAX31785_REG_FAN_CONFIG_1_2 ≠ MAX31785_REG_PAGE := by decide

theorem set_fan_target_paged (index : Fin NR_CHANNEL) (buf : Except Int Nat) (count : Nat)
    (c : i2c_client) (d : max31785_data) :
    ∃ new : List Xfer, (set_fan_target index buf count c d).2.1.log = c.log ++ new ∧
      paged (fun p => p = (index : Nat)) new := by
  cases buf with
  | error err => exact ⟨[], by simp [set_fan_target], trivial⟩
  | ok v =>
    by_cases hv : v ≤ 32767
    · rw [set_fan_target_accepted index count v c d hv]
      by_cases h0 : c.reply c.log.length < 0
      · rw [if_pos h0]
        exact ⟨_, rfl, paged_one _ _ (selects_channel index _) h0⟩
      · rw [if_neg h0]
        refine ⟨[⟨Txn.write_byte_data 0 index, c.reply c.log.length⟩,
          ⟨Txn.write_word_data MAX31785_REG_FAN_COMMAND_1 v, c.reply (c.log.length + 1)⟩],
          by split_ifs <;> rfl,
          paged_two _ _ _ (selects_channel index _) (not_lt.mp h0) command_ne_page⟩
    · rw [set_fan_target_rejected index count v c d (by omega)]
      exact ⟨[], by simp, trivial⟩

theorem set_pwm_paged (index : Fin NR_CHANNEL) (buf : Except Int Nat) (count : Nat)
    (c : i2c_client) (d : max31785_data) :
    ∃ new : List Xfer, (set_pwm index buf count c d).2.1.log = c.log ++ new ∧
      paged (fun p => p = (index : Nat)) new := by
  cases buf with
  | error err => exact ⟨[], by simp [set_pwm], trivial⟩
  | ok v =>
    by_cases hv : v ≤ 255
    · rw [set_pwm_accepted index count v c d hv]
      by_cases h0 : c.reply c.log.length < 0
      · rw [if_pos h0]
        exact ⟨_, rfl, paged_one _ _ (selects_channel index _) h0⟩
      · rw [if_neg h0]
        refine ⟨[⟨Txn.write_byte_data 0 index, c.reply c.log.length⟩,
          ⟨Txn.write_word_data MAX31785_REG_FAN_COMMAND_1 (v * 40),
            c.reply (c.log.length + 1)⟩],
          by split_ifs <;> rfl,
          paged_two _ _ _ (selects_channel index _) (not_lt.mp h0) command_ne_page⟩
    · rw [set_pwm_rejected index count v c d (by omega)]
      exact ⟨[], by simp, trivial⟩

theorem set_fan_pulses_paged (index : Fin NR_CHANNEL) (buf : Except Int Nat) (count : Nat)
    (c : i2c_client) (d : max31785_data) :
    ∃ new : List Xfer, (set_fan_pulses index buf count c d).2.1.log = c.log ++ new ∧
      paged (fun p => p = (index : Nat)) new := by
  cases buf with
  | error err => exact ⟨[], by simp [set_fan_pulses], trivial⟩
  | ok v =>
    by_cases hv : v ≤ 4
    · rw [set_fan_pulses_accepted index count v c d hv]
      by_cases h0 : c.reply c.log.length < 0
      · rw [if_pos h0]
        exact ⟨_, rfl, paged_one _ _ (selects_channel index _) h0⟩
      · rw [if_neg h0]
        refine ⟨[⟨Txn.write_byte_data 0 index, c.reply c.log.length⟩,
          ⟨Txn.write_byte_data MAX31785_REG_FAN_CONFIG_1_2
            (u8 (u8 (d.fan_config index &&& 0x30) ||| ulong (ulong_sub v 1 <<< 4))),
            c.reply (c.log.length + 1)⟩],
          by split_ifs <;> rfl,
          paged_two _ _ _ (selects_channel index _) (not_lt.mp h0) config_ne_page⟩
    · rw [set_fan_pulses_rejected index count v c d (by omega)]
      exact ⟨[], by simp, trivial⟩

theorem set_pwm_enable_paged (index : Fin NR_CHANNEL) (buf : Except Int Nat) (count : Nat)
    (c : i2c_client) (d : max31785_data) :
    ∃ new : List Xfer, (set_pwm_enable index buf count c d).2.1.log = c.log ++ new ∧
      paged (fun p => p = (index : Nat)) new := by
  cases buf with
  | error err => exact ⟨[], by simp [set_pwm_enable], trivial⟩
  | ok mode =>
    by_cases hm : mode ≤ 3
    swap
    · rw [set_pwm_enable_rejected index count mode c d (by omega)]
      exact ⟨[], by simp, trivial⟩
    have hsw : ∃ d1 d2, set_pwm_enable_switch1 index mode d = some d1 ∧
        set_pwm_enable_switch2 index mode d1 = some d2 := by
      interval_cases mode <;> exact ⟨_, _, rfl, rfl⟩
    obtain ⟨d1, d2, hs1, hs2⟩ := hsw
    rw [set_pwm_enable_accepted index mode count c d d1 d2 hs1 hs2]
    by_cases h0 : c.reply c.log.length < 0
    · rw [if_pos h0]
      exact ⟨_, rfl, paged_one _ _ (selects_channel index _) h0⟩
    rw [if_neg h0]
    have p2 := paged_two (fun p => p = (index : Nat)) _
      ⟨Txn.write_byte_data MAX31785_REG_FAN_CONFIG_1_2 (u8 (u16 (d2.fan_config index))),
        c.reply (c.log.length + 1)⟩
      (selects_channel index (c.reply c.log.length)) (not_lt.mp h0) config_ne_page
    by_cases h1 : c.reply (c.log.length + 1) < 0
    · rw [if_pos h1]
      exact ⟨_, rfl, p2⟩
    rw [if_neg h1]
    by_cases h2 : c.reply (c.log.length + 2) < 0
    · rw [if_pos h2]
      exact ⟨_, rfl, ⟨selects_channel index _, not_lt.mp h0, config_ne_page,
        paged_one _ _ (selects_channel index _) h2⟩⟩
    rw [if_neg h2]
    refine ⟨[⟨Txn.write_byte_data 0 index, c.reply c.log.length⟩,
      ⟨Txn.write_byte_data MAX31785_REG_FAN_CONFIG_1_2 (u8 (u16 (d2.fan_config index))),
        c.reply (c.log.length + 1)⟩,
      ⟨Txn.write_byte_data 0 index, c.reply (c.log.length + 2)⟩,
      ⟨Txn.write_word_data MAX31785_REG_FAN_COMMAND_1 (u16 (d2.fan_command index)),
        c.reply (c.log.length + 3)⟩], by split_ifs <;> rfl,
      ⟨selects_channel index _, not_lt.mp h0, config_ne_page,
        paged_two _ _ _ (selects_channel index _) (not_lt.mp h2) command_ne_page⟩⟩

/-- C18 (page re-assertion): `max31785_read_fan_data` and
`max31785_write_fan_data` first write the channel number to `PAGE`; when that
write fails they return its answer unchanged and issue no access, otherwise the
one access to the register follows immediately.  The trace of each of the four
store functions on channel `i` is `paged` on page `i`, and the traces of
`max31785_update_device` and of `max31785_init_client` split into one segment
per channel, in ascending order, the segment of channel `i` being `paged` on page
`i`: every register access is immediately preceded by a successful page select of
its channel, and a failed page select is followed by no access. -/
theorem page_reasserted :
    (∀ (c : i2c_client) (i : Fin NR_CHANNEL) (reg byte_mode : Nat),
      (c.reply c.log.length < 0 →
        max31785_read_fan_data c i reg byte_mode =
          (c.reply c.log.length,
            ⟨c.reply, c.log ++ [⟨Txn.write_byte_data MAX31785_REG_PAGE i,
              c.reply c.log.length⟩]⟩)) ∧
      (0 ≤ c.reply c.log.length →
        ∃ acc : Txn, acc.command = u8 reg ∧
          (acc = Txn.read_byte_data (u8 reg) ∨ acc = Txn.read_word_data (u8 reg)) ∧
          max31785_read_fan_data c i reg byte_mode =
            (c.reply (c.log.length + 1),
              ⟨c.reply, c.log ++
                [⟨Txn.write_byte_data MAX31785_REG_PAGE i, c.reply c.log.length⟩,
                 ⟨acc, c.reply (c.log.length + 1)⟩]⟩))) ∧
    (∀ (c : i2c_client) (i : Fin NR_CHANNEL) (reg data byte_mode : Nat),
      (c.reply c.log.length < 0 →
        max31785_write_fan_data c i reg data byte_mode =
          (c.reply c.log.length,
            ⟨c.reply, c.log ++ [⟨Txn.write_byte_data MAX31785_REG_PAGE i,
              c.reply c.log.length⟩]⟩)) ∧
      (0 ≤ c.reply c.log.length →
        ∃ acc : Txn, acc.command = u8 reg ∧
          (acc = Txn.write_byte_data (u8 reg) (u8 (u16 data)) ∨
            acc = Txn.write_word_data (u8 reg) (u16 data)) ∧
          max31785_write_fan_data c i reg data byte_mode =
            ((if c.reply (c.log.length + 1) < 0 then c.reply (c.log.length + 1) else 0),
              ⟨c.reply, c.log ++
                [⟨Txn.write_byte_data MAX31785_REG_PAGE i, c.reply c.log.length⟩,
                 ⟨acc, c.reply (c.log.length + 1)⟩]⟩))) ∧
    (∀ (i : Fin NR_CHANNEL) (buf : Except Int Nat) (count : Nat) (c : i2c_client)
        (d : max31785_data),
      (∃ new, (set_fan_target i buf count c d).2.1.log = c.log ++ new ∧
        paged (fun p => p = (i : Nat)) new) ∧
      (∃ new, (set_pwm i buf count c d).2.1.log = c.log ++ new ∧
        paged (fun p => p = (i : Nat)) new) ∧
      (∃ new, (set_fan_pulses i buf count c d).2.1.log = c.log ++ new ∧
        paged (fun p => p = (i : Nat)) new) ∧
      (∃ new, (set_pwm_enable i buf count c d).2.1.log = c.log ++ new ∧
        paged (fun p => p = (i : Nat)) new)) ∧
    (∀ (HZ jiffies : Nat) (c : i2c_client) (d : max31785_data),
      ∃ new, (max31785_update_device HZ jiffies c d).2.1.log = c.log ++ new ∧
        paged_seq [0, 1, 2, 3, 4, 5] new) ∧
    (∀ (c : i2c_client) (d : max31785_data),
      ∃ new, (max31785_init_client c d).2.1.log = c.log ++ new ∧
        paged_seq [0, 1, 2, 3, 4, 5] new) :=
  ⟨read_fan_data_page_first, write_fan_data_page_first,
   fun i buf count c d => ⟨set_fan_target_paged i buf count c d, set_pwm_paged i buf count c d,
     set_fan_pulses_paged i buf count c d, set_pwm_enable_paged i buf count c d⟩,
   update_device_paged_seq, init_client_paged_seq⟩

/-! ## Range of the PWM read -/

theorem update_device_wf (HZ jiffies : Nat) (c : i2c_client) (d : max31785_data)
    (hd : d.wf) : (max31785_update_device HZ jiffies c d).2.2.wf := by
  obtain ⟨new, _, _, _, hw⟩ := update_device_loop_traced (List.finRange NR_CHANNEL) c d
  have hw1 := hw hd
  unfold max31785_update_device
  split
  · rcases hres : update_device_loop (List.finRange NR_CHANNEL) c d with ⟨o, c1, d1⟩
    rw [hres] at hw1
    cases o with
    | some rv => exact ⟨hw1.1, hw1.2⟩
    | none =>
      refine ⟨?_, hw1.2⟩
      show ulong jiffies < 2 ^ BITS_PER_LONG
      unfold ulong
      exact Nat.mod_lt _ (by unfold BITS_PER_LONG; norm_num)
  · exact hd

theorem set_fan_target_wf (index : Fin NR_CHANNEL) (buf : Except Int Nat) (count : Nat)
    (c : i2c_client) (d : max31785_data) (hd : d.wf) :
    (set_fan_target index buf count c d).2.2.wf := by
  cases buf with
  | error err => exact hd
  | ok v =>
    by_cases hv : v ≤ 32767
    · rw [set_fan_target_accepted index count v c d hv]
      have h := wf_fan_command hd index (show v < 2 ^ 16 by norm_num; omega)
      split_ifs <;> exact h
    · rw [set_fan_target_rejected index count v c d (by omega)]
      exact hd

theorem set_pwm_wf (index : Fin NR_CHANNEL) (buf : Except Int Nat) (count : Nat)
    (c : i2c_client) (d : max31785_data) (hd : d.wf) :
    (set_pwm index buf count c d).2.2.wf := by
  cases buf with
  | error err => exact hd
  | ok v =>
    by_cases hv : v ≤ 255
    · rw [set_pwm_accepted index count v c d hv]
      have h := wf_fan_command hd index (show v * 40 < 2 ^ 16 by norm_num; omega)
      split_ifs <;> exact h
    · rw [set_pwm_rejected index count v c d (by omega)]
      exact hd

theorem set_fan_pulses_wf (index : Fin NR_CHANNEL) (buf : Except Int Nat) (count : Nat)
    (c : i2c_client) (d : max31785_data) (hd : d.wf) :
    (set_fan_pulses index buf count c d).2.2.wf := by
  cases buf with
  | error err => exact hd
  | ok v =>
    by_cases hv : v ≤ 4
    · rw [set_fan_pulses_accepted index count v c d hv]
      have h1 := wf_fan_config hd index
        (show u8 (u8 (d.fan_config index &&& 0x30) ||| ulong (ulong_sub v 1 <<< 4)) < 2 ^ 8 by
          simpa using u8_lt _)
      have h := wf_fan_command h1 index (show v < 2 ^ 16 by norm_num; omega)
      split_ifs <;> exact h
    · rw [set_fan_pulses_rejected index count v c d (by omega)]
      exact hd

theorem set_pwm_enable_wf (index : Fin NR_CHANNEL) (buf : Except Int Nat) (count : Nat)
    (c : i2c_client) (d : max31785_data) (hd : d.wf) :
    (set_pwm_enable index buf count c d).2.2.wf := by
  have h8 : ∀ x, u8 x < 2 ^ 8 := fun x => by simpa using u8_lt x
  cases buf with
  | error err => exact hd
  | ok mode =>
    by_cases hm : mode ≤ 3
    swap
    · rw [set_pwm_enable_rejected index count mode c d (by omega)]
      exact hd
    interval_cases mode
    · rw [set_pwm_enable_cache index 0 count c d _ _ rfl rfl]
      exact wf_fan_config hd index (h8 _)
    · rw [set_pwm_enable_cache index 1 count c d _ _ rfl rfl]
      exact wf_fan_config (wf_fan_config hd index (h8 _)) index (h8 _)
    · rw [set_pwm_enable_cache index 2 count c d _ _ rfl rfl]
      exact wf_fan_config (wf_fan_config hd index (h8 _)) index (h8 _)
    · rw [set_pwm_enable_cache index 3 count c d _ _ rfl rfl]
      exact wf_fan_command (wf_fan_config hd index (h8 _)) index (by decide)

/-- Every reachable cache holds values of the C types of its fields. -/
theorem reachable_wf {d : max31785_data} (h : reachable d) : d.wf := by
  induction h with
  | init client _ =>
    obtain ⟨_, _, _, _, hw, _⟩ := init_client_sound client zero_data
    exact hw zero_data_wf
  | update_device HZ jiffies client data _ ih => exact update_device_wf HZ jiffies client data ih
  | set_fan_target index buf count client data _ ih =>
    exact set_fan_target_wf index buf count client data ih
  | set_fan_pulses index buf count client data _ ih =>
    exact set_fan_pulses_wf index buf count client data ih
  | set_pwm index buf count client data _ ih => exact set_pwm_wf index buf count client data ih
  | set_pwm_enable index buf count client data _ ih =>
    exact set_pwm_enable_wf index buf count client data ih

/-- Value shown by `get_pwm` when its refresh succeeds. -/
theorem get_pwm_value (HZ jiffies : Nat) (index : Fin NR_CHANNEL) (c : i2c_client)
    (d : max31785_data) (v : Int) (hv : (get_pwm HZ jiffies index c d).1 = Except.ok v) :
    v = (if (d.fan_config index).testBit 6 = true ∨ 0x7fff < d.fan_command index then
          (((max31785_update_device HZ jiffies c d).2.2.pwm index / 100 : Nat) : Int)
         else ((d.fan_command index / 40 : Nat) : Int)) := by
  obtain ⟨f1, f2, _, _⟩ := update_device_frame HZ jiffies c d
  have hcond := (pwm_condition_iff (max31785_update_device HZ jiffies c d).2.2 index).trans
    (show _ ↔ ((d.fan_config index).testBit 6 = true ∨ 0x7fff < d.fan_command index) by
      rw [f1, f2])
  unfold get_pwm at hv
  dsimp only at hv
  cases hu : (max31785_update_device HZ jiffies c d).1 with
  | error e =>
    rw [hu] at hv
    cases hv
  | ok u =>
    rw [hu] at hv
    dsimp only at hv
    have hv2 := Except.ok.inj hv
    rw [← hv2]
    by_cases hm : (d.fan_config index).testBit 6 = true ∨ 0x7fff < d.fan_command index
    · rw [if_pos (hcond.mpr hm), if_pos hm]
      simp
    · rw [if_neg (fun h => hm (hcond.mp h)), if_neg hm, f2]
      simp [ MAX31785_FAN_COMMAND_PWM_RATIO]

/-- C12 (PWM read range), as amended: for every reachable cache and every channel
`i`, a `get_pwm` whose refresh succeeds shows `pwm[i] / 100` of the refreshed
cache when bit 6 (RPM mode) of `fan_config[i]` is set or `fan_command[i] > 0x7fff`,
and `fan_command[i] / 40` otherwise; the value lies between 0 and 819. -/
theorem get_pwm_range (HZ jiffies : Nat) (index : Fin NR_CHANNEL) (client : i2c_client)
    (data : max31785_data) (hr : reachable data) (v : Int)
    (hv : (get_pwm HZ jiffies index client data).1 = Except.ok v) :
    v = (if (data.fan_config index).testBit 6 = true ∨ 0x7fff < data.fan_command index then
          (((max31785_update_device HZ jiffies client data).2.2.pwm index / 100 : Nat) : Int)
         else ((data.fan_command index / 40 : Nat) : Int)) ∧
    0 ≤ v ∧ v ≤ 819 := by
  have hval := get_pwm_value HZ jiffies index client data v hv
  have hwf := update_device_wf HZ jiffies client data (reachable_wf hr)
  have hpwm : (max31785_update_device HZ jiffies client data).2.2.pwm index < 2 ^ 16 :=
    (hwf.2 index).2.2.2.2.2
  refine ⟨hval, ?_, ?_⟩
  · rw [hval]
    split_ifs <;> exact Int.natCast_nonneg _
  · rw [hval]
    by_cases hm : (data.fan_config index).testBit 6 = true ∨ 0x7fff < data.fan_command index
    · rw [if_pos hm]
      have : (max31785_update_device HZ jiffies client data).2.2.pwm index / 100 ≤ 819 := by
        norm_num at hpwm
        omega
      exact_mod_cast this
    · rw [if_neg hm]
      have hc : data.fan_command index ≤ 0x7fff := by
        by_contra hcon
        exact hm (Or.inr (by omega))
      have : data.fan_command index / 40 ≤ 819 := by
        omega
      exact_mod_cast this

theorem set_fan_target_cache (index : Fin NR_CHANNEL) (count v : Nat) (c : i2c_client)
    (d : max31785_data) (hv : v ≤ 32767) :
    (set_fan_target index (Except.ok v) count c d).2.2 =
      { d with fan_command := Function.update d.fan_command index v } ∧
    (set_fan_target index (Except.ok v) count c d).2.1.reply = c.reply := by
  rw [set_fan_target_accepted index count v c d hv]
  split_ifs <;> exact ⟨rfl, rfl⟩

theorem set_pwm_enable_reply (index : Fin NR_CHANNEL) (mode count : Nat) (c : i2c_client)
    (d d1 d2 : max31785_data) (h1 : set_pwm_enable_switch1 index mode d = some d1)
    (h2 : set_pwm_enable_switch2 index mode d1 = some d2) :
    (set_pwm_enable index (Except.ok mode) count c d).2.1.reply = c.reply := by
  rw [set_pwm_enable_accepted index mode count c d d1 d2 h1 h2]
  split_ifs <;> rfl

theorem probed_state_facts :
    (max31785_init_client quiet_client zero_data).1 = 0 ∧ probed_state.1.healthy := by
  constructor
  · rw [init_client_healthy quiet_client zero_data quiet_client_healthy]
    rfl
  · obtain ⟨new, e, _⟩ := init_client_sound quiet_client zero_data
    have : probed_state.1.reply = quiet_client.reply := by
      show (max31785_init_client quiet_client zero_data).2.1.reply = _
      rw [e]
    exact healthy_of_reply_eq this quiet_client_healthy

theorem manual_state_facts :
    manual_state.1.healthy ∧ (manual_state.2.fan_config 0).testBit 6 = false := by
  constructor
  · have : manual_state.1.reply = probed_state.1.reply :=
      set_pwm_enable_reply 0 1 2 probed_state.1 probed_state.2 _ _ rfl rfl
    exact healthy_of_reply_eq this probed_state_facts.2
  · show ((set_pwm_enable 0 (Except.ok 1) 2 probed_state.1 probed_state.2).2.2.fan_config
      0).testBit 6 = false
    rw [set_pwm_enable_cache 0 1 2 probed_state.1 probed_state.2 _ _ rfl rfl]
    simp only [Function.update_same]
    rw [rpm_eq, enable_eq, testBit_clear _ _ _ (by norm_num), testBit_set]
    simp

theorem high_target_state_facts :
    reachable high_target_state.2 ∧
    (get_pwm 100 0 0 high_target_state.1 high_target_state.2).1 = Except.ok 819 := by
  obtain ⟨hinit, _⟩ := probed_state_facts
  obtain ⟨hmh, hm6⟩ := manual_state_facts
  obtain ⟨hcache, hreply⟩ :=
    set_fan_target_cache 0 6 32767 manual_state.1 manual_state.2 (le_refl _)
  have hh : high_target_state.1.healthy := healthy_of_reply_eq hreply hmh
  have hcfg : high_target_state.2.fan_config = manual_state.2.fan_config := by
    show (set_fan_target 0 (Except.ok 32767) 6 manual_state.1 manual_state.2).2.2.fan_config
      = _
    rw [hcache]
  have hcmd : high_target_state.2.fan_command 0 = 32767 := by
    show (set_fan_target 0 (Except.ok 32767) 6 manual_state.1 manual_state.2).2.2.fan_command
      0 = _
    rw [hcache]
    simp
  constructor
  · exact reachable.set_fan_target 0 (Except.ok 32767) 6 manual_state.1 manual_state.2
      (reachable.set_pwm_enable 0 (Except.ok 1) 2 probed_state.1 probed_state.2
        (reachable.init quiet_client hinit))
  · rw [get_pwm_healthy_manual 100 0 0 high_target_state.1 high_target_state.2 hh
      (by rw [hcfg]; exact hm6) (by rw [hcmd]), hcmd]
    rfl

/-- Counterexample to C12 as stated: after `max31785_init_client` on a bus where
every transfer answers `0`, mode 1 is written to `pwm1_enable` and the target
32767 to `fan1_target`; the cache reached is reachable through the driver, and
`get_pwm` for channel 0 then shows 819, which is above 255. -/
theorem get_pwm_above_255 :
    reachable high_target_state.2 ∧
    ∃ v : Int, (get_pwm 100 0 0 high_target_state.1 high_target_state.2).1 = Except.ok v ∧
      255 < v :=
  ⟨high_target_state_facts.1, 819, high_target_state_facts.2, by decide⟩

/-- Witness for `get_pwm_range`: the reachable cache `high_target_state`, whose
`get_pwm` for channel 0 shows 819. -/
theorem get_pwm_range_witness :
    (reachable high_target_state.2 ∧
      (get_pwm 100 0 0 high_target_state.1 high_target_state.2).1 = Except.ok 819) ∧
    (0 : Int) ≤ 819 ∧ (819 : Int) ≤ 819 :=
  ⟨high_target_state_facts,
   (get_pwm_range 100 0 0 high_target_state.1 high_target_state.2
      high_target_state_facts.1 819 high_target_state_facts.2).2⟩


/-! ## Stores and the device lock -/

theorem set_fan_target_events_replay (index : Fin NR_CHANNEL) (buf : Except Int Nat)
    (count : Nat) (c : i2c_client) (d : max31785_data) :
    (set_fan_target index buf count c d).2.2 =
      Event.replay d (set_fan_target_events index buf d) := by
  rcases buf with err | rpm
  · rfl
  · unfold set_fan_target set_fan_target_events
    dsimp only
    split_ifs <;> rfl

theorem set_pwm_events_replay (index : Fin NR_CHANNEL) (buf : Except Int Nat)
    (count : Nat) (c : i2c_client) (d : max31785_data) :
    (set_pwm index buf count c d).2.2 = Event.replay d (set_pwm_events index buf d) := by
  rcases buf with err | pwm
  · rfl
  · unfold set_pwm set_pwm_events
    dsimp only
    split_ifs <;> rfl

theorem set_fan_pulses_events_replay (index : Fin NR_CHANNEL) (buf : Except Int Nat)
    (count : Nat) (c : i2c_client) (d : max31785_data) :
    (set_fan_pulses index buf count c d).2.2 =
      Event.replay d (set_fan_pulses_events index buf d) := by
  rcases buf with err | pulses
  · rfl
  · unfold set_fan_pulses set_fan_pulses_events
    dsimp only
    split_ifs <;>
      simp [Event.replay, Event.apply, Function.update_same, Function.update_idem]

theorem set_pwm_enable_events_replay (index : Fin NR_CHANNEL) (buf : Except Int Nat)
    (count : Nat) (c : i2c_client) (d : max31785_data) :
    (set_pwm_enable index buf count c d).2.2 =
      Event.replay d (set_pwm_enable_events index buf d) := by
  rcases buf with err | mode
  · rfl
  · rcases mode with _ | _ | _ | _ | m
    all_goals
      unfold set_pwm_enable set_pwm_enable_events
      simp only [set_pwm_enable_switch1, set_pwm_enable_switch2,
        set_pwm_enable_switch2_events]
      try split_ifs
      all_goals
        simp [Event.replay, Event.apply, Function.update_same, Function.update_idem]

/-- C15 (stores under the device lock): in `set_fan_target` and `set_pwm` every
store to `fan_command` happens between `mutex_lock` and `mutex_unlock`, but in
`set_fan_pulses` (for every accepted pulse count) and in `set_pwm_enable` (for
every accepted mode) a store to `fan_config` happens before `mutex_lock`; the
events are the stores of the store functions. -/
theorem stores_before_lock :
    (∀ (index : Fin NR_CHANNEL) (buf : Except Int Nat) (data : max31785_data),
      stores_under_lock false (set_fan_target_events index buf data) = true ∧
      stores_under_lock false (set_pwm_events index buf data) = true) ∧
    (∀ (index : Fin NR_CHANNEL) (p : Nat) (data : max31785_data), p ≤ 4 →
      stores_under_lock false (set_fan_pulses_events index (Except.ok p) data) = false) ∧
    (∀ (index : Fin NR_CHANNEL) (mode : Nat) (data : max31785_data), mode ≤ 3 →
      stores_under_lock false (set_pwm_enable_events index (Except.ok mode) data) = false) ∧
    (∀ (index : Fin NR_CHANNEL) (buf : Except Int Nat) (count : Nat) (c : i2c_client)
      (data : max31785_data),
      (set_fan_target index buf count c data).2.2 =
        Event.replay data (set_fan_target_events index buf data) ∧
      (set_pwm index buf count c data).2.2 =
        Event.replay data (set_pwm_events index buf data) ∧
      (set_fan_pulses index buf count c data).2.2 =
        Event.replay data (set_fan_pulses_events index buf data) ∧
      (set_pwm_enable index buf count c data).2.2 =
        Event.replay data (set_pwm_enable_events index buf data)) := by
  refine ⟨?_, ?_, ?_, ?_⟩
  · intro index buf data
    rcases buf with err | v
    · exact ⟨rfl, rfl⟩
    · constructor
      · unfold set_fan_target_events
        dsimp only
        split_ifs <;> rfl
      · unfold set_pwm_events
        dsimp only
        split_ifs <;> rfl
  · intro index p data hp
    unfold set_fan_pulses_events
    dsimp only
    rw [if_neg (by omega)]
    rfl
  · intro index mode data hm
    have h : mode = 0 ∨ mode = 1 ∨ mode = 2 ∨ mode = 3 := by omega
    rcases h with h | h | h | h <;> subst h <;> rfl
  · intro index buf count c data
    exact ⟨set_fan_target_events_replay index buf count c data,
      set_pwm_events_replay index buf count c data,
      set_fan_pulses_events_replay index buf count c data,
      set_pwm_enable_events_replay index buf count c data⟩

/-! ## The pulse count in the watchdog write -/

theorem poll_spec_append (d : max31785_data) (l1 l2 : List (Fin NR_CHANNEL)) :
    poll_spec d (l1 ++ l2) = poll_spec d l1 ++ poll_spec d l2 := by
  induction l1 with
  | nil => rfl
  | cons i rest ih =>
    show poll_channel_spec d i ++ poll_spec d (rest ++ l2) = _
    rw [ih, poll_spec, List.append_assoc]

theorem channels_split (index : Fin NR_CHANNEL) :
    ([0, 1, 2, 3, 4, 5] : List (Fin NR_CHANNEL)) =
      List.take index.val [0, 1, 2, 3, 4, 5] ++
        index :: List.drop (index.val + 1) [0, 1, 2, 3, 4, 5] := by
  fin_cases index <;> rfl

/-- The transfers of a refresh that polls and whose transfers all succeed are
those of `poll_spec`. -/
theorem update_device_trace_of_success (HZ jiffies : Nat) (c : i2c_client)
    (d : max31785_data) (new : List Xfer)
    (hpoll : time_after jiffies (ulong (d.last_updated + HZ)) = true ∨ d.valid = false)
    (hwf : d.wf)
    (hnew : (max31785_update_device HZ jiffies c d).2.1.log = c.log ++ new)
    (hok : ∀ x ∈ new, 0 ≤ x.rv) :
    new.map Xfer.txn = poll_spec d [0, 1, 2, 3, 4, 5] := by
  have hcond : (time_after jiffies (ulong (d.last_updated + HZ)) || !d.valid) = true := by
    rcases hpoll with h | h <;> simp [h]
  obtain ⟨n1, _, hl, _, _, hab, _⟩ := update_device_loop_sound (List.finRange NR_CHANNEL) c d
  obtain ⟨m1, hl1, _, he1, _⟩ := update_device_loop_traced (List.finRange NR_CHANNEL) c d
  have hm : m1 = n1 := List.append_cancel_left (hl1.symm.trans hl)
  subst hm
  unfold max31785_update_device at hnew
  rw [if_pos hcond] at hnew
  rcases hres : update_device_loop (List.finRange NR_CHANNEL) c d with ⟨o, c1, d1⟩
  rw [hres] at hnew hl hab he1
  have hn : m1 = new := by
    cases o <;> exact List.append_cancel_left (hl.symm.trans hnew)
  subst hn
  cases o with
  | some rv =>
    obtain ⟨hneg, pre, t, hpre, _⟩ := hab rv rfl
    have := hok ⟨t, rv⟩ (by rw [hpre]; simp)
    simp only at this
    omega
  | none => rw [he1 rfl hwf, finRange_channels]

/-- The trace of a refresh is what its log holds beyond the log it started from. -/
theorem update_device_log_drop (HZ jiffies : Nat) (c : i2c_client) (d : max31785_data) :
    (max31785_update_device HZ jiffies c d).2.1.log =
      c.log ++ (max31785_update_device HZ jiffies c d).2.1.log.drop c.log.length := by
  obtain ⟨new, hnew, _⟩ := update_device_paged_seq HZ jiffies c d
  rw [hnew, List.drop_left]

/-- The cache `set_fan_pulses` leaves for a value that passes its range check,
whatever the bus answers. -/
theorem set_fan_pulses_cache (index : Fin NR_CHANNEL) (count p : Nat) (c : i2c_client)
    (d : max31785_data) (hp : p ≤ 4) :
    (set_fan_pulses index (Except.ok p) count c d).2.2 =
      { d with
        fan_config := Function.update d.fan_config index
          (u8 (u8 (d.fan_config index &&& 0x30) ||| ulong (ulong_sub p 1 <<< 4))),
        fan_command := Function.update d.fan_command index p } ∧
    (set_fan_pulses index (Except.ok p) count c d).2.1.reply = c.reply := by
  rw [set_fan_pulses_accepted index count p c d hp]
  split_ifs <;> exact ⟨rfl, rfl⟩

theorem automatic_data_wf : automatic_data.wf := by
  refine ⟨by decide, fun i => ?_⟩
  simp [automatic_data, zero_data]

/-- C21 (pulses write leaks into the hardware setpoint): for every prior cache
whose fields are within their C types (a channel in automatic mode included),
every pulse count `p` that passes the range check and whatever the bus answers
to the call, after `set_fan_pulses` the cached `fan_command[i]` is `p`, at most
`0x7fff`, so the channel is not in automatic mode.  When the next
`max31785_update_device` polls and all its transfers succeed, its transfers are
those of the channels before `i`, then those of channel `i`, then those of the
channels after `i`; the transfers of channel `i` are page select and status read,
page select and speed read, page select and PWM read when bit 6 of the new
`fan_config[i]` is set, and last the page select of `i` followed by the word
write of the value `p` to `FAN_COMMAND_1`. -/
theorem set_fan_pulses_then_watchdog (HZ jiffies : Nat) (index : Fin NR_CHANNEL)
    (count p : Nat) (client : i2c_client) (data : max31785_data) (new : List Xfer)
    (hp : p ≤ 4) (hwf : data.wf)
    (hpoll : time_after jiffies (ulong
        ((set_fan_pulses index (Except.ok p) count client data).2.2.last_updated + HZ)) = true ∨
      (set_fan_pulses index (Except.ok p) count client data).2.2.valid = false)
    (hnew : (max31785_update_device HZ jiffies
        (set_fan_pulses index (Except.ok p) count client data).2.1
        (set_fan_pulses index (Except.ok p) count client data).2.2).2.1.log =
      (set_fan_pulses index (Except.ok p) count client data).2.1.log ++ new)
    (hok : ∀ x ∈ new, 0 ≤ x.rv) :
    (set_fan_pulses index (Except.ok p) count client data).2.2.fan_command index = p ∧
    p ≤ 0x7fff ∧
    is_automatic_control_mode
      (set_fan_pulses index (Except.ok p) count client data).2.2 index = false ∧
    new.map Xfer.txn =
      poll_spec (set_fan_pulses index (Except.ok p) count client data).2.2
        (List.take index.val [0, 1, 2, 3, 4, 5]) ++
      poll_channel_spec (set_fan_pulses index (Except.ok p) count client data).2.2 index ++
      poll_spec (set_fan_pulses index (Except.ok p) count client data).2.2
        (List.drop (index.val + 1) [0, 1, 2, 3, 4, 5]) ∧
    poll_channel_spec (set_fan_pulses index (Except.ok p) count client data).2.2 index =
      [Txn.write_byte_data MAX31785_REG_PAGE index,
       Txn.read_byte_data MAX31785_REG_STATUS_FANS_1_2,
       Txn.write_byte_data MAX31785_REG_PAGE index,
       Txn.read_word_data MAX31785_REG_FAN_SPEED_1] ++
      (if ((set_fan_pulses index (Except.ok p) count client data).2.2.fan_config
            index).testBit 6 = true then
        [Txn.write_byte_data MAX31785_REG_PAGE index,
         Txn.read_word_data MAX31785_REG_READ_FAN_PWM]
       else []) ++
      [Txn.write_byte_data MAX31785_REG_PAGE index,
       Txn.write_word_data MAX31785_REG_FAN_COMMAND_1 p] := by
  have hcmd : (set_fan_pulses index (Except.ok p) count client data).2.2.fan_command index
      = p := by
    rw [(set_fan_pulses_cache index count p client data hp).1]
    simp
  have hwf2 := set_fan_pulses_wf index (Except.ok p) count client data hwf
  generalize set_fan_pulses index (Except.ok p) count client data = S at *
  have htr := update_device_trace_of_success HZ jiffies S.2.1 S.2.2 new hpoll hwf2 hnew hok
  have hle : p ≤ 0x7fff := by omega
  have hnot : ¬ 0x7fff < S.2.2.fan_command index := by
    rw [hcmd]
    omega
  refine ⟨hcmd, hle, ?_, ?_, ?_⟩
  · unfold is_automatic_control_mode
    rw [if_neg hnot]
  · rw [htr]
    nth_rewrite 1 [channels_split index]
    rw [poll_spec_append]
    simp only [poll_spec, List.append_assoc]
  · unfold poll_channel_spec
    rw [if_pos (show S.2.2.fan_command index ≤ 0x7fff by rw [hcmd]; exact hle), hcmd]
    simp only [show ¬ 0x7fff < p by omega, or_false]

/-- Witness for `set_fan_pulses_then_watchdog`: two pulses on channel 0 of the
never refreshed cache `automatic_data`, whose channels are in automatic mode, on
a bus where every transfer answers `0`. -/
theorem set_fan_pulses_then_watchdog_witness :
    (2 ≤ 4 ∧ automatic_data.wf ∧ is_automatic_control_mode automatic_data 0 = true) ∧
    is_automatic_control_mode
      (set_fan_pulses 0 (Except.ok 2) 2 quiet_client automatic_data).2.2 0 = false ∧
    poll_channel_spec (set_fan_pulses 0 (Except.ok 2) 2 quiet_client automatic_data).2.2 0 =
      [Txn.write_byte_data MAX31785_REG_PAGE 0,
       Txn.read_byte_data MAX31785_REG_STATUS_FANS_1_2,
       Txn.write_byte_data MAX31785_REG_PAGE 0,
       Txn.read_word_data MAX31785_REG_FAN_SPEED_1,
       Txn.write_byte_data MAX31785_REG_PAGE 0,
       Txn.write_word_data MAX31785_REG_FAN_COMMAND_1 2] :=
  ⟨⟨by decide, automatic_data_wf, rfl⟩,
   (set_fan_pulses_then_watchdog 100 0 0 2 2 quiet_client automatic_data
      ((max31785_update_device 100 0
        (set_fan_pulses 0 (Except.ok 2) 2 quiet_client automatic_data).2.1
        (set_fan_pulses 0 (Except.ok 2) 2 quiet_client automatic_data).2.2).2.1.log.drop
        (set_fan_pulses 0 (Except.ok 2) 2 quiet_client automatic_data).2.1.log.length)
      (by decide) automatic_data_wf (Or.inr rfl)
      (update_device_log_drop 100 0 _ _)
      (update_device_healthy_trace 100 0 _ _
        (healthy_of_reply_eq
          (set_fan_pulses_cache 0 2 2 quiet_client automatic_data (by decide)).2
          quiet_client_healthy) _
        (update_device_log_drop 100 0 _ _))).2.2.1,
   (set_fan_pulses_then_watchdog 100 0 0 2 2 quiet_client automatic_data
      ((max31785_update_device 100 0
        (set_fan_pulses 0 (Except.ok 2) 2 quiet_client automatic_data).2.1
        (set_fan_pulses 0 (Except.ok 2) 2 quiet_client automatic_data).2.2).2.1.log.drop
        (set_fan_pulses 0 (Except.ok 2) 2 quiet_client automatic_data).2.1.log.length)
      (by decide) automatic_data_wf (Or.inr rfl)
      (update_device_log_drop 100 0 _ _)
      (update_device_healthy_trace 100 0 _ _
        (healthy_of_reply_eq
          (set_fan_pulses_cache 0 2 2 quiet_client automatic_data (by decide)).2
          quiet_client_healthy) _
        (update_device_log_drop 100 0 _ _))).2.2.2.2⟩

end Max31785
